import Mathlib

/-!
# SimpTCP: the per-state handlers of `simptcp_lib.c`

A shallow embedding of the socket table, the socket control block and the
per-state handlers of the SimpTCP protocol entity, followed by theorems about
them.

Modelling conventions.

* The socket table `simptcp_entity.simptcp_socket_descriptors` is a list of
  optional sockets (`none` is the `NULL` pointer).  A pointer to a socket is the
  index of the table slot that owns it; every socket of the program is
  allocated by `create_simptcp_socket` and lives in such a slot.
* `malloc` returns uninitialised memory: the functions that allocate take the
  previous content `raw` of that memory as an argument, and the fields that the
  source does not assign keep the value they have in `raw`.
* The clock (`gettimeofday`), the success of `malloc` and the success of
  `libc_sendto` are arguments of the functions that use them.
* A handler that busy-waits on a field which another thread changes is cut at
  the wait: one definition runs the handler up to the loop, one definition is
  the loop condition, one definition runs the handler from the end of the loop.
* Integer widths follow the formats of `print_simptcp_socket`: `%u` fields are
  32-bit unsigned (wrap modulo 2^32), `%lu` counters are 64-bit unsigned,
  `%d` fields are `Int`.  Header fields have the widths of the wire format.
* The mutex of a socket is not modelled.
-/

set_option linter.unusedVariables false

namespace SimpTCP

/-! ## Constants -/

/-- Constants that the source uses and that are declared in headers outside
`simptcp_lib.c`: the size of the socket table, the size of the socket buffers
and the three flag bits. -/
structure Config where
  MAX_OPEN_SOCK : Nat
  SIMPTCP_SOCKET_MAX_BUFFER_SIZE : Nat
  SYN : Nat
  ACK : Nat
  FIN : Nat
deriving DecidableEq

/-- Modelled from the spec: the macro `SIMPTCP_GHEADER_SIZE` (and
`sizeof(simptcp_generic_header)`) is declared in `simptcp_packet.h`; the wire
format of the spec has a fixed 16-byte header, the payload starting at
offset 16. -/
def SIMPTCP_GHEADER_SIZE : Nat := 16

/-- The value of `ENOMEM` in `errno.h`. -/
def ENOMEM : Int := 12

/-- The value of `ENFILE` in `errno.h`. -/
def ENFILE : Int := 23

/-- The value of `AF_INET` in `sys/socket.h`. -/
def AF_INET : Nat := 2

/-- The value of `INADDR_ANY` in `netinet/in.h`. -/
def INADDR_ANY : Nat := 0

/-- Conversion to `u_int16_t`. -/
def u16 (x : Nat) : Nat := x % 65536

/-- Conversion to `unsigned char`. -/
def u8 (x : Nat) : Nat := x % 256

/-- Arithmetic of `unsigned int`. -/
def u32 (x : Nat) : Nat := x % 4294967296

/-- Arithmetic of `unsigned long`. -/
def u64 (x : Nat) : Nat := x % 18446744073709551616

/-- The function `htons` followed by the store in `sin_port`: a port is kept as
the 16-bit number it denotes. -/
def htons (x : Nat) : Nat := u16 x

/-- The function `ntohs` on a stored port. -/
def ntohs (x : Nat) : Nat := u16 x

/-! ## Data model -/

/-- The states of a socket: the members of `simptcp_socket_states`, in the
order of `simptcp_socket_state_get_str`. -/
inductive simptcp_socket_state where
  | closed
  | listen
  | synsent
  | synrcvd
  | established
  | closewait
  | finwait1
  | finwait2
  | closing
  | lastack
  | timewait
deriving DecidableEq

/-- The values of the field `socket_type`. -/
inductive simptcp_socket_type where
  | unknown
  | client
  | listening_server
  | nonlistening_server
deriving DecidableEq

/-- The type `struct sockaddr_in`; `sin_port` holds the port number. -/
structure sockaddr_in where
  sin_family : Nat
  sin_port : Nat
  sin_addr : Nat
deriving DecidableEq

/-- The type `struct timeval`. -/
structure timeval where
  tv_sec : Int
  tv_usec : Int
deriving DecidableEq

/-- A buffer that holds a PDU: the fields of `simptcp_generic_header` followed
by the bytes after the header. -/
structure simptcp_buffer where
  sport : Nat
  dport : Nat
  seq_num : Nat
  ack_num : Nat
  header_len : Nat
  flags : Nat
  total_len : Nat
  window_size : Nat
  checksum : Nat
  data : List Nat
deriving DecidableEq

/-- The type `struct simptcp_socket`, with the fields that `simptcp_lib.c`
reads or writes.  `new_conn_req` is `none` for `NULL` and otherwise the array of
pointers to the pending children, each pointer being a table index. -/
structure simptcp_socket where
  socket_type : simptcp_socket_type
  new_conn_req : Option (List (Option Nat))
  pending_conn_req : Int
  max_conn_req_backlog : Int
  local_simptcp : sockaddr_in
  remote_simptcp : sockaddr_in
  remote_udp : sockaddr_in
  socket_state : simptcp_socket_state
  socket_state_sender : Int
  next_seq_num : Nat
  out_buffer : simptcp_buffer
  out_len : Int
  nbr_retransmit : Nat
  timer_duration : Nat
  timeout : timeval
  socket_state_receiver : Int
  next_ack_num : Nat
  in_buffer : simptcp_buffer
  in_len : Int
  simptcp_send_count : Nat
  simptcp_receive_count : Nat
  simptcp_in_errors_count : Nat
  simptcp_retransmit_count : Nat
deriving DecidableEq

/-- The part of the global `simptcp_entity` that `simptcp_lib.c` uses: the
socket table and the number of open sockets. -/
structure simptcp_entity_t where
  simptcp_socket_descriptors : List (Option simptcp_socket)
  open_simptcp_sockets : Int
deriving DecidableEq

/-- A datagram handed to `libc_sendto`: the buffer, the number of bytes of it
that are sent and the destination. -/
structure datagram where
  buf : simptcp_buffer
  len : Int
  dest : sockaddr_in
deriving DecidableEq

/-! ## Socket creation -/

/-- The function `get_initial_seq_num`. -/
def get_initial_seq_num : Nat := 15

/-- A buffer after `memset(buffer, 0, SIMPTCP_SOCKET_MAX_BUFFER_SIZE)`. -/
def zero_buffer (cfg : Config) : simptcp_buffer :=
  { sport := 0, dport := 0, seq_num := 0, ack_num := 0, header_len := 0, flags := 0,
    total_len := 0, window_size := 0, checksum := 0,
    data := List.replicate (cfg.SIMPTCP_SOCKET_MAX_BUFFER_SIZE - SIMPTCP_GHEADER_SIZE) 0 }

/-- An address after `memset(&addr, 0, sizeof (struct sockaddr))`. -/
def zero_addr : sockaddr_in := { sin_family := 0, sin_port := 0, sin_addr := 0 }

/-- The function `init_simptcp_socket`, applied to the memory `raw`. -/
def init_simptcp_socket (cfg : Config) (raw : simptcp_socket) (lport : Nat) : simptcp_socket :=
  { raw with
    socket_type := simptcp_socket_type.unknown
    new_conn_req := none
    pending_conn_req := 0
    local_simptcp := { sin_family := AF_INET, sin_addr := INADDR_ANY, sin_port := htons lport }
    remote_simptcp := zero_addr
    socket_state := simptcp_socket_state.closed
    socket_state_sender := -1
    next_seq_num := get_initial_seq_num
    out_buffer := zero_buffer cfg
    out_len := 0
    nbr_retransmit := 0
    timer_duration := 1500
    socket_state_receiver := -1
    next_ack_num := 0
    in_buffer := zero_buffer cfg
    in_len := 0
    simptcp_send_count := 0
    simptcp_receive_count := 0
    simptcp_in_errors_count := 0
    simptcp_retransmit_count := 0 }

/-- The slot `fd` of the socket table (`none` when the slot holds `NULL`). -/
def slot (e : simptcp_entity_t) (fd : Nat) : Option simptcp_socket :=
  e.simptcp_socket_descriptors.getD fd none

/-- The socket table with the slot `fd` assigned. -/
def set_slot (e : simptcp_entity_t) (fd : Nat) (s : Option simptcp_socket) : simptcp_entity_t :=
  { e with simptcp_socket_descriptors := e.simptcp_socket_descriptors.set fd s }

/-- The loop of `create_simptcp_socket` from the index `fd`, with `n` indices
left below `MAX_OPEN_SOCK`. -/
def create_loop (cfg : Config) (e : simptcp_entity_t) (raw : simptcp_socket) (mallocOk : Bool) :
    Nat → Nat → Int × simptcp_entity_t
  | 0, _ => (-ENFILE, e)
  | n + 1, fd =>
    if slot e fd = none then
      if mallocOk then
        ((fd : Int),
          { set_slot e fd (some (init_simptcp_socket cfg raw (15000 + fd))) with
            open_simptcp_sockets := e.open_simptcp_sockets + 1 })
      else (-ENOMEM, e)
    else create_loop cfg e raw mallocOk n (fd + 1)

/-- The function `create_simptcp_socket`: the result and the entity after the
call. -/
def create_simptcp_socket (cfg : Config) (e : simptcp_entity_t) (raw : simptcp_socket)
    (mallocOk : Bool) : Int × simptcp_entity_t :=
  create_loop cfg e raw mallocOk cfg.MAX_OPEN_SOCK 0

/-! ## Timer -/

/-- The function `start_timer`; `t0` is the clock read by `gettimeofday`.  The
division and the remainder of C truncate towards zero. -/
def start_timer (sock : simptcp_socket) (duration : Int) (t0 : timeval) : simptcp_socket :=
  { sock with
    timeout :=
      { tv_sec := t0.tv_sec + Int.tdiv duration 1000
        tv_usec := t0.tv_usec + Int.tmod duration 1000 * 1000 } }

/-- The function `stop_timer`. -/
def stop_timer (sock : simptcp_socket) : simptcp_socket :=
  { sock with timeout := { tv_sec := 0, tv_usec := 0 } }

/-- The function `has_active_timer`. -/
def has_active_timer (sock : simptcp_socket) : Bool :=
  sock.timeout.tv_sec != 0 || sock.timeout.tv_usec != 0

/-- The function `is_timeout`; `t0` is the clock read by `gettimeofday`. -/
def is_timeout (sock : simptcp_socket) (t0 : timeval) : Bool :=
  decide (sock.timeout.tv_sec < t0.tv_sec) ||
    (sock.timeout.tv_sec == t0.tv_sec && decide (sock.timeout.tv_usec < t0.tv_usec))

/-! ## PDU accessors and `make_pdu` -/

/-- Modelled from the spec: the accessors of `simptcp_packet.h` are not in
`simptcp_lib.c`; by the wire format the source port is a 2-byte field. -/
def simptcp_set_sport (b : simptcp_buffer) (v : Nat) : simptcp_buffer := { b with sport := u16 v }

/-- Modelled from the spec: the destination port is a 2-byte field. -/
def simptcp_set_dport (b : simptcp_buffer) (v : Nat) : simptcp_buffer := { b with dport := u16 v }

/-- Modelled from the spec: the sequence number is a 2-byte field. -/
def simptcp_set_seq_num (b : simptcp_buffer) (v : Nat) : simptcp_buffer :=
  { b with seq_num := u16 v }

/-- Modelled from the spec: the acknowledgment number is a 2-byte field. -/
def simptcp_set_ack_num (b : simptcp_buffer) (v : Nat) : simptcp_buffer :=
  { b with ack_num := u16 v }

/-- Modelled from the spec: the header length is a 1-byte field. -/
def simptcp_set_head_len (b : simptcp_buffer) (v : Nat) : simptcp_buffer :=
  { b with header_len := u8 v }

/-- Modelled from the spec: the flag bits are a 1-byte field. -/
def simptcp_set_flags (b : simptcp_buffer) (v : Nat) : simptcp_buffer := { b with flags := u8 v }

/-- Modelled from the spec: the total length is a 2-byte field. -/
def simptcp_set_total_len (b : simptcp_buffer) (v : Nat) : simptcp_buffer :=
  { b with total_len := u16 v }

/-- Modelled from the spec: the advertised window is a 2-byte field. -/
def simptcp_set_win_size (b : simptcp_buffer) (v : Nat) : simptcp_buffer :=
  { b with window_size := u16 v }

/-- Modelled from the spec: typed read of the source port. -/
def simptcp_get_sport (b : simptcp_buffer) : Nat := u16 b.sport

/-- Modelled from the spec: typed read of the destination port. -/
def simptcp_get_dport (b : simptcp_buffer) : Nat := u16 b.dport

/-- Modelled from the spec: typed read of the sequence number. -/
def simptcp_get_seq_num (b : simptcp_buffer) : Nat := u16 b.seq_num

/-- Modelled from the spec: typed read of the acknowledgment number. -/
def simptcp_get_ack_num (b : simptcp_buffer) : Nat := u16 b.ack_num

/-- Modelled from the spec: typed read of the header length. -/
def simptcp_get_head_len (b : simptcp_buffer) : Nat := u8 b.header_len

/-- Modelled from the spec: typed read of the flag bits. -/
def simptcp_get_flags (b : simptcp_buffer) : Nat := u8 b.flags

/-- Modelled from the spec: typed read of the total length. -/
def simptcp_get_total_len (b : simptcp_buffer) : Nat := u16 b.total_len

/-- Modelled from the spec: typed read of the advertised window. -/
def simptcp_get_win_size (b : simptcp_buffer) : Nat := u16 b.window_size

/-- A 2-byte field on the wire, big-endian. -/
def be16 (x : Nat) : List Nat := [u16 x / 256, u16 x % 256]

/-- Modelled from the spec: the bytes of a buffer in the wire format of the
spec, the 16 header bytes followed by the bytes after the header. -/
def buffer_bytes (b : simptcp_buffer) : List Nat :=
  be16 b.sport ++ be16 b.dport ++ be16 b.seq_num ++ be16 b.ack_num ++
    [u8 b.header_len, u8 b.flags] ++ be16 b.total_len ++ be16 b.window_size ++
    be16 b.checksum ++ b.data

/-- The sum of the 16-bit big-endian words of a byte string, an odd last byte
being followed by an implicit zero byte. -/
def sum16 : List Nat → Nat
  | [] => 0
  | [a] => a * 256
  | a :: b :: rest => a * 256 + b + sum16 rest

/-- The end-around carry of the one's-complement sum, with `n` rounds left. -/
def fold16_loop : Nat → Nat → Nat
  | 0, s => s
  | n + 1, s => if s < 65536 then s else fold16_loop n (s % 65536 + s / 65536)

/-- The end-around carry of the one's-complement sum; every round makes the
sum smaller, so that `s` rounds are enough. -/
def fold16 (s : Nat) : Nat := fold16_loop s s

/-- Modelled from the spec: `simptcp_add_checksum` is not in `simptcp_lib.c`;
by the spec it zeroes the checksum field, sums the first `len` bytes in 16-bit
one's complement and writes the complement of the sum in the field. -/
def simptcp_add_checksum (b : simptcp_buffer) (len : Nat) : simptcp_buffer :=
  { b with
    checksum := 65535 - fold16 (sum16 ((buffer_bytes { b with checksum := 0 }).take len)) }

/-- The function `make_pdu`: the socket after the call and the result.  The
message is the list of its `longueur_message` bytes (`NULL, 0` is the empty
list).  The test of the size comes after the writes, as in the source. -/
def make_pdu (cfg : Config) (socket : simptcp_socket) (message : List Nat) (flags : Nat) :
    simptcp_socket × Int :=
  let b := simptcp_set_sport socket.out_buffer (ntohs socket.local_simptcp.sin_port)
  let b := simptcp_set_dport b (ntohs socket.remote_simptcp.sin_port)
  let b := simptcp_set_seq_num b (u16 socket.next_seq_num)
  let b := simptcp_set_ack_num b (u16 socket.next_ack_num)
  let b := simptcp_set_head_len b SIMPTCP_GHEADER_SIZE
  let b := simptcp_set_flags b (u8 flags)
  let b := simptcp_set_total_len b (SIMPTCP_GHEADER_SIZE + message.length)
  let b := simptcp_set_win_size b 0
  let b := { b with data := message ++ b.data.drop message.length }
  let b := simptcp_add_checksum b (SIMPTCP_GHEADER_SIZE + message.length)
  let s := { socket with
             out_buffer := b
             out_len := ((SIMPTCP_GHEADER_SIZE + message.length : Nat) : Int) }
  (s, if SIMPTCP_GHEADER_SIZE + message.length > cfg.SIMPTCP_SOCKET_MAX_BUFFER_SIZE then -1 else 0)

/-- The call `libc_sendto(udp_fd, sock->out_buffer, sock->out_len, 0, dest, ..)`:
the datagrams that leave, none when the call fails. -/
def sendto_out (sock : simptcp_socket) (dest : sockaddr_in) (sendOk : Bool) : List datagram :=
  if sendOk then [{ buf := sock.out_buffer, len := sock.out_len, dest := dest }] else []

/-! ## State CLOSED -/

/-- The function `closed_simptcp_socket_state_active_open` up to its wait loop.
The first component is `some rc` when the function has returned `rc` before
the loop and `none` when it has reached the loop; then the socket and the
datagrams sent. -/
def closed_simptcp_socket_state_active_open_start (cfg : Config) (sock : simptcp_socket)
    (addr : sockaddr_in) (sendOk : Bool) (t0 : timeval) :
    Option Int × simptcp_socket × List datagram :=
  let s := { sock with socket_type := simptcp_socket_type.client }
  let s := { s with remote_simptcp := addr, remote_udp := addr }
  let s := { s with next_seq_num := 0, next_ack_num := 0 }
  let r := make_pdu cfg s [] cfg.SYN
  if r.2 ≠ 0 then (some (-1), r.1, [])
  else if sendOk = false then (some (-1), r.1, [])
  else
    let s := { r.1 with socket_state := simptcp_socket_state.synsent }
    let s := { s with socket_type := simptcp_socket_type.listening_server }
    let s := { s with next_seq_num := u32 (s.next_seq_num + 1) }
    (none, start_timer s 1000 t0, sendto_out r.1 addr sendOk)

/-- The condition of the wait loop of `closed_simptcp_socket_state_active_open`
(`connect_max` is 5). -/
def closed_simptcp_socket_state_active_open_wait (sock : simptcp_socket) : Bool :=
  decide (sock.simptcp_send_count < 5) &&
    sock.socket_state != simptcp_socket_state.established

/-- The function `closed_simptcp_socket_state_active_open` from the end of its
wait loop: the result and the socket. -/
def closed_simptcp_socket_state_active_open_finish (sock : simptcp_socket) :
    Int × simptcp_socket :=
  let s := stop_timer sock
  if s.simptcp_send_count ≥ 5 then (-1, { s with socket_state := simptcp_socket_state.closed })
  else (0, { s with simptcp_send_count := 0 })

/-- The function `closed_simptcp_socket_state_passive_open`; `rawq` is the
memory that `malloc(n*sizeof(struct simptcp_socket *))` returns. -/
def closed_simptcp_socket_state_passive_open (sock : simptcp_socket) (n : Int)
    (rawq : List (Option Nat)) : Int × simptcp_socket :=
  let s := { sock with new_conn_req := some rawq }
  let s := { s with socket_type := simptcp_socket_type.listening_server }
  let s := { s with max_conn_req_backlog := n }
  let s := { s with socket_state := simptcp_socket_state.listen }
  let s := { s with next_seq_num := 0, next_ack_num := 0 }
  (0, s)

/-! ## State LISTEN -/

/-- The first wait loop of `listen_simptcp_socket_state_accept`. -/
def listen_simptcp_socket_state_accept_wait_request (sock : simptcp_socket) : Bool :=
  sock.pending_conn_req == 0

/-- The function `listen_simptcp_socket_state_accept` between its two wait
loops, on the listener in slot `lfd`.  The result is `none` when the function
dereferences a pointer that is null, dangling or past the end of its array.
Otherwise the first component is `some rc` when the function has returned `rc`
and `none` when it has reached the second loop. -/
def listen_simptcp_socket_state_accept_start (cfg : Config) (e : simptcp_entity_t) (lfd : Nat)
    (sendOk : Bool) (t0 : timeval) : Option (Option Int × simptcp_entity_t × List datagram) :=
  match slot e lfd with
  | none => none
  | some sock =>
    match sock.new_conn_req with
    | none => none
    | some q =>
      match q.head? with
      | none => none
      | some none => some (some (-1), e, [])
      | some (some cfd) =>
        match slot e cfd with
        | none => none
        | some child =>
          let r := make_pdu cfg child [] (cfg.SYN + cfg.ACK)
          if r.2 ≠ 0 then some (some (-1), set_slot e cfd (some r.1), [])
          else if sendOk = false then some (some (-1), set_slot e cfd (some r.1), [])
          else
            let c := { r.1 with next_seq_num := u32 (r.1.next_seq_num + 1) }
            let c := { c with socket_state := simptcp_socket_state.synsent }
            let c := start_timer c 1000 t0
            some (none, set_slot e cfd (some c), sendto_out r.1 r.1.remote_udp sendOk)

/-- The condition of the second wait loop of
`listen_simptcp_socket_state_accept`, on the child `new_conn_req[0]`. -/
def listen_simptcp_socket_state_accept_wait (child : simptcp_socket) : Bool :=
  decide (child.simptcp_send_count < 5) &&
    child.socket_state != simptcp_socket_state.established

/-- The function `listen_simptcp_socket_state_accept` from the end of its second
wait loop, on the listener in slot `lfd`: the result and the entity.  The
counter of the child is reset before it is compared with `connect_max`, as in
the source. -/
def listen_simptcp_socket_state_accept_finish (e : simptcp_entity_t) (lfd : Nat) :
    Option (Int × simptcp_entity_t) :=
  match slot e lfd with
  | none => none
  | some sock =>
    match sock.new_conn_req with
    | none => none
    | some q =>
      match q.head? with
      | none => none
      | some none => none
      | some (some cfd) =>
        match slot e cfd with
        | none => none
        | some child =>
          let c := { child with simptcp_send_count := 0 }
          let c := stop_timer c
          let e1 := set_slot e cfd (some c)
          if c.simptcp_send_count ≥ 5 then some (-1, e1)
          else
            match slot e1 lfd with
            | none => none
            | some sock1 =>
              match sock1.new_conn_req with
              | none => none
              | some q1 =>
                let l := { sock1 with new_conn_req := some (q1.set 0 none) }
                let l := { l with pending_conn_req := l.pending_conn_req - 1 }
                some (1, set_slot e1 lfd (some l))

/-- The function `listen_simptcp_socket_state_process_simptcp_pdu` on the
listener in slot `lfd`: the entity after the call and the datagrams sent.  The
result is `none` when the function dereferences an invalid pointer: the
listener itself, the slot `fd` when `create_simptcp_socket` has returned an
error, the array `new_conn_req` when it is null or has no element. -/
def listen_simptcp_socket_state_process_simptcp_pdu (cfg : Config) (e : simptcp_entity_t)
    (lfd : Nat) (buf : simptcp_buffer) (raw : simptcp_socket) (mallocOk sendOk : Bool) :
    Option (simptcp_entity_t × List datagram) :=
  match slot e lfd with
  | none => none
  | some sock =>
    if simptcp_get_flags buf = cfg.SYN then
      if simptcp_get_seq_num buf = sock.next_ack_num then
        let r := create_simptcp_socket cfg e raw mallocOk
        if r.1 < 0 then none
        else
          let fd := r.1.toNat
          match slot r.2 fd with
          | none => none
          | some new_sock =>
            let c := { new_sock with socket_type := simptcp_socket_type.nonlistening_server }
            let c := { c with pending_conn_req := 0 }
            let c := { c with remote_udp := sock.remote_udp }
            let c := { c with remote_simptcp := sock.remote_simptcp }
            let c := { c with next_ack_num := simptcp_get_ack_num buf + 1 }
            let c := { c with next_seq_num := simptcp_get_seq_num buf }
            let e1 := set_slot r.2 fd (some c)
            match slot e1 lfd with
            | none => none
            | some sock1 =>
              match sock1.new_conn_req with
              | none => none
              | some q =>
                if q.length = 0 then none
                else
                  let l := { sock1 with pending_conn_req := sock1.pending_conn_req + 1 }
                  let l := { l with new_conn_req := some (q.set 0 (some fd)) }
                  some (set_slot e1 lfd (some l), [])
      else some (e, [])
    else
      let r := make_pdu cfg sock [] cfg.ACK
      some (set_slot e lfd (some r.1), sendto_out r.1 r.1.remote_udp sendOk)

/-! ## State SYNSENT -/

/-- The function `synsent_simptcp_socket_state_process_simptcp_pdu`: the socket
after the call and the datagrams sent. -/
def synsent_simptcp_socket_state_process_simptcp_pdu (cfg : Config) (sock : simptcp_socket)
    (buf : simptcp_buffer) (sendOk : Bool) : simptcp_socket × List datagram :=
  if simptcp_get_flags buf = cfg.SYN + cfg.ACK then
    if simptcp_get_seq_num buf = sock.next_ack_num then
      let s := { sock with socket_type := simptcp_socket_type.client }
      let s := { s with socket_state := simptcp_socket_state.established }
      let s := { s with
                 remote_simptcp := { s.remote_simptcp with sin_port := htons (simptcp_get_sport buf) } }
      let s := { s with next_ack_num := u32 (s.next_ack_num + 1) }
      let r := make_pdu cfg s [] cfg.ACK
      (r.1, sendto_out r.1 r.1.remote_udp sendOk)
    else
      let r := make_pdu cfg sock [] cfg.ACK
      (r.1, sendto_out r.1 r.1.remote_udp sendOk)
  else if simptcp_get_flags buf = cfg.ACK then
    if simptcp_get_ack_num buf = sock.next_seq_num then
      (stop_timer { sock with socket_state := simptcp_socket_state.established }, [])
    else (sock, [])
  else (sock, [])

/-- The function `synsent_simptcp_socket_state_handle_timeout`: the socket
after the call and the datagrams sent; `t0` is the clock read by
`start_timer`. -/
def synsent_simptcp_socket_state_handle_timeout (sock : simptcp_socket) (sendOk : Bool)
    (t0 : timeval) : simptcp_socket × List datagram :=
  let s := stop_timer sock
  let s := { s with simptcp_send_count := u64 (s.simptcp_send_count + 1) }
  (start_timer s 1000 t0, sendto_out s s.remote_udp sendOk)

/-! ## State ESTABLISHED -/

/-- The call `libc_sendto(udp_fd, buf, len, 0, dest, ..)` with an explicit
length: the datagrams that leave, none when the call fails. -/
def sendto_len (buf : simptcp_buffer) (len : Int) (dest : sockaddr_in) (sendOk : Bool) :
    List datagram :=
  if sendOk then [{ buf := buf, len := len, dest := dest }] else []

/-- The payload that a datagram carries: the bytes that follow the 16 header
bytes among the `len` bytes sent. -/
def datagram_payload (d : datagram) : List Nat :=
  d.buf.data.take (d.len.toNat - SIMPTCP_GHEADER_SIZE)

/-- The function `established_simptcp_socket_state_send` up to its wait loop:
the socket and the datagrams sent.  The result of `make_pdu` is only printed,
and the length handed to `libc_sendto` is the total length read in the
header. -/
def established_simptcp_socket_state_send_start (cfg : Config) (sock : simptcp_socket)
    (buf : List Nat) (sendOk : Bool) (t0 : timeval) : simptcp_socket × List datagram :=
  let r := make_pdu cfg sock buf 0
  let out := sendto_len r.1.out_buffer (simptcp_get_total_len r.1.out_buffer) r.1.remote_udp sendOk
  let s := { r.1 with socket_state_receiver := 2 }
  let s := start_timer s 1000 t0
  let s := { s with next_seq_num := u32 (s.next_seq_num + 1) }
  (s, out)

/-- The condition of the wait loop of `established_simptcp_socket_state_send`. -/
def established_simptcp_socket_state_send_wait (sock : simptcp_socket) : Bool :=
  decide (sock.simptcp_send_count < 5) && sock.socket_state_receiver == 2

/-- The function `established_simptcp_socket_state_send` from the end of its wait
loop, for a message of `n` bytes: the result and the socket. -/
def established_simptcp_socket_state_send_finish (sock : simptcp_socket) (n : Nat) :
    Int × simptcp_socket :=
  let s := stop_timer sock
  if s.simptcp_send_count ≥ 5 then (-1, { s with socket_state := simptcp_socket_state.closed })
  else (0, { s with simptcp_send_count := 0 })

/-- Modelled from the spec: `simptcp_extract_data` is declared in
`simptcp_packet.h`, outside `simptcp_lib.c`.  By the spec the header carries its
own length and the total length of the PDU, and `recv` hands over the payload
of the buffered PDU: the function copies the bytes between the header and the
total length to the buffer of the caller and returns their number.  The result
is that number and the bytes copied. -/
def simptcp_extract_data (pdu : simptcp_buffer) : Int × List Nat :=
  let payload := pdu.data.take (simptcp_get_total_len pdu - simptcp_get_head_len pdu)
  ((payload.length : Int), payload)

/-- The function `established_simptcp_socket_state_recv` up to its wait loop. -/
def established_simptcp_socket_state_recv_start (sock : simptcp_socket) : simptcp_socket :=
  { sock with socket_state_sender := 1 }

/-- The condition of the wait loop of `established_simptcp_socket_state_recv`. -/
def established_simptcp_socket_state_recv_wait (sock : simptcp_socket) : Bool :=
  sock.socket_state_sender == 1

/-- The function `established_simptcp_socket_state_recv` from the end of its wait
loop: the result and the bytes written in the buffer of the caller.  The size
`n` of that buffer is not handed to `simptcp_extract_data`. -/
def established_simptcp_socket_state_recv_finish (sock : simptcp_socket) (n : Nat) :
    Int × List Nat :=
  simptcp_extract_data sock.in_buffer

/-- The value of a 2-byte header field at offset `off` after `memcpy` of `len`
bytes: the source field when both bytes are copied, the high byte of the
source and the low byte of the destination when `len` ends between them, the
destination field otherwise. -/
def copy16 (len off src dst : Nat) : Nat :=
  if off + 2 ≤ len then src
  else if off + 1 ≤ len then u16 src / 256 * 256 + u16 dst % 256
  else dst

/-- The value of a 1-byte header field at offset `off` after `memcpy` of `len`
bytes. -/
def copy8 (len off src dst : Nat) : Nat :=
  if off + 1 ≤ len then src else dst

/-- The call `memcpy(dst, src, len)` on two buffers, with the offsets of the
wire format. -/
def memcpy_buffer (dst src : simptcp_buffer) (len : Nat) : simptcp_buffer :=
  { sport := copy16 len 0 src.sport dst.sport
    dport := copy16 len 2 src.dport dst.dport
    seq_num := copy16 len 4 src.seq_num dst.seq_num
    ack_num := copy16 len 6 src.ack_num dst.ack_num
    header_len := copy8 len 8 src.header_len dst.header_len
    flags := copy8 len 9 src.flags dst.flags
    total_len := copy16 len 10 src.total_len dst.total_len
    window_size := copy16 len 12 src.window_size dst.window_size
    checksum := copy16 len 14 src.checksum dst.checksum
    data := src.data.take (len - SIMPTCP_GHEADER_SIZE) ++
      dst.data.drop (len - SIMPTCP_GHEADER_SIZE) }

/-- The function `established_simptcp_socket_state_process_simptcp_pdu`: the
socket after the call and the datagrams sent.  The three tests of the flags
follow one another, as in the source. -/
def established_simptcp_socket_state_process_simptcp_pdu (cfg : Config) (sock : simptcp_socket)
    (buf : simptcp_buffer) (len : Nat) (sendOk : Bool) : simptcp_socket × List datagram :=
  let s1 :=
    if simptcp_get_flags buf = cfg.ACK then
      if simptcp_get_ack_num buf = sock.next_seq_num then
        { sock with socket_state_receiver := -1 }
      else sock
    else sock
  let r2 : simptcp_socket × List datagram :=
    if simptcp_get_flags buf = 0 then
      if simptcp_get_seq_num buf = s1.next_ack_num then
        let s := { s1 with in_buffer := memcpy_buffer s1.in_buffer buf len }
        let s := { s with socket_state_sender := -1 }
        let s := { s with next_ack_num := u32 (s.next_ack_num + 1) }
        let r := make_pdu cfg s [] cfg.ACK
        (r.1, sendto_out r.1 r.1.remote_udp sendOk)
      else
        let r := make_pdu cfg s1 [] cfg.ACK
        (r.1, sendto_out r.1 r.1.remote_udp sendOk)
    else (s1, [])
  if simptcp_get_flags buf = cfg.FIN then
    if simptcp_get_seq_num buf = r2.1.next_ack_num then
      let s := { r2.1 with next_ack_num := u32 (r2.1.next_ack_num + 1) }
      let r := make_pdu cfg s [] cfg.ACK
      ({ r.1 with socket_state := simptcp_socket_state.closewait },
        r2.2 ++ sendto_out r.1 r.1.remote_udp sendOk)
    else
      let r := make_pdu cfg r2.1 [] cfg.ACK
      (r.1, r2.2 ++ sendto_out r.1 r.1.remote_udp sendOk)
  else r2

/-! ## State CLOSEWAIT -/

/-- The function `closewait_simptcp_socket_state_shutdown` up to its wait loop:
the socket and the datagrams sent.  The results of `make_pdu` and of
`libc_sendto` are only printed. -/
def closewait_simptcp_socket_state_shutdown_start (cfg : Config) (sock : simptcp_socket)
    (sendOk : Bool) (t0 : timeval) : simptcp_socket × List datagram :=
  let s := { sock with socket_state := simptcp_socket_state.lastack }
  let r := make_pdu cfg s [] cfg.FIN
  let out := sendto_out r.1 r.1.remote_udp sendOk
  let s := { r.1 with next_seq_num := u32 (r.1.next_seq_num + 1) }
  (start_timer s 1000 t0, out)

/-- The condition of the wait loop of `closewait_simptcp_socket_state_shutdown`. -/
def closewait_simptcp_socket_state_shutdown_wait (sock : simptcp_socket) : Bool :=
  decide (sock.simptcp_send_count < 5) && sock.socket_state != simptcp_socket_state.closed

/-- The function `closewait_simptcp_socket_state_shutdown` from the end of its
wait loop: the result and the socket. -/
def closewait_simptcp_socket_state_shutdown_finish (sock : simptcp_socket) :
    Int × simptcp_socket :=
  let s := stop_timer sock
  if s.simptcp_send_count ≥ 5 then (-1, { s with socket_state := simptcp_socket_state.closed })
  else (0, { s with simptcp_send_count := 0 })

/-! ## State ESTABLISHED: shutdown -/

/-- Where `established_simptcp_socket_state_shutdown` stands after its first
part: it has returned `rc`, or it waits for the socket to be in CLOSEWAIT (a
socket that is not a client), or it waits for the end of the closing (a
client). -/
inductive shutdown_point where
  | returned (rc : Int)
  | wait_closewait
  | wait_closed
deriving DecidableEq

/-- The function `established_simptcp_socket_state_shutdown` up to its first wait
loop: where it stands, the socket and the datagrams sent. -/
def established_simptcp_socket_state_shutdown_start (cfg : Config) (sock : simptcp_socket)
    (sendOk : Bool) (t0 : timeval) : shutdown_point × simptcp_socket × List datagram :=
  if sock.socket_type ≠ simptcp_socket_type.client then
    (shutdown_point.wait_closewait, sock, [])
  else
    let r := make_pdu cfg sock [] cfg.FIN
    if r.2 ≠ 0 then (shutdown_point.returned (-1), r.1, [])
    else if sendOk = false then (shutdown_point.returned (-1), r.1, [])
    else
      let s := { r.1 with next_seq_num := u32 (r.1.next_seq_num + 1) }
      let s := { s with socket_state := simptcp_socket_state.finwait1 }
      (shutdown_point.wait_closed, start_timer s 1000 t0, sendto_out r.1 r.1.remote_udp sendOk)

/-- The condition of the wait loop of a client in
`established_simptcp_socket_state_shutdown`. -/
def established_simptcp_socket_state_shutdown_wait (sock : simptcp_socket) : Bool :=
  decide (sock.simptcp_send_count < 5) && sock.socket_state != simptcp_socket_state.closed

/-- The function `established_simptcp_socket_state_shutdown` of a client from the
end of its wait loop: the result and the socket. -/
def established_simptcp_socket_state_shutdown_finish (sock : simptcp_socket) :
    Int × simptcp_socket :=
  let s := stop_timer sock
  if s.simptcp_send_count ≥ 5 then (-1, { s with socket_state := simptcp_socket_state.closed })
  else (0, { s with simptcp_send_count := 0 })

/-! ## State FINWAIT2 -/

/-- The function `finwait2_simptcp_socket_state_process_simptcp_pdu` up to its
call of `sleep`: whether it has reached that call (it returns otherwise), the
socket and the datagrams sent. -/
def finwait2_simptcp_socket_state_process_simptcp_pdu_start (cfg : Config)
    (sock : simptcp_socket) (buf : simptcp_buffer) (sendOk : Bool) :
    Bool × simptcp_socket × List datagram :=
  if simptcp_get_flags buf = cfg.FIN then
    if simptcp_get_seq_num buf = sock.next_ack_num then
      let s := { sock with next_ack_num := u32 (sock.next_ack_num + 1) }
      let r := make_pdu cfg s [] cfg.ACK
      (true, { r.1 with socket_state := simptcp_socket_state.timewait },
        sendto_out r.1 r.1.remote_udp sendOk)
    else (false, sock, [])
  else
    let r := make_pdu cfg sock [] cfg.ACK
    (false, r.1, sendto_out r.1 r.1.remote_udp sendOk)

/-- The function `finwait2_simptcp_socket_state_process_simptcp_pdu` after its
call of `sleep`. -/
def finwait2_simptcp_socket_state_process_simptcp_pdu_finish (sock : simptcp_socket) :
    simptcp_socket :=
  { sock with socket_state := simptcp_socket_state.closed }

/-- The function `finwait2_simptcp_socket_state_process_simptcp_pdu` as a whole,
when no other thread writes the socket during the second of sleep: the socket
after the call and the datagrams sent. -/
def finwait2_simptcp_socket_state_process_simptcp_pdu (cfg : Config) (sock : simptcp_socket)
    (buf : simptcp_buffer) (sendOk : Bool) : simptcp_socket × List datagram :=
  let r := finwait2_simptcp_socket_state_process_simptcp_pdu_start cfg sock buf sendOk
  if r.1 then (finwait2_simptcp_socket_state_process_simptcp_pdu_finish r.2.1, r.2.2)
  else (r.2.1, r.2.2)

/-! ## Timeouts -/

/-- The function `established_simptcp_socket_state_handle_timeout`: the socket
after the call and the datagrams sent; `t0` is the clock read by
`start_timer`. -/
def established_simptcp_socket_state_handle_timeout (sock : simptcp_socket) (sendOk : Bool)
    (t0 : timeval) : simptcp_socket × List datagram :=
  let s := stop_timer sock
  let s := { s with simptcp_send_count := u64 (s.simptcp_send_count + 1) }
  (start_timer s 1000 t0, sendto_out s s.remote_udp sendOk)

/-- The function `finwait1_simptcp_socket_state_handle_timeout`. -/
def finwait1_simptcp_socket_state_handle_timeout (sock : simptcp_socket) (sendOk : Bool)
    (t0 : timeval) : simptcp_socket × List datagram :=
  let s := stop_timer sock
  let s := { s with simptcp_send_count := u64 (s.simptcp_send_count + 1) }
  (start_timer s 1000 t0, sendto_out s s.remote_udp sendOk)

/-- The function `lastack_simptcp_socket_state_handle_timeout`. -/
def lastack_simptcp_socket_state_handle_timeout (sock : simptcp_socket) (sendOk : Bool)
    (t0 : timeval) : simptcp_socket × List datagram :=
  let s := stop_timer sock
  let s := { s with simptcp_send_count := u64 (s.simptcp_send_count + 1) }
  (start_timer s 1000 t0, sendto_out s s.remote_udp sendOk)

/-- The call `sock->socket_state->handle_timeout(sock)`: the handler of the state
of the socket.  The handlers of CLOSED, LISTEN, SYNRCVD, CLOSEWAIT, FINWAIT2,
CLOSING and TIMEWAIT have an empty body. -/
def handle_timeout (sock : simptcp_socket) (sendOk : Bool) (t0 : timeval) :
    simptcp_socket × List datagram :=
  match sock.socket_state with
  | simptcp_socket_state.synsent => synsent_simptcp_socket_state_handle_timeout sock sendOk t0
  | simptcp_socket_state.established =>
    established_simptcp_socket_state_handle_timeout sock sendOk t0
  | simptcp_socket_state.finwait1 => finwait1_simptcp_socket_state_handle_timeout sock sendOk t0
  | simptcp_socket_state.lastack => lastack_simptcp_socket_state_handle_timeout sock sendOk t0
  | _ => (sock, [])

/-! ## States FINWAIT1 and LASTACK -/

/-- The function `finwait1_simptcp_socket_state_process_simptcp_pdu`. -/
def finwait1_simptcp_socket_state_process_simptcp_pdu (cfg : Config) (sock : simptcp_socket)
    (buf : simptcp_buffer) : simptcp_socket :=
  if simptcp_get_flags buf = cfg.ACK then
    if simptcp_get_ack_num buf = sock.next_seq_num then
      stop_timer { sock with socket_state := simptcp_socket_state.finwait2 }
    else sock
  else sock

/-- The function `lastack_simptcp_socket_state_process_simptcp_pdu`. -/
def lastack_simptcp_socket_state_process_simptcp_pdu (cfg : Config) (sock : simptcp_socket)
    (buf : simptcp_buffer) : simptcp_socket :=
  if simptcp_get_flags buf = cfg.ACK then
    if simptcp_get_ack_num buf = sock.next_seq_num then
      { stop_timer sock with socket_state := simptcp_socket_state.closed }
    else sock
  else sock

/-! ## Handlers of the application events without effect -/

/-- The events of the application: the calls `connect`, `listen`, `accept`,
`send`, `recv`, `close` and `shutdown`. -/
inductive api_event where
  | active_open
  | passive_open
  | accept
  | send
  | recv
  | close
  | shutdown
deriving DecidableEq

/-- The seven handlers of application events that have a body of their own,
defined above; the body of every other handler is a single `return`, after a
`printf` for some. -/
def handlers_with_body : List (simptcp_socket_state × api_event) :=
  [(simptcp_socket_state.closed, api_event.active_open),
   (simptcp_socket_state.closed, api_event.passive_open),
   (simptcp_socket_state.listen, api_event.accept),
   (simptcp_socket_state.established, api_event.send),
   (simptcp_socket_state.established, api_event.recv),
   (simptcp_socket_state.established, api_event.shutdown),
   (simptcp_socket_state.closewait, api_event.shutdown)]

/-- The value that the handler of the event `e` in the state `st` returns when
its body is a single `return`: the functions
`<state>_simptcp_socket_state_<event>` of the source, read one by one.  The
result is `none` for the seven handlers with a body of their own. -/
def return_only (st : simptcp_socket_state) (e : api_event) : Option Int :=
  match st with
  | simptcp_socket_state.closed =>
    match e with
    | api_event.active_open => none
    | api_event.passive_open => none
    | api_event.accept => some (-1)
    | api_event.send => some (-1)
    | api_event.recv => some (-1)
    | api_event.close => some (-1)
    | api_event.shutdown => some 0
  | simptcp_socket_state.listen =>
    match e with
    | api_event.active_open => some (-1)
    | api_event.passive_open => some (-1)
    | api_event.accept => none
    | api_event.send => some 0
    | api_event.recv => some 0
    | api_event.close => some 0
    | api_event.shutdown => some 0
  | simptcp_socket_state.synsent =>
    match e with
    | api_event.active_open => some (-1)
    | api_event.passive_open => some (-1)
    | api_event.accept => some 0
    | api_event.send => some (-1)
    | api_event.recv => some 0
    | api_event.close => some 0
    | api_event.shutdown => some 0
  | simptcp_socket_state.synrcvd => some 0
  | simptcp_socket_state.established =>
    match e with
    | api_event.active_open => some (-1)
    | api_event.passive_open => some (-1)
    | api_event.accept => some 0
    | api_event.send => none
    | api_event.recv => none
    | api_event.close => some 0
    | api_event.shutdown => none
  | simptcp_socket_state.closewait =>
    match e with
    | api_event.shutdown => none
    | _ => some (-1)
  | simptcp_socket_state.finwait1 => some (-1)
  | simptcp_socket_state.finwait2 => some (-1)
  | simptcp_socket_state.closing => some (-1)
  | simptcp_socket_state.lastack => some (-1)
  | simptcp_socket_state.timewait => some (-1)

/-- The handler of the event `e` in the state `st` when its body is a single
`return`: the result and the socket, which the handler does not write. -/
def return_only_handler (st : simptcp_socket_state) (e : api_event) (sock : simptcp_socket) :
    Option (Int × simptcp_socket) :=
  (return_only st e).map (fun rc => (rc, sock))

/-! ## Auxiliary definitions for the statements -/

/-- The entity that `create_simptcp_socket` leaves when it takes the slot `k`. -/
def created (cfg : Config) (e : simptcp_entity_t) (raw : simptcp_socket) (k : Nat) :
    simptcp_entity_t :=
  { set_slot e k (some (init_simptcp_socket cfg raw (15000 + k))) with
    open_simptcp_sockets := e.open_simptcp_sockets + 1 }

/-- The child that `listen_simptcp_socket_state_process_simptcp_pdu` leaves in
the slot `fd` when the listener `sock` takes the SYN `buf`. -/
def spawned_child (cfg : Config) (raw : simptcp_socket) (fd : Nat) (sock : simptcp_socket)
    (buf : simptcp_buffer) : simptcp_socket :=
  { init_simptcp_socket cfg raw (15000 + fd) with
    socket_type := simptcp_socket_type.nonlistening_server
    pending_conn_req := 0
    remote_udp := sock.remote_udp
    remote_simptcp := sock.remote_simptcp
    next_ack_num := simptcp_get_ack_num buf + 1
    next_seq_num := simptcp_get_seq_num buf }

/-- The listener `sock` after it has queued the child of the slot `fd`. -/
def queued (sock : simptcp_socket) (q : List (Option Nat)) (fd : Nat) : simptcp_socket :=
  { sock with
    pending_conn_req := sock.pending_conn_req + 1
    new_conn_req := some (q.set 0 (some fd)) }

/-- The child of the accept queue at the second wait loop of
`listen_simptcp_socket_state_accept`: the SYN+ACK is in its out buffer, its
`next_seq_num` is one more, it is in SYNSENT and its timer runs. -/
def awaiting_child (cfg : Config) (child : simptcp_socket) (t0 : timeval) : simptcp_socket :=
  start_timer
    { (make_pdu cfg child [] (cfg.SYN + cfg.ACK)).1 with
      next_seq_num := u32 (child.next_seq_num + 1)
      socket_state := simptcp_socket_state.synsent } 1000 t0

/-- The listener `sock` after `listen_simptcp_socket_state_accept` has taken the
first child out of the queue `q`. -/
def dequeued (sock : simptcp_socket) (q : List (Option Nat)) : simptcp_socket :=
  { sock with
    new_conn_req := some (q.set 0 none)
    pending_conn_req := sock.pending_conn_req - 1 }

/-- The head of the accept queue of the listener of slot `lfd`: the slot of the
first pending child. -/
def queue_head (e : simptcp_entity_t) (lfd : Nat) : Option Nat :=
  match slot e lfd with
  | none => none
  | some l =>
    match l.new_conn_req with
    | none => none
    | some q => q.head?.join

/-- What the scenario S1 leaves: the three datagrams, the client and the child
of the server. -/
structure S1_trace where
  p1 : datagram
  p2 : datagram
  p3 : datagram
  client : simptcp_socket
  child : simptcp_socket
deriving DecidableEq

/-- The scenario S1 as a composition of the handlers, every transmission
succeeding: the socket `client0` runs `connect` to `peer` and sends `p1`; on the
server `es` the socket of slot `lfd` runs `listen` with backlog `n` and takes
`p1`; `accept` sends `p2` from the child; the client takes `p2` and sends `p3`;
the child takes `p3`.  The result is `none` when a step does not go that
way. -/
def scenario_S1 (cfg : Config) (client0 : simptcp_socket) (peer : sockaddr_in)
    (es : simptcp_entity_t) (lfd : Nat) (n : Int) (rawq : List (Option Nat))
    (raw : simptcp_socket) (t0 t1 : timeval) : Option S1_trace :=
  match closed_simptcp_socket_state_active_open_start cfg client0 peer true t0 with
  | (none, c1, [p1]) =>
    match slot es lfd with
    | none => none
    | some l0 =>
      let e1 := set_slot es lfd (some (closed_simptcp_socket_state_passive_open l0 n rawq).2)
      match listen_simptcp_socket_state_process_simptcp_pdu cfg e1 lfd p1.buf raw true true with
      | some (e2, []) =>
        match listen_simptcp_socket_state_accept_start cfg e2 lfd true t1 with
        | some (none, e3, [p2]) =>
          match synsent_simptcp_socket_state_process_simptcp_pdu cfg c1 p2.buf true with
          | (c2, [p3]) =>
            match queue_head e3 lfd with
            | none => none
            | some cfd =>
              match slot e3 cfd with
              | none => none
              | some child3 =>
                some { p1 := p1, p2 := p2, p3 := p3, client := c2,
                       child := (synsent_simptcp_socket_state_process_simptcp_pdu cfg child3
                         p3.buf true).1 }
          | _ => none
        | _ => none
      | _ => none
  | _ => none

/-- The socket `sock` at the wait loop of `connect` to `addr`. -/
def syn_sent (cfg : Config) (sock : simptcp_socket) (addr : sockaddr_in) (t0 : timeval) :
    simptcp_socket :=
  start_timer
    { (make_pdu cfg
        { sock with socket_type := simptcp_socket_type.client, remote_simptcp := addr,
                    remote_udp := addr, next_seq_num := 0, next_ack_num := 0 } [] cfg.SYN).1 with
      socket_state := simptcp_socket_state.synsent
      socket_type := simptcp_socket_type.listening_server
      next_seq_num := u32 (0 + 1) } 1000 t0

/-- The socket `sock` after it has taken in SYNSENT a SYN+ACK `buf` with the
expected sequence number. -/
def syn_ack_taken (cfg : Config) (sock : simptcp_socket) (buf : simptcp_buffer) :
    simptcp_socket :=
  (make_pdu cfg
    { sock with
      socket_type := simptcp_socket_type.client
      socket_state := simptcp_socket_state.established
      remote_simptcp := { sock.remote_simptcp with sin_port := htons (simptcp_get_sport buf) }
      next_ack_num := u32 (sock.next_ack_num + 1) } [] cfg.ACK).1

/-- The socket `sock` after it has taken in ESTABLISHED a data PDU `buf` of `len`
bytes with the expected sequence number: the PDU is in the in buffer, the
flag of `recv` is cleared, `next_ack_num` is one more and the ACK is in the out
buffer. -/
def data_taken (cfg : Config) (sock : simptcp_socket) (buf : simptcp_buffer) (len : Nat) :
    simptcp_socket :=
  (make_pdu cfg
    { sock with
      in_buffer := memcpy_buffer sock.in_buffer buf len
      socket_state_sender := -1
      next_ack_num := u32 (sock.next_ack_num + 1) } [] cfg.ACK).1

/-- The socket `sock` after it has built an ACK in its out buffer. -/
def ack_built (cfg : Config) (sock : simptcp_socket) : simptcp_socket :=
  (make_pdu cfg sock [] cfg.ACK).1

/-- The socket `sock` after it has taken a FIN with the expected sequence
number: `next_ack_num` is one more and the ACK is in the out buffer. -/
def fin_taken (cfg : Config) (sock : simptcp_socket) : simptcp_socket :=
  (make_pdu cfg { sock with next_ack_num := u32 (sock.next_ack_num + 1) } [] cfg.ACK).1

/-- The datagram that `libc_sendto` takes from the out buffer of `sock`. -/
def out_datagram (sock : simptcp_socket) : datagram :=
  { buf := sock.out_buffer, len := sock.out_len, dest := sock.remote_udp }

/-- The socket `sock` at the wait loop of `send` for the message `msg`. -/
def sending (cfg : Config) (sock : simptcp_socket) (msg : List Nat) (t0 : timeval) :
    simptcp_socket :=
  { start_timer { (make_pdu cfg sock msg 0).1 with socket_state_receiver := 2 } 1000 t0 with
    next_seq_num := u32 (sock.next_seq_num + 1) }

/-- The socket `sock` at the wait loop of `shutdown` in CLOSEWAIT: the FIN is in
the out buffer, `next_seq_num` is one more, the state is LASTACK and the timer
runs. -/
def lastack_waiting (cfg : Config) (sock : simptcp_socket) (t0 : timeval) : simptcp_socket :=
  start_timer
    { (make_pdu cfg { sock with socket_state := simptcp_socket_state.lastack } [] cfg.FIN).1 with
      next_seq_num := u32 (sock.next_seq_num + 1) } 1000 t0

/-- The client `sock` at the wait loop of `shutdown` in ESTABLISHED: the FIN is in
the out buffer, `next_seq_num` is one more, the state is FINWAIT1 and the timer
runs. -/
def finwait1_waiting (cfg : Config) (sock : simptcp_socket) (t0 : timeval) : simptcp_socket :=
  start_timer
    { (make_pdu cfg sock [] cfg.FIN).1 with
      next_seq_num := u32 (sock.next_seq_num + 1)
      socket_state := simptcp_socket_state.finwait1 } 1000 t0

/-- A configuration for closed instances: a table of four slots, buffers of 32
bytes, and one bit for each flag. -/
def example_cfg : Config :=
  { MAX_OPEN_SOCK := 4, SIMPTCP_SOCKET_MAX_BUFFER_SIZE := 32, SYN := 1, ACK := 2, FIN := 4 }

/-- Some content of freshly allocated memory. -/
def example_raw : simptcp_socket :=
  { socket_type := simptcp_socket_type.client
    new_conn_req := some [some 3]
    pending_conn_req := 7
    max_conn_req_backlog := 9
    local_simptcp := { sin_family := 1, sin_port := 2, sin_addr := 3 }
    remote_simptcp := { sin_family := 4, sin_port := 5, sin_addr := 6 }
    remote_udp := { sin_family := 7, sin_port := 8, sin_addr := 9 }
    socket_state := simptcp_socket_state.timewait
    socket_state_sender := 3
    next_seq_num := 77
    out_buffer := { sport := 1, dport := 2, seq_num := 3, ack_num := 4, header_len := 5,
                    flags := 6, total_len := 7, window_size := 8, checksum := 9, data := [1, 2] }
    out_len := 5
    nbr_retransmit := 4
    timer_duration := 3
    timeout := { tv_sec := 11, tv_usec := 12 }
    socket_state_receiver := 2
    next_ack_num := 88
    in_buffer := { sport := 9, dport := 8, seq_num := 7, ack_num := 6, header_len := 5,
                   flags := 4, total_len := 3, window_size := 2, checksum := 1, data := [3] }
    in_len := 6
    simptcp_send_count := 5
    simptcp_receive_count := 6
    simptcp_in_errors_count := 7
    simptcp_retransmit_count := 8 }

/-- A socket as `create_simptcp_socket` leaves it in slot 0. -/
def example_sock : simptcp_socket := init_simptcp_socket example_cfg example_raw 15000

/-- A table whose lowest free slot is slot 1. -/
def example_entity : simptcp_entity_t :=
  { simptcp_socket_descriptors := [some example_sock, none, some example_sock, none]
    open_simptcp_sockets := 2 }

/-- A table without a free slot. -/
def example_full : simptcp_entity_t :=
  { simptcp_socket_descriptors :=
      [some example_sock, some example_sock, some example_sock, some example_sock]
    open_simptcp_sockets := 4 }

/-- A peer address. -/
def example_addr : sockaddr_in := { sin_family := AF_INET, sin_port := 15000, sin_addr := 2130706433 }

/-- A value of the clock. -/
def example_now : timeval := { tv_sec := 1402073413, tv_usec := 250000 }

/-- The example socket at the wait of `connect`: in SYNSENT with `next_seq_num`
1 and `next_ack_num` 0. -/
def example_synsent : simptcp_socket :=
  (closed_simptcp_socket_state_active_open_start example_cfg example_sock example_addr true
    example_now).2.1

/-- A PDU with the given flags, sequence number and acknowledgment number, sent
from port 15001 to port 15000, without payload. -/
def example_pdu (flags seq ack : Nat) : simptcp_buffer :=
  { sport := 15001, dport := 15000, seq_num := seq, ack_num := ack, header_len := 16,
    flags := flags, total_len := 16, window_size := 0, checksum := 0, data := [] }

/-- The example socket after `listen` with a backlog of one request. -/
def example_listener : simptcp_socket :=
  (closed_simptcp_socket_state_passive_open example_sock 1 [some 3]).2

/-- A table with the example listener in slot 0 and another socket in slot 1;
the lowest free slot is slot 2. -/
def example_server : simptcp_entity_t :=
  { simptcp_socket_descriptors := [some example_listener, some example_sock, none, none]
    open_simptcp_sockets := 2 }

/-- The entity with the slot `fd` changed by `f`, when the slot holds a
socket. -/
def apply_slot (e : simptcp_entity_t) (fd : Nat) (f : simptcp_socket → simptcp_socket) :
    simptcp_entity_t :=
  match slot e fd with
  | some s => set_slot e fd (some (f s))
  | none => e

/-- The example server after its listener has taken a SYN with sequence number
0 and acknowledgment number 0: the child is in slot 2. -/
def example_queued : simptcp_entity_t :=
  match listen_simptcp_socket_state_process_simptcp_pdu example_cfg example_server 0
      (example_pdu 1 0 0) example_raw true true with
  | some r => r.1
  | none => example_server

/-- The example server at the second wait loop of `accept`. -/
def example_waiting : simptcp_entity_t :=
  match listen_simptcp_socket_state_accept_start example_cfg example_queued 0 true example_now with
  | some r => r.2.1
  | none => example_queued

/-- The example server when the wait of `accept` ends because the child of slot
2 has taken the ACK of its SYN+ACK. -/
def example_established : simptcp_entity_t :=
  apply_slot example_waiting 2 (fun c =>
    (synsent_simptcp_socket_state_process_simptcp_pdu example_cfg c (example_pdu 2 1 1) true).1)

/-- The example server when the wait of `accept` ends because the timer of the
child of slot 2 has expired five times without any answer. -/
def example_exhausted : simptcp_entity_t :=
  apply_slot example_waiting 2 (fun c =>
    Nat.iterate (fun x => (synsent_simptcp_socket_state_handle_timeout x true example_now).1) 5 c)

/-- The example socket as a client in ESTABLISHED, with `next_seq_num` 1 and
`next_ack_num` 1: the socket of `connect` after it has taken the SYN+ACK. -/
def example_client : simptcp_socket :=
  (synsent_simptcp_socket_state_process_simptcp_pdu example_cfg example_synsent
    (example_pdu 3 0 1) true).1

/-- The bytes of the message "hello". -/
def example_hello : List Nat := [104, 101, 108, 108, 111]

/-- The example client at the wait of `send` for the message "hello". -/
def example_sending : simptcp_socket :=
  (established_simptcp_socket_state_send_start example_cfg example_client example_hello true
    example_now).1

/-- The example client at the end of the wait of `send`, when the ACK of the data
PDU (acknowledgment number 2) has arrived. -/
def example_acked : simptcp_socket :=
  (established_simptcp_socket_state_process_simptcp_pdu example_cfg example_sending
    (example_pdu 2 1 2) 16 true).1

/-- A data PDU with the given sequence and acknowledgment numbers that carries
the message "hello", sent from port 15001 to port 15000. -/
def example_data (seq ack : Nat) : simptcp_buffer :=
  { sport := 15001, dport := 15000, seq_num := seq, ack_num := ack, header_len := 16,
    flags := 0, total_len := 21, window_size := 0, checksum := 0, data := example_hello }

/-- The child of slot 2 of the example server, in ESTABLISHED with
`next_seq_num` 1 and `next_ack_num` 1. -/
def example_child : simptcp_socket :=
  match slot example_established 2 with
  | some c => c
  | none => example_sock

/-- The example client after it has taken the data PDU with which the child
of the example server sends "hello": the PDU is in its in buffer. -/
def example_received : simptcp_socket :=
  (established_simptcp_socket_state_process_simptcp_pdu example_cfg example_client
    (make_pdu example_cfg example_child example_hello 0).1.out_buffer 21 true).1

/-- The example client in FINWAIT2, with `next_ack_num` 1. -/
def example_finwait2 : simptcp_socket :=
  { example_client with socket_state := simptcp_socket_state.finwait2 }

/-- The example client in CLOSEWAIT. -/
def example_closewait : simptcp_socket :=
  { example_client with socket_state := simptcp_socket_state.closewait }

/-- The example client at the wait of `shutdown`: in FINWAIT1 with `next_seq_num`
2. -/
def example_finwait1 : simptcp_socket :=
  (established_simptcp_socket_state_shutdown_start example_cfg example_client true
    example_now).2.1

/-- The example client at the wait of `shutdown` in CLOSEWAIT: in LASTACK with
`next_seq_num` 2. -/
def example_lastack : simptcp_socket :=
  (closewait_simptcp_socket_state_shutdown_start example_cfg example_closewait true
    example_now).1

/-- The example socket in SYNSENT after its timer has expired five times: the
count is at the limit. -/
def example_synsent_limit : simptcp_socket :=
  Nat.iterate (fun x => (handle_timeout x true example_now).1) 5 example_synsent

/-- The example socket after its `connect` has failed at the limit: the socket
that the end of `connect` leaves. -/
def example_failed_connect : simptcp_socket :=
  (closed_simptcp_socket_state_active_open_finish example_synsent_limit).2

/-- The example socket at the wait of a second `connect`, after the first has
failed. -/
def example_second_connect : simptcp_socket :=
  (closed_simptcp_socket_state_active_open_start example_cfg example_failed_connect
    example_addr true example_now).2.1

/-- The example server, whose listener has a backlog of one request, after its
listener has taken a second SYN while the first request is still pending: the
second child is in slot 3. -/
def example_two_requests : simptcp_entity_t :=
  match listen_simptcp_socket_state_process_simptcp_pdu example_cfg example_queued 0
      (example_pdu 1 0 0) example_raw true true with
  | some r => r.1
  | none => example_queued

/-- A clock value late in its second. -/
def example_late : timeval := { tv_sec := 100, tv_usec := 900000 }

/-- The example server after its listener has taken a SYN with sequence number
0 and acknowledgment number 7. -/
def example_queued_seven : simptcp_entity_t :=
  match listen_simptcp_socket_state_process_simptcp_pdu example_cfg example_server 0
      (example_pdu 1 0 7) example_raw true true with
  | some r => r.1
  | none => example_server

/-- The datagrams that `accept` sends on the example server whose listener has
taken the SYN with acknowledgment number 7. -/
def example_syn_ack_seven : List datagram :=
  match listen_simptcp_socket_state_accept_start example_cfg example_queued_seven 0 true
      example_now with
  | some r => r.2.2
  | none => []

/-- The child of the example server after 65535 data PDU taken in order:
`next_ack_num` is 65535. -/
def example_wrapping : simptcp_socket := { example_child with next_ack_num := 65535 }

/-- The socket `example_wrapping` after it has taken the data PDU with sequence
number 65535: that is 65536 data PDU taken in order. -/
def example_wrapped : simptcp_socket :=
  (established_simptcp_socket_state_process_simptcp_pdu example_cfg example_wrapping
    (example_data 65535 1) 21 true).1

/-- The example socket in SYNSENT after one timeout, when the SYN+ACK of the
server has arrived: the wait of `connect` ends. -/
def example_connected_late : simptcp_socket :=
  (synsent_simptcp_socket_state_process_simptcp_pdu example_cfg
    (handle_timeout example_synsent true example_now).1 (example_pdu 3 0 1) true).1

/-- A listener with a backlog of two requests, whose queue is empty. -/
def example_listener_two : simptcp_socket :=
  (closed_simptcp_socket_state_passive_open example_sock 2 [none, none]).2

/-- A table with the listener of backlog two in slot 0 and another socket in
slot 1. -/
def example_server_two : simptcp_entity_t :=
  { simptcp_socket_descriptors := [some example_listener_two, some example_sock, none, none]
    open_simptcp_sockets := 2 }

/-- The entity after the listener of slot 0 has taken the SYN with sequence
number 0 and acknowledgment number 0. -/
def take_syn (e : simptcp_entity_t) : simptcp_entity_t :=
  match listen_simptcp_socket_state_process_simptcp_pdu example_cfg e 0 (example_pdu 1 0 0)
      example_raw true true with
  | some r => r.1
  | none => e

/-- The table of the listener of backlog two after two SYN, with no `accept` in
between: the children are in slots 2 and 3. -/
def example_two_syn : simptcp_entity_t := take_syn (take_syn example_server_two)

/-- The table `example_two_syn` after a whole `accept`: the SYN+ACK is sent to
the child at the head of the queue, the child takes the ACK of the client and
`accept` ends. -/
def example_accepted_one : simptcp_entity_t :=
  match listen_simptcp_socket_state_accept_start example_cfg example_two_syn 0 true
      example_now with
  | none => example_two_syn
  | some r =>
    match listen_simptcp_socket_state_accept_finish
        (apply_slot r.2.1 3 (fun c =>
          (synsent_simptcp_socket_state_process_simptcp_pdu example_cfg c (example_pdu 2 1 1)
            true).1)) 0 with
    | some r1 => r1.2
    | none => example_two_syn

/-- The number of children that a queue holds. -/
def queue_children (q : List (Option Nat)) : Nat := (q.filter Option.isSome).length

/-- The example client at the wait of `send` for "hello" after it has taken a
data PDU of its peer in order. -/
def example_sending_interrupted : simptcp_socket :=
  (established_simptcp_socket_state_process_simptcp_pdu example_cfg example_sending
    (example_data 1 1) 21 true).1

/-- A message of 17 bytes: one byte more than the example buffer holds after
the header. -/
def example_long : List Nat := List.replicate 17 120

/-! ## Lemmas on the socket table -/

theorem slot_set_slot_same (e : simptcp_entity_t) (k : Nat) (v : Option simptcp_socket)
    (h : k < e.simptcp_socket_descriptors.length) : slot (set_slot e k v) k = v := by
  simp [slot, set_slot, List.getD_eq_getElem?_getD, h]

theorem slot_set_slot_ne (e : simptcp_entity_t) (k j : Nat) (v : Option simptcp_socket)
    (h : j ≠ k) : slot (set_slot e k v) j = slot e j := by
  simp [slot, set_slot, List.getD_eq_getElem?_getD, List.getElem?_set_ne h.symm]

theorem slot_open_count (e : simptcp_entity_t) (n : Int) (j : Nat) :
    slot { e with open_simptcp_sockets := n } j = slot e j := rfl

theorem length_set_slot (e : simptcp_entity_t) (k : Nat) (v : Option simptcp_socket) :
    (set_slot e k v).simptcp_socket_descriptors.length = e.simptcp_socket_descriptors.length := by
  simp [set_slot]

theorem lt_length_of_slot (e : simptcp_entity_t) (k : Nat) (h : slot e k ≠ none) :
    k < e.simptcp_socket_descriptors.length := by
  by_contra hc
  simp [slot, List.getD_eq_getElem?_getD, List.getElem?_eq_none (not_lt.mp hc)] at h

/-- The two ways in which the loop of `create_simptcp_socket` ends: at the
first free slot `k` of its range, or past the range when no slot of it is
free. -/
theorem create_loop_cases (cfg : Config) (e : simptcp_entity_t) (raw : simptcp_socket)
    (m : Bool) (n : Nat) : ∀ fd : Nat,
    (∃ k, fd ≤ k ∧ k < fd + n ∧ slot e k = none ∧ (∀ j, fd ≤ j → j < k → slot e j ≠ none) ∧
        create_loop cfg e raw m n fd =
          if m then ((k : Int), created cfg e raw k) else (-ENOMEM, e)) ∨
      ((∀ j, fd ≤ j → j < fd + n → slot e j ≠ none) ∧
        create_loop cfg e raw m n fd = (-ENFILE, e)) := by
  induction n with
  | zero =>
    intro fd
    right
    exact ⟨fun j h1 h2 => absurd h2 (by omega), rfl⟩
  | succ n ih =>
    intro fd
    by_cases hfree : slot e fd = none
    · left
      refine ⟨fd, le_refl _, by omega, hfree, fun j h1 h2 => absurd h2 (by omega), ?_⟩
      cases m <;> simp [create_loop, hfree, created]
    · rcases ih (fd + 1) with ⟨k, h1, h2, h3, h4, h5⟩ | ⟨h1, h2⟩
      · left
        refine ⟨k, by omega, by omega, h3, ?_, ?_⟩
        · intro j hj1 hj2
          by_cases hj : j = fd
          · subst hj; exact hfree
          · exact h4 j (by omega) hj2
        · simp only [create_loop, hfree, if_false]
          exact h5
      · right
        refine ⟨?_, ?_⟩
        · intro j hj1 hj2
          by_cases hj : j = fd
          · subst hj; exact hfree
          · exact h1 j (by omega) (by omega)
        · simp only [create_loop, hfree, if_false]
          exact h2

theorem ENFILE_pos : (0 : Int) < ENFILE := by decide

theorem ENOMEM_pos : (0 : Int) < ENOMEM := by decide

/-- A call of `create_simptcp_socket` that returns a descriptor `fd` has taken
the lowest free slot, which is `fd`. -/
theorem create_returns_fd (cfg : Config) (e : simptcp_entity_t) (raw : simptcp_socket)
    (m : Bool) (fd : Nat) (h : (create_simptcp_socket cfg e raw m).1 = (fd : Int)) :
    fd < cfg.MAX_OPEN_SOCK ∧ slot e fd = none ∧ (∀ j, j < fd → slot e j ≠ none) ∧
      (create_simptcp_socket cfg e raw m).2 = created cfg e raw fd := by
  unfold create_simptcp_socket at h ⊢
  rcases create_loop_cases cfg e raw m cfg.MAX_OPEN_SOCK 0 with ⟨k, h1, h2, h3, h4, h5⟩ | ⟨h1, h2⟩
  · cases m
    · rw [h5] at h
      simp at h
      have := ENOMEM_pos
      omega
    · rw [h5] at h ⊢
      simp at h
      subst h
      exact ⟨by omega, h3, fun j hj => h4 j (Nat.zero_le _) hj, rfl⟩
  · rw [h2] at h
    simp at h
    have := ENFILE_pos
    omega

/-- The lowest free slot `fd` is what `create_simptcp_socket` takes when the
allocation succeeds. -/
theorem create_takes_lowest (cfg : Config) (e : simptcp_entity_t) (raw : simptcp_socket)
    (fd : Nat) (hfd : fd < cfg.MAX_OPEN_SOCK) (hfree : slot e fd = none)
    (hlow : ∀ j, j < fd → slot e j ≠ none) :
    create_simptcp_socket cfg e raw true = ((fd : Int), created cfg e raw fd) := by
  unfold create_simptcp_socket
  rcases create_loop_cases cfg e raw true cfg.MAX_OPEN_SOCK 0 with
    ⟨k, h1, h2, h3, h4, h5⟩ | ⟨h1, h2⟩
  · have hk : k = fd := by
      rcases Nat.lt_trichotomy k fd with hlt | heq | hgt
      · exact absurd h3 (hlow k hlt)
      · exact heq
      · exact absurd hfree (h4 fd (Nat.zero_le _) hgt)
    subst hk
    simpa using h5
  · exact absurd hfree (h1 fd (Nat.zero_le _) (by omega))

/-- Without a free slot `create_simptcp_socket` returns `-ENFILE` and changes
nothing. -/
theorem create_full (cfg : Config) (e : simptcp_entity_t) (raw : simptcp_socket) (m : Bool)
    (hfull : ∀ j, j < cfg.MAX_OPEN_SOCK → slot e j ≠ none) :
    create_simptcp_socket cfg e raw m = (-ENFILE, e) := by
  unfold create_simptcp_socket
  rcases create_loop_cases cfg e raw m cfg.MAX_OPEN_SOCK 0 with
    ⟨k, h1, h2, h3, h4, h5⟩ | ⟨h1, h2⟩
  · exact absurd h3 (hfull k (by omega))
  · exact h2

theorem slot_created_same (cfg : Config) (e : simptcp_entity_t) (raw : simptcp_socket) (k : Nat)
    (h : k < e.simptcp_socket_descriptors.length) :
    slot (created cfg e raw k) k = some (init_simptcp_socket cfg raw (15000 + k)) := by
  unfold created
  rw [slot_open_count]
  exact slot_set_slot_same e k _ h

theorem slot_created_ne (cfg : Config) (e : simptcp_entity_t) (raw : simptcp_socket) (k j : Nat)
    (h : j ≠ k) : slot (created cfg e raw k) j = slot e j := by
  unfold created
  rw [slot_open_count]
  exact slot_set_slot_ne e k j _ h

/-! ## Socket creation -/

/-- C1: with a successful allocation, `create_simptcp_socket` returns the lowest
index below `MAX_OPEN_SOCK` whose slot is free, puts a newly initialised socket
in exactly that slot, leaves every other slot as it was and adds one to the
number of open sockets; when no slot is free it returns `-ENFILE` and leaves
the table and the number of open sockets as they were. -/
theorem create_simptcp_socket_lowest_free_slot (cfg : Config) (e : simptcp_entity_t)
    (raw : simptcp_socket) (hlen : e.simptcp_socket_descriptors.length = cfg.MAX_OPEN_SOCK) :
    (∀ fd : Nat, fd < cfg.MAX_OPEN_SOCK → slot e fd = none → (∀ j, j < fd → slot e j ≠ none) →
        (create_simptcp_socket cfg e raw true).1 = (fd : Int) ∧
        slot (create_simptcp_socket cfg e raw true).2 fd =
          some (init_simptcp_socket cfg raw (15000 + fd)) ∧
        (∀ j, j ≠ fd → slot (create_simptcp_socket cfg e raw true).2 j = slot e j) ∧
        (create_simptcp_socket cfg e raw true).2.simptcp_socket_descriptors.length =
          cfg.MAX_OPEN_SOCK ∧
        (create_simptcp_socket cfg e raw true).2.open_simptcp_sockets =
          e.open_simptcp_sockets + 1) ∧
      ((∀ j, j < cfg.MAX_OPEN_SOCK → slot e j ≠ none) →
        create_simptcp_socket cfg e raw true = (-ENFILE, e)) := by
  refine ⟨?_, fun hfull => create_full cfg e raw true hfull⟩
  intro fd hfd hfree hlow
  rw [create_takes_lowest cfg e raw fd hfd hfree hlow]
  refine ⟨rfl, slot_created_same cfg e raw fd (by omega), ?_, ?_, rfl⟩
  · intro j hj
    exact slot_created_ne cfg e raw fd j hj
  · simp [created, set_slot, hlen]

/-- Instance of C1: in a table of four slots with the slots 0 and 2 taken the
call returns 1, and in a full table it returns `-ENFILE`. -/
theorem create_simptcp_socket_lowest_free_slot_witness :
    example_entity.simptcp_socket_descriptors.length = example_cfg.MAX_OPEN_SOCK ∧
      ((create_simptcp_socket example_cfg example_entity example_raw true).1 = 1 ∧
        slot (create_simptcp_socket example_cfg example_entity example_raw true).2 1 =
          some (init_simptcp_socket example_cfg example_raw (15000 + 1)) ∧
        (create_simptcp_socket example_cfg example_entity example_raw true).2.open_simptcp_sockets
          = 3) ∧
      create_simptcp_socket example_cfg example_full example_raw true =
        (-ENFILE, example_full) := by
  refine ⟨rfl, ?_, ?_⟩
  · have h := (create_simptcp_socket_lowest_free_slot example_cfg example_entity example_raw
      rfl).1 1 (by decide) (by decide) (by decide)
    exact ⟨h.1, h.2.1, h.2.2.2.2⟩
  · exact (create_simptcp_socket_lowest_free_slot example_cfg example_full example_raw rfl).2
      (by decide)

/-- C2: the socket that `create_simptcp_socket` leaves in the slot of the
descriptor `fd` it returns is in state CLOSED, of type unknown, without pending
connection request, with local port `15000 + fd`, `next_seq_num` equal to the
initial sequence number 15, `next_ack_num` 0, `out_len` and `in_len` 0, no
retransmission and the four statistics counters at 0. -/
theorem create_simptcp_socket_initial_fields (cfg : Config) (e : simptcp_entity_t)
    (raw : simptcp_socket) (m : Bool) (fd : Nat)
    (hlen : e.simptcp_socket_descriptors.length = cfg.MAX_OPEN_SOCK)
    (hret : (create_simptcp_socket cfg e raw m).1 = (fd : Int))
    (hport : 15000 + fd < 65536) :
    ∃ s, slot (create_simptcp_socket cfg e raw m).2 fd = some s ∧
      s.socket_state = simptcp_socket_state.closed ∧
      s.socket_type = simptcp_socket_type.unknown ∧
      s.new_conn_req = none ∧ s.pending_conn_req = 0 ∧
      s.local_simptcp.sin_port = 15000 + fd ∧
      s.next_seq_num = get_initial_seq_num ∧ get_initial_seq_num = 15 ∧
      s.next_ack_num = 0 ∧ s.out_len = 0 ∧ s.in_len = 0 ∧ s.nbr_retransmit = 0 ∧
      s.simptcp_send_count = 0 ∧ s.simptcp_receive_count = 0 ∧
      s.simptcp_in_errors_count = 0 ∧ s.simptcp_retransmit_count = 0 := by
  obtain ⟨hfd, _, _, he⟩ := create_returns_fd cfg e raw m fd hret
  refine ⟨init_simptcp_socket cfg raw (15000 + fd), ?_, ?_⟩
  · rw [he]
    exact slot_created_same cfg e raw fd (by omega)
  · simp [init_simptcp_socket, get_initial_seq_num, htons, u16]
    omega

/-- Instance of C2: the socket created in slot 1 of the example table. -/
theorem create_simptcp_socket_initial_fields_witness :
    (example_entity.simptcp_socket_descriptors.length = example_cfg.MAX_OPEN_SOCK ∧
      (create_simptcp_socket example_cfg example_entity example_raw true).1 = ((1 : Nat) : Int) ∧
      15000 + 1 < 65536) ∧
    ∃ s, slot (create_simptcp_socket example_cfg example_entity example_raw true).2 1 = some s ∧
      s.socket_state = simptcp_socket_state.closed ∧
      s.socket_type = simptcp_socket_type.unknown ∧
      s.new_conn_req = none ∧ s.pending_conn_req = 0 ∧
      s.local_simptcp.sin_port = 15000 + 1 ∧
      s.next_seq_num = get_initial_seq_num ∧ get_initial_seq_num = 15 ∧
      s.next_ack_num = 0 ∧ s.out_len = 0 ∧ s.in_len = 0 ∧ s.nbr_retransmit = 0 ∧
      s.simptcp_send_count = 0 ∧ s.simptcp_receive_count = 0 ∧
      s.simptcp_in_errors_count = 0 ∧ s.simptcp_retransmit_count = 0 :=
  ⟨⟨rfl, by decide, by decide⟩,
    create_simptcp_socket_initial_fields example_cfg example_entity example_raw true 1 rfl
      (by decide) (by decide)⟩

/-! ## Lemmas on `make_pdu` -/

theorem u8_of_lt (x : Nat) (h : x < 256) : u8 x = x := Nat.mod_eq_of_lt h

theorem u16_of_lt (x : Nat) (h : x < 65536) : u16 x = x := Nat.mod_eq_of_lt h

theorem u16_lt (x : Nat) : u16 x < 65536 := Nat.mod_lt _ (by decide)

theorem u16_u16 (x : Nat) : u16 (u16 x) = u16 x := Nat.mod_mod _ _

theorem u8_u8 (x : Nat) : u8 (u8 x) = u8 x := Nat.mod_mod _ _

/-- An empty PDU is built without error when the buffer holds a header. -/
theorem make_pdu_empty_ok (cfg : Config) (s : simptcp_socket) (flags : Nat)
    (hbuf : SIMPTCP_GHEADER_SIZE ≤ cfg.SIMPTCP_SOCKET_MAX_BUFFER_SIZE) :
    (make_pdu cfg s [] flags).2 = 0 := by
  have h : ¬ (SIMPTCP_GHEADER_SIZE + 0 > cfg.SIMPTCP_SOCKET_MAX_BUFFER_SIZE) := by omega
  simp only [make_pdu, List.length_nil]
  rw [if_neg h]

/-! ## State CLOSED -/

/-- C4: for a socket in CLOSED and a peer address, when the SYN is built and
sent without error, `closed_simptcp_socket_state_active_open` reaches its wait
loop with the remote address set to the peer, exactly one datagram sent, whose
flags are SYN, whose sequence number is 0 and whose acknowledgment number is 0,
and with the socket in SYNSENT, `next_seq_num` 1, `next_ack_num` 0 and an active
timer whose deadline is the clock plus 1000 ms. -/
theorem closed_active_open_reaches_wait (cfg : Config) (sock : simptcp_socket)
    (addr : sockaddr_in) (t0 : timeval)
    (hstate : sock.socket_state = simptcp_socket_state.closed)
    (hbuf : SIMPTCP_GHEADER_SIZE ≤ cfg.SIMPTCP_SOCKET_MAX_BUFFER_SIZE)
    (hsyn : cfg.SYN < 256) (hclock : 0 ≤ t0.tv_sec) :
    ∃ s d, closed_simptcp_socket_state_active_open_start cfg sock addr true t0 = (none, s, [d]) ∧
      s.remote_simptcp = addr ∧ s.remote_udp = addr ∧
      d.buf = s.out_buffer ∧ d.len = s.out_len ∧ d.dest = addr ∧
      simptcp_get_flags d.buf = cfg.SYN ∧ simptcp_get_seq_num d.buf = 0 ∧
      simptcp_get_ack_num d.buf = 0 ∧
      s.socket_state = simptcp_socket_state.synsent ∧ s.next_seq_num = 1 ∧ s.next_ack_num = 0 ∧
      has_active_timer s = true ∧
      s.timeout = { tv_sec := t0.tv_sec + 1, tv_usec := t0.tv_usec } ∧
      (s.timeout.tv_sec * 1000 * 1000 + s.timeout.tv_usec) =
        (t0.tv_sec * 1000 * 1000 + t0.tv_usec) + 1000 * 1000 := by
  have hok := make_pdu_empty_ok cfg
    { sock with socket_type := simptcp_socket_type.client, remote_simptcp := addr,
                remote_udp := addr, next_seq_num := 0, next_ack_num := 0 } cfg.SYN hbuf
  refine ⟨(closed_simptcp_socket_state_active_open_start cfg sock addr true t0).2.1,
    ⟨(closed_simptcp_socket_state_active_open_start cfg sock addr true t0).2.1.out_buffer,
      (closed_simptcp_socket_state_active_open_start cfg sock addr true t0).2.1.out_len, addr⟩,
    ?_⟩
  simp only [closed_simptcp_socket_state_active_open_start, hok, sendto_out]
  simp [make_pdu, start_timer, has_active_timer, u32, u16, u8,
      simptcp_get_flags, simptcp_get_seq_num, simptcp_get_ack_num, simptcp_add_checksum,
      simptcp_set_win_size, simptcp_set_total_len, simptcp_set_flags, simptcp_set_head_len,
      simptcp_set_ack_num, simptcp_set_seq_num, simptcp_set_dport, simptcp_set_sport]
  refine ⟨hsyn, Or.inl (by omega), by ring⟩

/-- Instance of C4: `connect` on the example socket. -/
theorem closed_active_open_reaches_wait_witness :
    (example_sock.socket_state = simptcp_socket_state.closed ∧
      SIMPTCP_GHEADER_SIZE ≤ example_cfg.SIMPTCP_SOCKET_MAX_BUFFER_SIZE ∧
      example_cfg.SYN < 256 ∧ 0 ≤ example_now.tv_sec) ∧
    ∃ s d, closed_simptcp_socket_state_active_open_start example_cfg example_sock example_addr
        true example_now = (none, s, [d]) ∧
      s.remote_simptcp = example_addr ∧ s.remote_udp = example_addr ∧
      d.buf = s.out_buffer ∧ d.len = s.out_len ∧ d.dest = example_addr ∧
      simptcp_get_flags d.buf = example_cfg.SYN ∧ simptcp_get_seq_num d.buf = 0 ∧
      simptcp_get_ack_num d.buf = 0 ∧
      s.socket_state = simptcp_socket_state.synsent ∧ s.next_seq_num = 1 ∧ s.next_ack_num = 0 ∧
      has_active_timer s = true ∧
      s.timeout = { tv_sec := example_now.tv_sec + 1, tv_usec := example_now.tv_usec } ∧
      (s.timeout.tv_sec * 1000 * 1000 + s.timeout.tv_usec) =
        (example_now.tv_sec * 1000 * 1000 + example_now.tv_usec) + 1000 * 1000 :=
  ⟨⟨rfl, by decide, by decide, by decide⟩,
    closed_active_open_reaches_wait example_cfg example_sock example_addr example_now rfl
      (by decide) (by decide) (by decide)⟩

/-! ## State SYNSENT -/

/-- C9: for a socket in SYNSENT, (a) a PDU whose flags are exactly SYN+ACK,
whose sequence number is `next_ack_num` and whose acknowledgment number is
`next_seq_num` puts the socket in ESTABLISHED, adds one to `next_ack_num`, leaves
`next_seq_num` as it is and sends exactly one ACK PDU whose sequence number is
`next_seq_num` and whose acknowledgment number is the new `next_ack_num` (as a
16-bit field: the two are equal outright unless the old value was 65535);
(b) a PDU whose flags are exactly ACK and whose acknowledgment number is
`next_seq_num` puts the socket in ESTABLISHED with the timer stopped and both
numbers as they were; (c) a PDU whose flags are exactly ACK with another
acknowledgment number leaves the socket as it is. -/
theorem synsent_process_pdu_completes_handshake (cfg : Config) (sock : simptcp_socket)
    (buf : simptcp_buffer) (sendOk : Bool)
    (hstate : sock.socket_state = simptcp_socket_state.synsent)
    (hsyn : 0 < cfg.SYN) (hack : cfg.ACK < 256) :
    (simptcp_get_flags buf = cfg.SYN + cfg.ACK → simptcp_get_seq_num buf = sock.next_ack_num →
      simptcp_get_ack_num buf = sock.next_seq_num →
      ∃ s d, synsent_simptcp_socket_state_process_simptcp_pdu cfg sock buf true = (s, [d]) ∧
        s.socket_state = simptcp_socket_state.established ∧
        s.next_ack_num = sock.next_ack_num + 1 ∧ s.next_seq_num = sock.next_seq_num ∧
        d.buf = s.out_buffer ∧ d.len = s.out_len ∧ d.dest = sock.remote_udp ∧
        simptcp_get_flags d.buf = cfg.ACK ∧
        simptcp_get_seq_num d.buf = sock.next_seq_num ∧
        simptcp_get_ack_num d.buf = u16 s.next_ack_num ∧
        (sock.next_ack_num ≠ 65535 → simptcp_get_ack_num d.buf = s.next_ack_num)) ∧
    (simptcp_get_flags buf = cfg.ACK → simptcp_get_ack_num buf = sock.next_seq_num →
      ∃ s, synsent_simptcp_socket_state_process_simptcp_pdu cfg sock buf sendOk = (s, []) ∧
        s.socket_state = simptcp_socket_state.established ∧ has_active_timer s = false ∧
        s.next_seq_num = sock.next_seq_num ∧ s.next_ack_num = sock.next_ack_num) ∧
    (simptcp_get_flags buf = cfg.ACK → simptcp_get_ack_num buf ≠ sock.next_seq_num →
      synsent_simptcp_socket_state_process_simptcp_pdu cfg sock buf sendOk = (sock, [])) := by
  have hne : ¬ (cfg.ACK = cfg.SYN + cfg.ACK) := by omega
  refine ⟨?_, ?_, ?_⟩
  · intro hf hs ha
    have h1 : sock.next_ack_num < 65536 := by rw [← hs]; exact u16_lt _
    have h2 : sock.next_seq_num < 65536 := by rw [← ha]; exact u16_lt _
    refine ⟨(synsent_simptcp_socket_state_process_simptcp_pdu cfg sock buf true).1,
      ⟨(synsent_simptcp_socket_state_process_simptcp_pdu cfg sock buf true).1.out_buffer,
        (synsent_simptcp_socket_state_process_simptcp_pdu cfg sock buf true).1.out_len,
        sock.remote_udp⟩, ?_⟩
    simp only [synsent_simptcp_socket_state_process_simptcp_pdu, hf, hs, if_true, sendto_out]
    simp [make_pdu, u32, u16, u8,
      simptcp_get_flags, simptcp_get_seq_num, simptcp_get_ack_num, simptcp_add_checksum,
      simptcp_set_win_size, simptcp_set_total_len, simptcp_set_flags, simptcp_set_head_len,
      simptcp_set_ack_num, simptcp_set_seq_num, simptcp_set_dport, simptcp_set_sport]
    omega
  · intro hf ha
    refine ⟨(synsent_simptcp_socket_state_process_simptcp_pdu cfg sock buf sendOk).1, ?_⟩
    simp only [synsent_simptcp_socket_state_process_simptcp_pdu, hf, ha, hne, if_true, if_false]
    simp [stop_timer, has_active_timer]
  · intro hf ha
    simp [synsent_simptcp_socket_state_process_simptcp_pdu, hf, ha, hne]

/-- Instance of C9: the example socket in SYNSENT receives a SYN+ACK with
sequence number 0 and acknowledgment number 1, or an ACK with acknowledgment
number 1, or an ACK with acknowledgment number 9. -/
theorem synsent_process_pdu_completes_handshake_witness :
    (example_synsent.socket_state = simptcp_socket_state.synsent ∧ 0 < example_cfg.SYN ∧
      example_cfg.ACK < 256) ∧
    (synsent_simptcp_socket_state_process_simptcp_pdu example_cfg example_synsent
        (example_pdu 3 0 1) true).1.socket_state = simptcp_socket_state.established ∧
    (synsent_simptcp_socket_state_process_simptcp_pdu example_cfg example_synsent
        (example_pdu 2 7 1) true).1.socket_state = simptcp_socket_state.established ∧
    synsent_simptcp_socket_state_process_simptcp_pdu example_cfg example_synsent
        (example_pdu 2 7 9) true = (example_synsent, []) := by
  have h := synsent_process_pdu_completes_handshake example_cfg example_synsent
  refine ⟨⟨by decide, by decide, by decide⟩, ?_, ?_, ?_⟩
  · obtain ⟨s, d, h1, h2, _⟩ := (h (example_pdu 3 0 1) true (by decide) (by decide)
      (by decide)).1 (by decide) (by decide) (by decide)
    rw [h1]
    exact h2
  · obtain ⟨s, h1, h2, _⟩ := (h (example_pdu 2 7 1) true (by decide) (by decide)
      (by decide)).2.1 (by decide) (by decide)
    rw [h1]
    exact h2
  · exact (h (example_pdu 2 7 9) true (by decide) (by decide) (by decide)).2.2 (by decide)
      (by decide)

/-- C10, the behaviour of the code at the failing input: the example socket in
SYNSENT (`next_seq_num` 1, `next_ack_num` 0) receives a SYN+ACK whose sequence
number is 0 and whose acknowledgment number is 7, not 1; the handler tests the
sequence number only, puts the socket in ESTABLISHED and adds one to
`next_ack_num`. -/
theorem synsent_process_pdu_ignores_ack_number :
    example_synsent.socket_state = simptcp_socket_state.synsent ∧
    example_synsent.next_seq_num = 1 ∧ example_synsent.next_ack_num = 0 ∧
    simptcp_get_flags (example_pdu 3 0 7) = example_cfg.SYN + example_cfg.ACK ∧
    simptcp_get_ack_num (example_pdu 3 0 7) ≠ example_synsent.next_seq_num ∧
    (synsent_simptcp_socket_state_process_simptcp_pdu example_cfg example_synsent
        (example_pdu 3 0 7) true).1.socket_state = simptcp_socket_state.established ∧
    (synsent_simptcp_socket_state_process_simptcp_pdu example_cfg example_synsent
        (example_pdu 3 0 7) true).1.next_ack_num = 1 := by
  decide

/-! ## State LISTEN -/

/-- The entity that `listen_simptcp_socket_state_process_simptcp_pdu` leaves when
the listener of slot `lfd` takes a SYN with the expected sequence number and
`fd` is the lowest free slot. -/
theorem listen_process_syn_eq (cfg : Config) (e : simptcp_entity_t) (lfd : Nat)
    (sock : simptcp_socket) (q : List (Option Nat)) (buf : simptcp_buffer)
    (raw : simptcp_socket) (sendOk : Bool) (fd : Nat)
    (hlen : e.simptcp_socket_descriptors.length = cfg.MAX_OPEN_SOCK)
    (hl : slot e lfd = some sock) (hq : sock.new_conn_req = some q) (hq0 : q ≠ [])
    (hflags : simptcp_get_flags buf = cfg.SYN)
    (hseq : simptcp_get_seq_num buf = sock.next_ack_num)
    (hfd : fd < cfg.MAX_OPEN_SOCK) (hfree : slot e fd = none)
    (hlow : ∀ j, j < fd → slot e j ≠ none) :
    listen_simptcp_socket_state_process_simptcp_pdu cfg e lfd buf raw true sendOk =
      some (set_slot (set_slot (created cfg e raw fd) fd (some (spawned_child cfg raw fd sock buf)))
        lfd (some (queued sock q fd)), []) := by
  have hne : lfd ≠ fd := by
    intro h
    rw [h, hfree] at hl
    exact absurd hl (by simp)
  have hc := create_takes_lowest cfg e raw fd hfd hfree hlow
  have h1 : slot (created cfg e raw fd) fd = some (init_simptcp_socket cfg raw (15000 + fd)) :=
    slot_created_same cfg e raw fd (by omega)
  have h2 : ∀ c, slot (set_slot (created cfg e raw fd) fd c) lfd = some sock := by
    intro c
    rw [slot_set_slot_ne _ _ _ _ hne, slot_created_ne _ _ _ _ _ hne, hl]
  have hq1 : ¬ (q.length = 0) := by
    intro h
    exact hq0 (List.length_eq_zero.mp h)
  unfold listen_simptcp_socket_state_process_simptcp_pdu
  simp only [hl, hflags, hseq, if_true, hc]
  simp [h1, h2, hq, hq1, spawned_child, queued, hseq]

theorem length_created (cfg : Config) (e : simptcp_entity_t) (raw : simptcp_socket) (k : Nat) :
    (created cfg e raw k).simptcp_socket_descriptors.length =
      e.simptcp_socket_descriptors.length := by
  simp [created, set_slot]

theorem head_set_zero (q : List (Option Nat)) (v : Option Nat) (hq0 : q ≠ []) :
    (q.set 0 v).head? = some v := by
  cases q with
  | nil => exact absurd rfl hq0
  | cons a t => rfl

/-- C5: for a listener in LISTEN (in slot `lfd`, with an allocated accept queue
of at least one element) and a PDU whose flags are exactly SYN: when its
sequence number is the `next_ack_num` of the listener and the table has a free
slot, the handler creates exactly one socket, in the lowest free slot `fd`, of
type non-listening server, whose remote addresses are those recorded in the
listener, puts it at the head of the accept queue, adds one to the number of
pending requests and leaves the listener in LISTEN; when the sequence number
differs, the handler changes nothing. -/
theorem listen_process_pdu_spawns_child (cfg : Config) (e : simptcp_entity_t) (lfd : Nat)
    (sock : simptcp_socket) (q : List (Option Nat)) (buf : simptcp_buffer)
    (raw : simptcp_socket) (mallocOk sendOk : Bool)
    (hlen : e.simptcp_socket_descriptors.length = cfg.MAX_OPEN_SOCK)
    (hl : slot e lfd = some sock) (hstate : sock.socket_state = simptcp_socket_state.listen)
    (hq : sock.new_conn_req = some q) (hq0 : q ≠ [])
    (hflags : simptcp_get_flags buf = cfg.SYN) :
    (simptcp_get_seq_num buf = sock.next_ack_num →
      ∀ fd, fd < cfg.MAX_OPEN_SOCK → slot e fd = none → (∀ j, j < fd → slot e j ≠ none) →
      ∃ e1 child l,
        listen_simptcp_socket_state_process_simptcp_pdu cfg e lfd buf raw true sendOk =
          some (e1, []) ∧
        slot e1 fd = some child ∧
        child.socket_type = simptcp_socket_type.nonlistening_server ∧
        child.remote_simptcp = sock.remote_simptcp ∧ child.remote_udp = sock.remote_udp ∧
        (∀ j, j ≠ fd → j ≠ lfd → slot e1 j = slot e j) ∧
        e1.open_simptcp_sockets = e.open_simptcp_sockets + 1 ∧
        slot e1 lfd = some l ∧
        l.new_conn_req = some (q.set 0 (some fd)) ∧ (q.set 0 (some fd)).head? = some (some fd) ∧
        l.pending_conn_req = sock.pending_conn_req + 1 ∧
        l.socket_state = simptcp_socket_state.listen ∧
        l = { sock with pending_conn_req := sock.pending_conn_req + 1,
                        new_conn_req := some (q.set 0 (some fd)) }) ∧
    (simptcp_get_seq_num buf ≠ sock.next_ack_num →
      listen_simptcp_socket_state_process_simptcp_pdu cfg e lfd buf raw mallocOk sendOk =
        some (e, [])) := by
  refine ⟨?_, ?_⟩
  · intro hseq fd hfd hfree hlow
    have hne : lfd ≠ fd := by
      intro h
      rw [h, hfree] at hl
      exact absurd hl (by simp)
    have hlfd : lfd < e.simptcp_socket_descriptors.length :=
      lt_length_of_slot e lfd (by rw [hl]; simp)
    refine ⟨_, spawned_child cfg raw fd sock buf, queued sock q fd,
      listen_process_syn_eq cfg e lfd sock q buf raw sendOk fd hlen hl hq hq0 hflags hseq hfd
        hfree hlow, ?_, rfl, rfl, rfl, ?_, rfl, ?_, rfl, head_set_zero q _ hq0, rfl, hstate, rfl⟩
    · rw [slot_set_slot_ne _ _ _ _ hne.symm]
      exact slot_set_slot_same _ _ _ (by rw [length_created]; omega)
    · intro j hj1 hj2
      rw [slot_set_slot_ne _ _ _ _ hj2, slot_set_slot_ne _ _ _ _ hj1,
        slot_created_ne _ _ _ _ _ hj1]
    · exact slot_set_slot_same _ _ _ (by rw [length_set_slot, length_created]; exact hlfd)
  · intro hseq
    unfold listen_simptcp_socket_state_process_simptcp_pdu
    simp [hl, hflags, hseq]

/-- Instance of C5: the example listener of slot 0 takes a SYN with sequence
number 0, the child goes to slot 2; a SYN with sequence number 4 changes
nothing. -/
theorem listen_process_pdu_spawns_child_witness :
    (example_server.simptcp_socket_descriptors.length = example_cfg.MAX_OPEN_SOCK ∧
      slot example_server 0 = some example_listener ∧
      example_listener.socket_state = simptcp_socket_state.listen ∧
      example_listener.new_conn_req = some [some 3] ∧
      simptcp_get_flags (example_pdu 1 0 0) = example_cfg.SYN ∧
      simptcp_get_flags (example_pdu 1 4 0) = example_cfg.SYN) ∧
    (∃ e1 child,
      listen_simptcp_socket_state_process_simptcp_pdu example_cfg example_server 0
        (example_pdu 1 0 0) example_raw true true = some (e1, []) ∧
      slot e1 2 = some child ∧
      child.socket_type = simptcp_socket_type.nonlistening_server) ∧
    listen_simptcp_socket_state_process_simptcp_pdu example_cfg example_server 0
      (example_pdu 1 4 0) example_raw true true = some (example_server, []) := by
  refine ⟨⟨rfl, rfl, rfl, rfl, by decide, by decide⟩, ?_, ?_⟩
  · obtain ⟨e1, child, l, h1, h2, h3, _⟩ :=
      (listen_process_pdu_spawns_child example_cfg example_server 0 example_listener [some 3]
        (example_pdu 1 0 0) example_raw true true rfl rfl rfl rfl (by simp) (by decide)).1
        (by decide) 2 (by decide) (by decide) (by decide)
    exact ⟨e1, child, h1, h2, h3⟩
  · exact (listen_process_pdu_spawns_child example_cfg example_server 0 example_listener [some 3]
      (example_pdu 1 4 0) example_raw true true rfl rfl rfl rfl (by simp) (by decide)).2
      (by decide)

/-- The entity and the datagram that `listen_simptcp_socket_state_accept` leaves
at its second wait loop, when the queue of the listener of slot `lfd` holds the
child of slot `cfd` and the SYN+ACK is built and sent without error. -/
theorem listen_accept_start_eq (cfg : Config) (e : simptcp_entity_t) (lfd cfd : Nat)
    (sock child : simptcp_socket) (q : List (Option Nat)) (t0 : timeval)
    (hl : slot e lfd = some sock) (hq : sock.new_conn_req = some q)
    (hhead : q.head? = some (some cfd)) (hc : slot e cfd = some child)
    (hbuf : SIMPTCP_GHEADER_SIZE ≤ cfg.SIMPTCP_SOCKET_MAX_BUFFER_SIZE) :
    listen_simptcp_socket_state_accept_start cfg e lfd true t0 =
      some (none, set_slot e cfd (some (awaiting_child cfg child t0)),
        [{ buf := (awaiting_child cfg child t0).out_buffer,
           len := (awaiting_child cfg child t0).out_len,
           dest := child.remote_udp }]) := by
  have hok := make_pdu_empty_ok cfg child (cfg.SYN + cfg.ACK) hbuf
  unfold listen_simptcp_socket_state_accept_start
  simp only [hl, hq, hhead, hc, hok, sendto_out]
  simp [awaiting_child, make_pdu, start_timer]

/-- The result of `listen_simptcp_socket_state_accept` after its second wait
loop, when the queue of the listener of slot `lfd` holds the child of another
slot `cfd`: whatever the child has become, the result is 1 and the child is
taken out of the queue. -/
theorem listen_accept_finish_eq (e : simptcp_entity_t) (lfd cfd : Nat)
    (sock child : simptcp_socket) (q : List (Option Nat))
    (hl : slot e lfd = some sock) (hq : sock.new_conn_req = some q)
    (hhead : q.head? = some (some cfd)) (hc : slot e cfd = some child) (hne : cfd ≠ lfd) :
    listen_simptcp_socket_state_accept_finish e lfd =
      some (1, set_slot (set_slot e cfd (some (stop_timer { child with simptcp_send_count := 0 })))
        lfd (some (dequeued sock q))) := by
  have h1 : ∀ c, slot (set_slot e cfd c) lfd = some sock := by
    intro c
    rw [slot_set_slot_ne _ _ _ _ hne.symm, hl]
  unfold listen_simptcp_socket_state_accept_finish
  simp only [hl, hq, hhead, hc]
  simp [h1, hq, stop_timer, dequeued]

/-- C6: for a listener in LISTEN (in slot `lfd`) whose accept queue holds at its
head a child (in another slot `cfd`), when the SYN+ACK is built and sent
without error, `listen_simptcp_socket_state_accept` reaches its second wait
loop with exactly one datagram sent, which is the out buffer of the child, with
flags SYN+ACK, with the `next_seq_num` that the child had before the call as
sequence number and its `next_ack_num` as acknowledgment number (as 16-bit
fields: equal outright for numbers below 65536); the `next_seq_num` of the
child is one more (in `unsigned int`), the child is in SYNSENT with an active
timer and the listener is as before, in LISTEN.  When the wait ends with the
child in ESTABLISHED the function returns 1, the head of the queue is null and
the number of pending requests is one less. -/
theorem listen_accept_sends_syn_ack (cfg : Config)
    (hbuf : SIMPTCP_GHEADER_SIZE ≤ cfg.SIMPTCP_SOCKET_MAX_BUFFER_SIZE)
    (hflags : cfg.SYN + cfg.ACK < 256) :
    (∀ (e : simptcp_entity_t) (lfd cfd : Nat) (sock child : simptcp_socket)
      (q : List (Option Nat)) (t0 : timeval),
      slot e lfd = some sock → sock.socket_state = simptcp_socket_state.listen →
      sock.new_conn_req = some q → q.head? = some (some cfd) → slot e cfd = some child →
      cfd ≠ lfd → 0 ≤ t0.tv_sec →
      ∃ e1 d c,
        listen_simptcp_socket_state_accept_start cfg e lfd true t0 = some (none, e1, [d]) ∧
        slot e1 cfd = some c ∧
        d.buf = c.out_buffer ∧ d.len = c.out_len ∧ d.dest = child.remote_udp ∧
        simptcp_get_flags d.buf = cfg.SYN + cfg.ACK ∧
        simptcp_get_seq_num d.buf = u16 child.next_seq_num ∧
        simptcp_get_ack_num d.buf = u16 child.next_ack_num ∧
        (child.next_seq_num < 65536 → simptcp_get_seq_num d.buf = child.next_seq_num) ∧
        (child.next_ack_num < 65536 → simptcp_get_ack_num d.buf = child.next_ack_num) ∧
        c.next_seq_num = u32 (child.next_seq_num + 1) ∧
        (child.next_seq_num + 1 < 4294967296 → c.next_seq_num = child.next_seq_num + 1) ∧
        c.next_ack_num = child.next_ack_num ∧
        c.socket_state = simptcp_socket_state.synsent ∧
        has_active_timer c = true ∧
        c.timeout = { tv_sec := t0.tv_sec + 1, tv_usec := t0.tv_usec } ∧
        slot e1 lfd = some sock ∧
        (∀ j, j ≠ cfd → slot e1 j = slot e j)) ∧
    (∀ (e : simptcp_entity_t) (lfd cfd : Nat) (sock child : simptcp_socket)
      (q : List (Option Nat)),
      slot e lfd = some sock → sock.socket_state = simptcp_socket_state.listen →
      sock.new_conn_req = some q → q.head? = some (some cfd) → slot e cfd = some child →
      cfd ≠ lfd → child.socket_state = simptcp_socket_state.established →
      ∃ e1 l c,
        listen_simptcp_socket_state_accept_finish e lfd = some (1, e1) ∧
        slot e1 lfd = some l ∧
        l.new_conn_req = some (q.set 0 none) ∧ (q.set 0 none).head? = some none ∧
        l.pending_conn_req = sock.pending_conn_req - 1 ∧
        l.socket_state = simptcp_socket_state.listen ∧
        slot e1 cfd = some c ∧ c.socket_state = simptcp_socket_state.established ∧
        has_active_timer c = false) := by
  refine ⟨?_, ?_⟩
  · intro e lfd cfd sock child q t0 hl hstate hq hhead hc hne hclock
    have hcfd : cfd < e.simptcp_socket_descriptors.length :=
      lt_length_of_slot e cfd (by rw [hc]; simp)
    refine ⟨_, _, awaiting_child cfg child t0,
      listen_accept_start_eq cfg e lfd cfd sock child q t0 hl hq hhead hc hbuf,
      slot_set_slot_same _ _ _ hcfd, rfl, rfl, rfl, ?_, ?_, ?_, ?_, ?_, ?_, ?_, ?_, ?_, ?_, ?_,
      ?_, ?_⟩
    · simp [awaiting_child, make_pdu, start_timer, simptcp_get_flags, simptcp_add_checksum,
        simptcp_set_win_size, simptcp_set_total_len, simptcp_set_flags, u8]
      omega
    · simp [awaiting_child, make_pdu, start_timer, simptcp_get_seq_num, simptcp_add_checksum,
        simptcp_set_win_size, simptcp_set_total_len, simptcp_set_flags, simptcp_set_head_len,
        simptcp_set_ack_num, simptcp_set_seq_num, u16]
    · simp [awaiting_child, make_pdu, start_timer, simptcp_get_ack_num, simptcp_add_checksum,
        simptcp_set_win_size, simptcp_set_total_len, simptcp_set_flags, simptcp_set_head_len,
        simptcp_set_ack_num, u16]
    · intro h
      simp [awaiting_child, make_pdu, start_timer, simptcp_get_seq_num, simptcp_add_checksum,
        simptcp_set_win_size, simptcp_set_total_len, simptcp_set_flags, simptcp_set_head_len,
        simptcp_set_ack_num, simptcp_set_seq_num, u16]
      omega
    · intro h
      simp [awaiting_child, make_pdu, start_timer, simptcp_get_ack_num, simptcp_add_checksum,
        simptcp_set_win_size, simptcp_set_total_len, simptcp_set_flags, simptcp_set_head_len,
        simptcp_set_ack_num, u16]
      omega
    · simp [awaiting_child, start_timer]
    · intro h
      simp [awaiting_child, start_timer, u32]
      omega
    · simp [awaiting_child, make_pdu, start_timer]
    · simp [awaiting_child, start_timer]
    · simp [awaiting_child, start_timer, has_active_timer]
      left
      omega
    · simp [awaiting_child, start_timer]
    · rw [slot_set_slot_ne _ _ _ _ hne.symm, hl]
    · intro j hj
      rw [slot_set_slot_ne _ _ _ _ hj]
  · intro e lfd cfd sock child q hl hstate hq hhead hc hne hest
    have hcfd : cfd < e.simptcp_socket_descriptors.length :=
      lt_length_of_slot e cfd (by rw [hc]; simp)
    have hlfd : lfd < e.simptcp_socket_descriptors.length :=
      lt_length_of_slot e lfd (by rw [hl]; simp)
    have hq0 : q ≠ [] := by
      intro h
      rw [h] at hhead
      simp at hhead
    refine ⟨_, dequeued sock q, stop_timer { child with simptcp_send_count := 0 },
      listen_accept_finish_eq e lfd cfd sock child q hl hq hhead hc hne, ?_, rfl,
      head_set_zero q none hq0, rfl, hstate, ?_, hest, ?_⟩
    · exact slot_set_slot_same _ _ _ (by rw [length_set_slot]; exact hlfd)
    · rw [slot_set_slot_ne _ _ _ _ hne]
      exact slot_set_slot_same _ _ _ hcfd
    · simp [stop_timer, has_active_timer]

/-- Instance of C6: `accept` on the example server whose listener has queued
the child of slot 2, and the end of `accept` when that child is in
ESTABLISHED. -/
theorem listen_accept_sends_syn_ack_witness :
    (SIMPTCP_GHEADER_SIZE ≤ example_cfg.SIMPTCP_SOCKET_MAX_BUFFER_SIZE ∧
      example_cfg.SYN + example_cfg.ACK < 256) ∧
    (∃ e1 d,
      listen_simptcp_socket_state_accept_start example_cfg example_queued 0 true example_now =
        some (none, e1, [d]) ∧
      simptcp_get_flags d.buf = 3 ∧ simptcp_get_seq_num d.buf = 0 ∧
      simptcp_get_ack_num d.buf = 1) ∧
    (∃ e1 l,
      listen_simptcp_socket_state_accept_finish example_established 0 = some (1, e1) ∧
      slot e1 0 = some l ∧ l.pending_conn_req = 0) := by
  have h := listen_accept_sends_syn_ack example_cfg (by decide) (by decide)
  refine ⟨⟨by decide, by decide⟩, ?_, ?_⟩
  · obtain ⟨e1, d, c, h1, _, _, _, _, h2, h3, h4, _⟩ :=
      h.1 example_queued 0 2 (queued example_listener [some 3] 2)
        (spawned_child example_cfg example_raw 2 example_listener (example_pdu 1 0 0))
        [some 2] example_now (by decide) (by decide) (by decide) (by decide) (by decide)
        (by decide) (by decide)
    exact ⟨e1, d, h1, h2, h3, h4⟩
  · obtain ⟨e1, l, c, h1, h2, _, _, h3, _⟩ :=
      h.2 example_established 0 2 (queued example_listener [some 3] 2)
        (synsent_simptcp_socket_state_process_simptcp_pdu example_cfg
          (awaiting_child example_cfg
            (spawned_child example_cfg example_raw 2 example_listener (example_pdu 1 0 0))
            example_now) (example_pdu 2 1 1) true).1
        [some 2] (by decide) (by decide) (by decide) (by decide) (by decide) (by decide)
        (by decide)
    exact ⟨e1, l, h1, h2, h3⟩

/-- The function `listen_simptcp_socket_state_accept` never returns -1 after its
second wait loop: the counter that it compares with `connect_max` has just
been reset. -/
theorem listen_accept_finish_result (e : simptcp_entity_t) (lfd : Nat)
    (r : Int × simptcp_entity_t)
    (h : listen_simptcp_socket_state_accept_finish e lfd = some r) : r.1 = 1 := by
  unfold listen_simptcp_socket_state_accept_finish at h
  simp only [stop_timer] at h
  split at h
  · exact absurd h (by simp)
  · split at h
    · exact absurd h (by simp)
    · split at h
      · exact absurd h (by simp)
      · exact absurd h (by simp)
      · split at h
        · exact absurd h (by simp)
        · rw [if_neg (by simp)] at h
          split at h
          · exact absurd h (by simp)
          · split at h
            · exact absurd h (by simp)
            · simp at h
              rw [← h]

/-- C7, the behaviour of the code at the failing input: on the example server
the listener is in slot 0 and another socket in slot 1, so that the child
spawned by the SYN is in slot 2; when that child is in ESTABLISHED at the end
of the wait, `listen_simptcp_socket_state_accept` returns 1, which is not the
descriptor 2 of the child but the descriptor of the unrelated socket. -/
theorem listen_accept_returns_one_not_the_descriptor :
    (slot example_queued 0).map (fun l => l.new_conn_req) = some (some [some 2]) ∧
    (slot example_established 2).map (fun c => (c.socket_type, c.socket_state)) =
      some (simptcp_socket_type.nonlistening_server, simptcp_socket_state.established) ∧
    (slot example_established 1).map (fun c => (c.socket_type, c.socket_state)) =
      some (simptcp_socket_type.unknown, simptcp_socket_state.closed) ∧
    (listen_simptcp_socket_state_accept_finish example_established 0).map (fun r => r.1) =
      some 1 := by
  decide

/-- C8, the behaviour of the code at the failing input: on the example server
the timer of the queued child expires five times during the wait of `accept`;
the wait ends with the count of the child at 5 and the child still in
SYNSENT, and `listen_simptcp_socket_state_accept` returns 1, takes the child out
of the queue and resets the count, because it resets the count before it
compares it with `connect_max`. -/
theorem listen_accept_succeeds_at_retransmit_limit :
    (slot example_exhausted 2).map (fun c => (c.simptcp_send_count, c.socket_state)) =
      some (5, simptcp_socket_state.synsent) ∧
    (slot example_exhausted 2).map listen_simptcp_socket_state_accept_wait = some false ∧
    (listen_simptcp_socket_state_accept_finish example_exhausted 0).map (fun r => r.1) =
      some 1 ∧
    (listen_simptcp_socket_state_accept_finish example_exhausted 0).map
        (fun r => (slot r.2 0).map (fun l => (l.new_conn_req, l.pending_conn_req))) =
      some (some (some [none], 0)) ∧
    (listen_simptcp_socket_state_accept_finish example_exhausted 0).map
        (fun r => (slot r.2 2).map (fun c => (c.simptcp_send_count, c.socket_state))) =
      some (some (0, simptcp_socket_state.synsent)) := by
  decide

/-! ## Scenario S1 -/

/-- The socket and the datagram that `connect` leaves at its wait loop. -/
theorem closed_active_open_start_eq (cfg : Config) (sock : simptcp_socket) (addr : sockaddr_in)
    (t0 : timeval) (hbuf : SIMPTCP_GHEADER_SIZE ≤ cfg.SIMPTCP_SOCKET_MAX_BUFFER_SIZE) :
    closed_simptcp_socket_state_active_open_start cfg sock addr true t0 =
      (none, syn_sent cfg sock addr t0,
        [{ buf := (syn_sent cfg sock addr t0).out_buffer,
           len := (syn_sent cfg sock addr t0).out_len, dest := addr }]) := by
  have hok := make_pdu_empty_ok cfg
    { sock with socket_type := simptcp_socket_type.client, remote_simptcp := addr,
                remote_udp := addr, next_seq_num := 0, next_ack_num := 0 } cfg.SYN hbuf
  simp only [closed_simptcp_socket_state_active_open_start, hok, sendto_out]
  simp [syn_sent, make_pdu, start_timer]

/-- The socket and the datagram that a SYN+ACK with the expected sequence number
leaves in SYNSENT. -/
theorem synsent_process_syn_ack_eq (cfg : Config) (sock : simptcp_socket) (buf : simptcp_buffer)
    (hf : simptcp_get_flags buf = cfg.SYN + cfg.ACK)
    (hs : simptcp_get_seq_num buf = sock.next_ack_num) :
    synsent_simptcp_socket_state_process_simptcp_pdu cfg sock buf true =
      (syn_ack_taken cfg sock buf,
        [{ buf := (syn_ack_taken cfg sock buf).out_buffer,
           len := (syn_ack_taken cfg sock buf).out_len, dest := sock.remote_udp }]) := by
  simp only [synsent_simptcp_socket_state_process_simptcp_pdu, hf, hs, if_true, sendto_out]
  simp [syn_ack_taken, make_pdu]

theorem make_pdu_flags (cfg : Config) (s : simptcp_socket) (msg : List Nat) (f : Nat) :
    simptcp_get_flags (make_pdu cfg s msg f).1.out_buffer = u8 f := by
  simp [make_pdu, simptcp_get_flags, simptcp_add_checksum, simptcp_set_win_size,
    simptcp_set_total_len, simptcp_set_flags, u8]

theorem make_pdu_seq (cfg : Config) (s : simptcp_socket) (msg : List Nat) (f : Nat) :
    simptcp_get_seq_num (make_pdu cfg s msg f).1.out_buffer = u16 s.next_seq_num := by
  simp [make_pdu, simptcp_get_seq_num, simptcp_add_checksum, simptcp_set_win_size,
    simptcp_set_total_len, simptcp_set_flags, simptcp_set_head_len, simptcp_set_ack_num,
    simptcp_set_seq_num, u16]

theorem make_pdu_ack (cfg : Config) (s : simptcp_socket) (msg : List Nat) (f : Nat) :
    simptcp_get_ack_num (make_pdu cfg s msg f).1.out_buffer = u16 s.next_ack_num := by
  simp [make_pdu, simptcp_get_ack_num, simptcp_add_checksum, simptcp_set_win_size,
    simptcp_set_total_len, simptcp_set_flags, simptcp_set_head_len, simptcp_set_ack_num, u16]

/-- C3: the scenario S1.  A fresh client socket runs `connect`, a fresh socket
of the server runs `listen` (with a queue of at least one element) and takes
the SYN `p1`, which spawns a child in the lowest free slot, `accept` sends the
SYN+ACK `p2` from the child, the client takes `p2` and sends the ACK `p3`, the
child takes `p3`; every transmission succeeds.  Then `p1` is a SYN with sequence
number 0, `p2` a SYN+ACK with sequence number 0 and acknowledgment number 1,
`p3` an ACK with sequence number 1 and acknowledgment number 1, and the client
and the child are in ESTABLISHED. -/
theorem scenario_S1_handshake (cfg : Config) (rawc rawl raw : simptcp_socket)
    (lportc lportl : Nat) (peer : sockaddr_in) (es : simptcp_entity_t) (lfd fd : Nat) (n : Int)
    (rawq : List (Option Nat)) (t0 t1 : timeval)
    (hbuf : SIMPTCP_GHEADER_SIZE ≤ cfg.SIMPTCP_SOCKET_MAX_BUFFER_SIZE)
    (hsyn : 0 < cfg.SYN) (hflags : cfg.SYN + cfg.ACK < 256)
    (hlen : es.simptcp_socket_descriptors.length = cfg.MAX_OPEN_SOCK)
    (hl : slot es lfd = some (init_simptcp_socket cfg rawl lportl))
    (hq0 : rawq ≠ [])
    (hfd : fd < cfg.MAX_OPEN_SOCK) (hfree : slot es fd = none)
    (hlow : ∀ j, j < fd → slot es j ≠ none) :
    ∃ r, scenario_S1 cfg (init_simptcp_socket cfg rawc lportc) peer es lfd n rawq raw t0 t1 =
        some r ∧
      simptcp_get_flags r.p1.buf = cfg.SYN ∧ simptcp_get_seq_num r.p1.buf = 0 ∧
      simptcp_get_flags r.p2.buf = cfg.SYN + cfg.ACK ∧ simptcp_get_seq_num r.p2.buf = 0 ∧
      simptcp_get_ack_num r.p2.buf = 1 ∧
      simptcp_get_flags r.p3.buf = cfg.ACK ∧ simptcp_get_seq_num r.p3.buf = 1 ∧
      simptcp_get_ack_num r.p3.buf = 1 ∧
      r.client.socket_state = simptcp_socket_state.established ∧
      r.child.socket_state = simptcp_socket_state.established := by
  -- the client at its wait
  have hp1f : simptcp_get_flags
      (syn_sent cfg (init_simptcp_socket cfg rawc lportc) peer t0).out_buffer = cfg.SYN := by
    show simptcp_get_flags (make_pdu cfg _ [] cfg.SYN).1.out_buffer = cfg.SYN
    rw [make_pdu_flags]
    exact u8_of_lt _ (by omega)
  have hp1s : simptcp_get_seq_num
      (syn_sent cfg (init_simptcp_socket cfg rawc lportc) peer t0).out_buffer = 0 := by
    show simptcp_get_seq_num (make_pdu cfg _ [] cfg.SYN).1.out_buffer = 0
    rw [make_pdu_seq]
    rfl
  have hp1a : simptcp_get_ack_num
      (syn_sent cfg (init_simptcp_socket cfg rawc lportc) peer t0).out_buffer = 0 := by
    show simptcp_get_ack_num (make_pdu cfg _ [] cfg.SYN).1.out_buffer = 0
    rw [make_pdu_ack]
    rfl
  have h1 := closed_active_open_start_eq cfg (init_simptcp_socket cfg rawc lportc) peer t0 hbuf
  -- the server: the listener and the child
  have hlfd : lfd < es.simptcp_socket_descriptors.length :=
    lt_length_of_slot es lfd (by rw [hl]; simp)
  have hne : lfd ≠ fd := by
    intro h
    rw [h, hfree] at hl
    exact absurd hl (by simp)
  have hl1 : ∀ l, slot (set_slot es lfd (some l)) lfd = some l := fun l =>
    slot_set_slot_same es lfd _ hlfd
  have hfree1 : ∀ l, slot (set_slot es lfd (some l)) fd = none := fun l => by
    rw [slot_set_slot_ne _ _ _ _ hne.symm, hfree]
  have hlow1 : ∀ l j, j < fd → slot (set_slot es lfd (some l)) j ≠ none := fun l j hj => by
    by_cases h : j = lfd
    · rw [h, hl1]
      simp
    · rw [slot_set_slot_ne _ _ _ _ h]
      exact hlow j hj
  have h2 := listen_process_syn_eq cfg
    (set_slot es lfd (some (closed_simptcp_socket_state_passive_open
      (init_simptcp_socket cfg rawl lportl) n rawq).2)) lfd
    (closed_simptcp_socket_state_passive_open (init_simptcp_socket cfg rawl lportl) n rawq).2
    rawq (syn_sent cfg (init_simptcp_socket cfg rawc lportc) peer t0).out_buffer raw true fd
    (by rw [length_set_slot]; exact hlen) (hl1 _) rfl hq0 hp1f hp1s hfd (hfree1 _) (hlow1 _)
  set c1 := syn_sent cfg (init_simptcp_socket cfg rawc lportc) peer t0 with hc1
  set l1 := (closed_simptcp_socket_state_passive_open (init_simptcp_socket cfg rawl lportl) n
    rawq).2 with hl1def
  set child1 := spawned_child cfg raw fd l1 c1.out_buffer with hch1
  set e1 := set_slot es lfd (some l1) with he1
  set e2 := set_slot (set_slot (created cfg e1 raw fd) fd (some child1)) lfd
    (some (queued l1 rawq fd)) with he2
  have hlen1 : (created cfg e1 raw fd).simptcp_socket_descriptors.length =
      cfg.MAX_OPEN_SOCK := by
    rw [length_created, length_set_slot]
    exact hlen
  have he2l : slot e2 lfd = some (queued l1 rawq fd) :=
    slot_set_slot_same _ _ _ (by rw [length_set_slot, hlen1, ← hlen]; exact hlfd)
  have he2c : slot e2 fd = some child1 := by
    rw [he2, slot_set_slot_ne _ _ _ _ hne.symm]
    exact slot_set_slot_same _ _ _ (by rw [hlen1]; exact hfd)
  have h3 := listen_accept_start_eq cfg e2 lfd fd (queued l1 rawq fd) child1
    (rawq.set 0 (some fd)) t1 he2l rfl (head_set_zero rawq _ hq0) he2c hbuf
  set ch2 := awaiting_child cfg child1 t1 with hch2
  have hp2f : simptcp_get_flags ch2.out_buffer = cfg.SYN + cfg.ACK := by
    show simptcp_get_flags (make_pdu cfg child1 [] (cfg.SYN + cfg.ACK)).1.out_buffer = _
    rw [make_pdu_flags]
    exact u8_of_lt _ hflags
  have hp2s : simptcp_get_seq_num ch2.out_buffer = 0 := by
    show simptcp_get_seq_num (make_pdu cfg child1 [] (cfg.SYN + cfg.ACK)).1.out_buffer = _
    rw [make_pdu_seq]
    show u16 (simptcp_get_seq_num c1.out_buffer) = 0
    rw [hp1s]
    rfl
  have hp2a : simptcp_get_ack_num ch2.out_buffer = 1 := by
    show simptcp_get_ack_num (make_pdu cfg child1 [] (cfg.SYN + cfg.ACK)).1.out_buffer = _
    rw [make_pdu_ack]
    show u16 (simptcp_get_ack_num c1.out_buffer + 1) = 1
    rw [hp1a]
    rfl
  have hc1ack : c1.next_ack_num = 0 := by
    simp [hc1, syn_sent, make_pdu, start_timer]
  have hc1seq : c1.next_seq_num = 1 := by
    simp [hc1, syn_sent, start_timer, u32]
  have h4 := synsent_process_syn_ack_eq cfg c1 ch2.out_buffer hp2f (by rw [hp2s, hc1ack])
  set c2 := syn_ack_taken cfg c1 ch2.out_buffer with hc2
  have hp3f : simptcp_get_flags c2.out_buffer = cfg.ACK := by
    show simptcp_get_flags (make_pdu cfg _ [] cfg.ACK).1.out_buffer = _
    rw [make_pdu_flags]
    exact u8_of_lt _ (by omega)
  have hp3s : simptcp_get_seq_num c2.out_buffer = 1 := by
    show simptcp_get_seq_num (make_pdu cfg _ [] cfg.ACK).1.out_buffer = _
    rw [make_pdu_seq]
    show u16 c1.next_seq_num = 1
    rw [hc1seq]
    rfl
  have hp3a : simptcp_get_ack_num c2.out_buffer = 1 := by
    show simptcp_get_ack_num (make_pdu cfg _ [] cfg.ACK).1.out_buffer = _
    rw [make_pdu_ack]
    show u16 (u32 (c1.next_ack_num + 1)) = 1
    rw [hc1ack]
    rfl
  have hc2st : c2.socket_state = simptcp_socket_state.established := by
    simp [hc2, syn_ack_taken, make_pdu]
  have h5 : queue_head (set_slot e2 fd (some ch2)) lfd = some fd := by
    unfold queue_head
    rw [slot_set_slot_ne _ _ _ _ hne, he2l]
    simp [queued, head_set_zero rawq _ hq0]
  have h6 : slot (set_slot e2 fd (some ch2)) fd = some ch2 :=
    slot_set_slot_same _ _ _ (by rw [length_set_slot, length_set_slot, hlen1]; exact hfd)
  have hch2seq : ch2.next_seq_num = 1 := by
    show u32 (simptcp_get_seq_num c1.out_buffer + 1) = 1
    rw [hp1s]
    rfl
  have hnf : ¬ (cfg.ACK = cfg.SYN + cfg.ACK) := by omega
  have hfin : (synsent_simptcp_socket_state_process_simptcp_pdu cfg ch2 c2.out_buffer
      true).1.socket_state = simptcp_socket_state.established := by
    simp [synsent_simptcp_socket_state_process_simptcp_pdu, hp3f, hp3a, hch2seq, hnf,
      stop_timer]
  refine ⟨⟨⟨c1.out_buffer, c1.out_len, peer⟩, ⟨ch2.out_buffer, ch2.out_len, child1.remote_udp⟩,
    ⟨c2.out_buffer, c2.out_len, c1.remote_udp⟩, c2,
    (synsent_simptcp_socket_state_process_simptcp_pdu cfg ch2 c2.out_buffer true).1⟩,
    ?_, hp1f, hp1s, hp2f, hp2s, hp2a, hp3f, hp3s, hp3a, hc2st, hfin⟩
  unfold scenario_S1
  simp only [h1, hl, h2, h3, h4, h5, h6]

/-- Instance of C3: the scenario S1 between the example socket as client and
the example table as server, with the listener in slot 0 and the child in
slot 1. -/
theorem scenario_S1_handshake_witness :
    (SIMPTCP_GHEADER_SIZE ≤ example_cfg.SIMPTCP_SOCKET_MAX_BUFFER_SIZE ∧ 0 < example_cfg.SYN ∧
      example_cfg.SYN + example_cfg.ACK < 256 ∧
      example_entity.simptcp_socket_descriptors.length = example_cfg.MAX_OPEN_SOCK ∧
      slot example_entity 0 = some (init_simptcp_socket example_cfg example_raw 15000) ∧
      slot example_entity 1 = none) ∧
    ∃ r, scenario_S1 example_cfg (init_simptcp_socket example_cfg example_raw 15000) example_addr
          example_entity 0 1 [some 3] example_raw example_now example_now = some r ∧
      simptcp_get_flags r.p1.buf = example_cfg.SYN ∧ simptcp_get_seq_num r.p1.buf = 0 ∧
      simptcp_get_flags r.p2.buf = example_cfg.SYN + example_cfg.ACK ∧
      simptcp_get_seq_num r.p2.buf = 0 ∧ simptcp_get_ack_num r.p2.buf = 1 ∧
      simptcp_get_flags r.p3.buf = example_cfg.ACK ∧ simptcp_get_seq_num r.p3.buf = 1 ∧
      simptcp_get_ack_num r.p3.buf = 1 ∧
      r.client.socket_state = simptcp_socket_state.established ∧
      r.child.socket_state = simptcp_socket_state.established :=
  ⟨⟨by decide, by decide, by decide, rfl, rfl, rfl⟩,
    scenario_S1_handshake example_cfg example_raw example_raw example_raw 15000 15000
      example_addr example_entity 0 1 1 [some 3] example_now example_now (by decide) (by decide)
      (by decide) rfl rfl (by simp) (by decide) rfl (by decide)⟩

/-! ## More lemmas on `make_pdu` -/

theorem make_pdu_total_len (cfg : Config) (s : simptcp_socket) (msg : List Nat) (f : Nat) :
    simptcp_get_total_len (make_pdu cfg s msg f).1.out_buffer =
      u16 (SIMPTCP_GHEADER_SIZE + msg.length) := by
  simp [make_pdu, simptcp_get_total_len, simptcp_add_checksum, simptcp_set_win_size,
    simptcp_set_total_len, u16]

theorem make_pdu_data (cfg : Config) (s : simptcp_socket) (msg : List Nat) (f : Nat) :
    (make_pdu cfg s msg f).1.out_buffer.data = msg ++ s.out_buffer.data.drop msg.length := by
  simp [make_pdu, simptcp_add_checksum, simptcp_set_win_size, simptcp_set_total_len,
    simptcp_set_flags, simptcp_set_head_len, simptcp_set_ack_num, simptcp_set_seq_num,
    simptcp_set_dport, simptcp_set_sport]

theorem make_pdu_out_len (cfg : Config) (s : simptcp_socket) (msg : List Nat) (f : Nat) :
    (make_pdu cfg s msg f).1.out_len = ((SIMPTCP_GHEADER_SIZE + msg.length : Nat) : Int) := by
  simp [make_pdu]

/-- A message that fits the buffer is built without error. -/
theorem make_pdu_ok (cfg : Config) (s : simptcp_socket) (msg : List Nat) (f : Nat)
    (hfit : SIMPTCP_GHEADER_SIZE + msg.length ≤ cfg.SIMPTCP_SOCKET_MAX_BUFFER_SIZE) :
    (make_pdu cfg s msg f).2 = 0 := by
  have h : ¬ (SIMPTCP_GHEADER_SIZE + msg.length > cfg.SIMPTCP_SOCKET_MAX_BUFFER_SIZE) := by omega
  simp only [make_pdu]
  rw [if_neg h]

/-- The bytes that follow the header among the first `16 + n` bytes of the
buffer that `make_pdu` has filled with a message of `n` bytes are the
message. -/
theorem make_pdu_payload (cfg : Config) (s : simptcp_socket) (msg : List Nat) (f : Nat)
    (dest : sockaddr_in) :
    datagram_payload
      { buf := (make_pdu cfg s msg f).1.out_buffer,
        len := ((SIMPTCP_GHEADER_SIZE + msg.length : Nat) : Int), dest := dest } = msg := by
  show List.take (Int.toNat ((SIMPTCP_GHEADER_SIZE + msg.length : Nat) : Int) -
    SIMPTCP_GHEADER_SIZE) _ = msg
  rw [Int.toNat_ofNat, make_pdu_data, Nat.add_sub_cancel_left]
  simp

theorem timeval_ms (t0 : timeval) :
    ((t0.tv_sec + 1) * 1000 * 1000 + t0.tv_usec) =
      (t0.tv_sec * 1000 * 1000 + t0.tv_usec) + 1000 * 1000 := by
  ring

/-! ## State ESTABLISHED: send -/

/-- The socket and the datagram that `established_simptcp_socket_state_send`
leaves at its wait loop. -/
theorem established_send_start_eq (cfg : Config) (sock : simptcp_socket) (msg : List Nat)
    (t0 : timeval) :
    established_simptcp_socket_state_send_start cfg sock msg true t0 =
      (sending cfg sock msg t0,
        [{ buf := (make_pdu cfg sock msg 0).1.out_buffer,
           len := ((u16 (SIMPTCP_GHEADER_SIZE + msg.length) : Nat) : Int),
           dest := sock.remote_udp }]) := by
  simp only [established_simptcp_socket_state_send_start, sendto_len, make_pdu_total_len,
    if_true]
  simp [sending, start_timer, make_pdu]

/-- C11: for a socket in ESTABLISHED and a message of `n` bytes that fits the
buffer (and whose total length fits the 2-byte field of the header), when the
data PDU is sent without error, `established_simptcp_socket_state_send` reaches
its wait loop with exactly one datagram sent, without any flag, whose sequence
number is the `next_seq_num` of before the call and whose acknowledgment number
is `next_ack_num` (as 16-bit fields: equal outright for numbers below 65536),
whose total length is the header size plus `n` and whose payload is the
message; `next_seq_num` is one more (in `unsigned int`), the timer runs with
the clock plus 1000 ms as deadline, the state is still ESTABLISHED and
`next_ack_num` is as before. -/
theorem established_send_reaches_wait (cfg : Config) (sock : simptcp_socket) (msg : List Nat)
    (t0 : timeval)
    (hstate : sock.socket_state = simptcp_socket_state.established)
    (hfit : SIMPTCP_GHEADER_SIZE + msg.length ≤ cfg.SIMPTCP_SOCKET_MAX_BUFFER_SIZE)
    (hlen : SIMPTCP_GHEADER_SIZE + msg.length < 65536)
    (hclock : 0 ≤ t0.tv_sec) :
    ∃ s d, established_simptcp_socket_state_send_start cfg sock msg true t0 = (s, [d]) ∧
      (make_pdu cfg sock msg 0).2 = 0 ∧
      d.buf = s.out_buffer ∧ d.dest = sock.remote_udp ∧
      simptcp_get_flags d.buf = 0 ∧
      simptcp_get_seq_num d.buf = u16 sock.next_seq_num ∧
      (sock.next_seq_num < 65536 → simptcp_get_seq_num d.buf = sock.next_seq_num) ∧
      simptcp_get_ack_num d.buf = u16 sock.next_ack_num ∧
      (sock.next_ack_num < 65536 → simptcp_get_ack_num d.buf = sock.next_ack_num) ∧
      simptcp_get_total_len d.buf = SIMPTCP_GHEADER_SIZE + msg.length ∧
      d.len = ((SIMPTCP_GHEADER_SIZE + msg.length : Nat) : Int) ∧
      datagram_payload d = msg ∧
      s.next_seq_num = u32 (sock.next_seq_num + 1) ∧
      (sock.next_seq_num + 1 < 4294967296 → s.next_seq_num = sock.next_seq_num + 1) ∧
      s.socket_state_receiver = 2 ∧
      has_active_timer s = true ∧
      s.timeout = { tv_sec := t0.tv_sec + 1, tv_usec := t0.tv_usec } ∧
      (s.timeout.tv_sec * 1000 * 1000 + s.timeout.tv_usec) =
        (t0.tv_sec * 1000 * 1000 + t0.tv_usec) + 1000 * 1000 ∧
      s.socket_state = simptcp_socket_state.established ∧
      s.next_ack_num = sock.next_ack_num := by
  have hu : u16 (SIMPTCP_GHEADER_SIZE + msg.length) = SIMPTCP_GHEADER_SIZE + msg.length :=
    u16_of_lt _ hlen
  refine ⟨_, _, established_send_start_eq cfg sock msg t0, make_pdu_ok cfg sock msg 0 hfit, rfl,
    rfl, ?_, make_pdu_seq cfg sock msg 0, ?_, make_pdu_ack cfg sock msg 0, ?_, ?_, ?_, ?_, rfl,
    ?_, rfl, ?_, ?_, ?_, ?_, ?_⟩
  · rw [make_pdu_flags]
    rfl
  · intro h
    rw [make_pdu_seq]
    exact u16_of_lt _ h
  · intro h
    rw [make_pdu_ack]
    exact u16_of_lt _ h
  · rw [make_pdu_total_len]
    exact hu
  · show ((u16 (SIMPTCP_GHEADER_SIZE + msg.length) : Nat) : Int) = _
    rw [hu]
  · show datagram_payload
      { buf := (make_pdu cfg sock msg 0).1.out_buffer,
        len := ((u16 (SIMPTCP_GHEADER_SIZE + msg.length) : Nat) : Int),
        dest := sock.remote_udp } = msg
    rw [hu]
    exact make_pdu_payload cfg sock msg 0 sock.remote_udp
  · intro h
    exact Nat.mod_eq_of_lt h
  · simp [sending, start_timer, has_active_timer]
    left
    omega
  · simp [sending, start_timer]
  · simp [sending, start_timer]
    ring
  · simp [sending, start_timer, make_pdu, hstate]
  · simp [sending, start_timer, make_pdu]

/-- Instance of C11: the example client sends "hello". -/
theorem established_send_reaches_wait_witness :
    (example_client.socket_state = simptcp_socket_state.established ∧
      SIMPTCP_GHEADER_SIZE + example_hello.length ≤ example_cfg.SIMPTCP_SOCKET_MAX_BUFFER_SIZE ∧
      SIMPTCP_GHEADER_SIZE + example_hello.length < 65536 ∧ 0 ≤ example_now.tv_sec) ∧
    ∃ s d, established_simptcp_socket_state_send_start example_cfg example_client example_hello
        true example_now = (s, [d]) ∧
      simptcp_get_flags d.buf = 0 ∧ simptcp_get_seq_num d.buf = 1 ∧
      simptcp_get_ack_num d.buf = 1 ∧ simptcp_get_total_len d.buf = 21 ∧
      datagram_payload d = example_hello ∧ s.next_seq_num = 2 ∧
      s.socket_state = simptcp_socket_state.established := by
  refine ⟨⟨by decide, by decide, by decide, by decide⟩, ?_⟩
  obtain ⟨s, d, h1, _, _, _, h2, _, h3, _, h4, h5, _, h6, _, h7, _, _, _, _, h8, _⟩ :=
    established_send_reaches_wait example_cfg example_client example_hello example_now
      (by decide) (by decide) (by decide) (by decide)
  exact ⟨s, d, h1, h2, h3 (by decide), h4 (by decide), h5, h6, h7 (by decide), h8⟩

/-- C12, the behaviour of the code at the failing input: the example client
sends the 5 bytes of "hello" and the ACK of the data PDU arrives before any
timeout; the wait ends with the count at 0 and the waiting flag cleared, and
`established_simptcp_socket_state_send` returns 0, not 5. -/
theorem established_send_returns_zero :
    example_hello.length = 5 ∧
    established_simptcp_socket_state_send_wait example_sending = true ∧
    established_simptcp_socket_state_send_wait example_acked = false ∧
    example_acked.simptcp_send_count = 0 ∧
    (established_simptcp_socket_state_send_finish example_acked example_hello.length).1 = 0 ∧
    (established_simptcp_socket_state_send_finish example_acked
      example_hello.length).2.socket_state = simptcp_socket_state.established := by
  decide

/-! ## State ESTABLISHED: arrival of a PDU -/

theorem ack_built_frame (cfg : Config) (sock : simptcp_socket) :
    (ack_built cfg sock).next_ack_num = sock.next_ack_num ∧
      (ack_built cfg sock).next_seq_num = sock.next_seq_num ∧
      (ack_built cfg sock).in_buffer = sock.in_buffer ∧
      (ack_built cfg sock).socket_state_sender = sock.socket_state_sender ∧
      (ack_built cfg sock).socket_state_receiver = sock.socket_state_receiver ∧
      (ack_built cfg sock).socket_state = sock.socket_state ∧
      (ack_built cfg sock).remote_udp = sock.remote_udp := by
  simp [ack_built, make_pdu]

/-- The result of a data PDU with the expected sequence number in
ESTABLISHED. -/
theorem established_process_data_eq (cfg : Config) (sock : simptcp_socket) (buf : simptcp_buffer)
    (len : Nat) (hack : 0 < cfg.ACK) (hfin : 0 < cfg.FIN)
    (hf : simptcp_get_flags buf = 0) (hs : simptcp_get_seq_num buf = sock.next_ack_num) :
    established_simptcp_socket_state_process_simptcp_pdu cfg sock buf len true =
      (data_taken cfg sock buf len, [out_datagram (data_taken cfg sock buf len)]) := by
  have h1 : ¬ (0 = cfg.ACK) := by omega
  have h2 : ¬ (0 = cfg.FIN) := by omega
  simp only [established_simptcp_socket_state_process_simptcp_pdu, hf, h1, h2, hs, if_true,
    if_false, sendto_out]
  simp [data_taken, out_datagram, make_pdu]

/-- The result of a data PDU with another sequence number in ESTABLISHED. -/
theorem established_process_data_dup_eq (cfg : Config) (sock : simptcp_socket)
    (buf : simptcp_buffer) (len : Nat) (hack : 0 < cfg.ACK) (hfin : 0 < cfg.FIN)
    (hf : simptcp_get_flags buf = 0) (hs : simptcp_get_seq_num buf ≠ sock.next_ack_num) :
    established_simptcp_socket_state_process_simptcp_pdu cfg sock buf len true =
      (ack_built cfg sock, [out_datagram (ack_built cfg sock)]) := by
  have h1 : ¬ (0 = cfg.ACK) := by omega
  have h2 : ¬ (0 = cfg.FIN) := by omega
  simp only [established_simptcp_socket_state_process_simptcp_pdu, hf, h1, h2, hs, if_true,
    if_false, sendto_out]
  simp [ack_built, out_datagram, make_pdu]

/-- The result of a FIN with the expected sequence number in ESTABLISHED. -/
theorem established_process_fin_eq (cfg : Config) (sock : simptcp_socket) (buf : simptcp_buffer)
    (len : Nat) (hfin : 0 < cfg.FIN) (hne : cfg.FIN ≠ cfg.ACK)
    (hf : simptcp_get_flags buf = cfg.FIN) (hs : simptcp_get_seq_num buf = sock.next_ack_num) :
    established_simptcp_socket_state_process_simptcp_pdu cfg sock buf len true =
      ({ fin_taken cfg sock with socket_state := simptcp_socket_state.closewait },
        [out_datagram (fin_taken cfg sock)]) := by
  have h2 : ¬ (cfg.FIN = 0) := by omega
  simp only [established_simptcp_socket_state_process_simptcp_pdu, hf, hne, h2, hs, if_true,
    if_false, sendto_out]
  simp [fin_taken, out_datagram, make_pdu]

/-- The result of a FIN with another sequence number in ESTABLISHED. -/
theorem established_process_fin_dup_eq (cfg : Config) (sock : simptcp_socket)
    (buf : simptcp_buffer) (len : Nat) (hfin : 0 < cfg.FIN) (hne : cfg.FIN ≠ cfg.ACK)
    (hf : simptcp_get_flags buf = cfg.FIN) (hs : simptcp_get_seq_num buf ≠ sock.next_ack_num) :
    established_simptcp_socket_state_process_simptcp_pdu cfg sock buf len true =
      (ack_built cfg sock, [out_datagram (ack_built cfg sock)]) := by
  have h2 : ¬ (cfg.FIN = 0) := by omega
  simp only [established_simptcp_socket_state_process_simptcp_pdu, hf, hne, h2, hs, if_true,
    if_false, sendto_out]
  simp [ack_built, out_datagram, make_pdu]

/-- The result of an ACK in ESTABLISHED. -/
theorem established_process_ack_eq (cfg : Config) (sock : simptcp_socket) (buf : simptcp_buffer)
    (len : Nat) (sendOk : Bool) (hack : 0 < cfg.ACK) (hne : cfg.FIN ≠ cfg.ACK)
    (hf : simptcp_get_flags buf = cfg.ACK) :
    established_simptcp_socket_state_process_simptcp_pdu cfg sock buf len sendOk =
      (if simptcp_get_ack_num buf = sock.next_seq_num then
          { sock with socket_state_receiver := -1 }
        else sock, []) := by
  have h1 : ¬ (cfg.ACK = 0) := by omega
  have h2 : ¬ (cfg.ACK = cfg.FIN) := fun h => hne h.symm
  simp only [established_simptcp_socket_state_process_simptcp_pdu, hf, h1, h2, if_true, if_false]

/-- A whole header is copied as it is by `memcpy`, and the bytes after it up to
the length copied. -/
theorem memcpy_buffer_whole (dst src : simptcp_buffer) (len : Nat)
    (hlen : SIMPTCP_GHEADER_SIZE ≤ len) :
    memcpy_buffer dst src len =
      { src with data := src.data.take (len - SIMPTCP_GHEADER_SIZE) ++
          dst.data.drop (len - SIMPTCP_GHEADER_SIZE) } := by
  have h : 16 ≤ len := hlen
  have e0 : copy16 len 0 src.sport dst.sport = src.sport := by
    unfold copy16; rw [if_pos (by omega)]
  have e2 : copy16 len 2 src.dport dst.dport = src.dport := by
    unfold copy16; rw [if_pos (by omega)]
  have e4 : copy16 len 4 src.seq_num dst.seq_num = src.seq_num := by
    unfold copy16; rw [if_pos (by omega)]
  have e6 : copy16 len 6 src.ack_num dst.ack_num = src.ack_num := by
    unfold copy16; rw [if_pos (by omega)]
  have e8 : copy8 len 8 src.header_len dst.header_len = src.header_len := by
    unfold copy8; rw [if_pos (by omega)]
  have e9 : copy8 len 9 src.flags dst.flags = src.flags := by
    unfold copy8; rw [if_pos (by omega)]
  have e10 : copy16 len 10 src.total_len dst.total_len = src.total_len := by
    unfold copy16; rw [if_pos (by omega)]
  have e12 : copy16 len 12 src.window_size dst.window_size = src.window_size := by
    unfold copy16; rw [if_pos (by omega)]
  have e14 : copy16 len 14 src.checksum dst.checksum = src.checksum := by
    unfold copy16; rw [if_pos (by omega)]
  unfold memcpy_buffer
  rw [e0, e2, e4, e6, e8, e9, e10, e12, e14]

theorem data_taken_fields (cfg : Config) (sock : simptcp_socket) (buf : simptcp_buffer)
    (len : Nat) :
    (data_taken cfg sock buf len).in_buffer = memcpy_buffer sock.in_buffer buf len ∧
      (data_taken cfg sock buf len).next_ack_num = u32 (sock.next_ack_num + 1) ∧
      (data_taken cfg sock buf len).socket_state_sender = -1 ∧
      (data_taken cfg sock buf len).next_seq_num = sock.next_seq_num ∧
      (data_taken cfg sock buf len).socket_state = sock.socket_state ∧
      (data_taken cfg sock buf len).socket_state_receiver = sock.socket_state_receiver ∧
      (data_taken cfg sock buf len).remote_udp = sock.remote_udp := by
  simp [data_taken, make_pdu]

theorem u32_succ_of_u16 (x y : Nat) (h : u16 y = x) : u32 (x + 1) = x + 1 := by
  have := u16_lt y
  rw [h] at this
  exact Nat.mod_eq_of_lt (by omega)

/-- C13: for a socket in ESTABLISHED and a PDU of `len` bytes (at least a header)
without any flag whose sequence number is `next_ack_num`, the handler copies
the PDU into the in buffer, adds one to `next_ack_num`, clears the flag on
which `recv` waits, sends exactly one ACK whose acknowledgment number is the
new `next_ack_num` (as a 16-bit field: equal outright unless the old value was
65535), and leaves the state ESTABLISHED and `next_seq_num` as they are. -/
theorem established_process_pdu_takes_data (cfg : Config) (sock : simptcp_socket)
    (buf : simptcp_buffer) (len : Nat)
    (hstate : sock.socket_state = simptcp_socket_state.established)
    (hack : 0 < cfg.ACK) (hack8 : cfg.ACK < 256) (hfin : 0 < cfg.FIN)
    (hlen : SIMPTCP_GHEADER_SIZE ≤ len)
    (hf : simptcp_get_flags buf = 0) (hs : simptcp_get_seq_num buf = sock.next_ack_num) :
    ∃ s d, established_simptcp_socket_state_process_simptcp_pdu cfg sock buf len true =
        (s, [d]) ∧
      s.in_buffer = memcpy_buffer sock.in_buffer buf len ∧
      s.in_buffer =
        { buf with data := buf.data.take (len - SIMPTCP_GHEADER_SIZE) ++
            sock.in_buffer.data.drop (len - SIMPTCP_GHEADER_SIZE) } ∧
      s.next_ack_num = sock.next_ack_num + 1 ∧
      s.socket_state_sender = -1 ∧ established_simptcp_socket_state_recv_wait s = false ∧
      d.buf = s.out_buffer ∧ d.len = s.out_len ∧ d.dest = sock.remote_udp ∧
      simptcp_get_flags d.buf = cfg.ACK ∧
      simptcp_get_ack_num d.buf = u16 s.next_ack_num ∧
      (sock.next_ack_num ≠ 65535 → simptcp_get_ack_num d.buf = s.next_ack_num) ∧
      s.socket_state = simptcp_socket_state.established ∧
      s.next_seq_num = sock.next_seq_num := by
  obtain ⟨h1, h2, h3, h4, h5, _, h7⟩ := data_taken_fields cfg sock buf len
  have hn : (data_taken cfg sock buf len).next_ack_num = sock.next_ack_num + 1 := by
    rw [h2]
    exact u32_succ_of_u16 _ _ hs
  have hlt : sock.next_ack_num < 65536 := by
    rw [← hs]
    exact u16_lt _
  have hackf : simptcp_get_ack_num (data_taken cfg sock buf len).out_buffer =
      u16 (data_taken cfg sock buf len).next_ack_num := by
    rw [hn]
    show simptcp_get_ack_num (make_pdu cfg _ [] cfg.ACK).1.out_buffer = _
    rw [make_pdu_ack]
    show u16 (u32 (sock.next_ack_num + 1)) = _
    rw [u32_succ_of_u16 _ _ hs]
  refine ⟨_, _, established_process_data_eq cfg sock buf len hack hfin hf hs, h1, ?_, hn, h3, ?_,
    rfl, rfl, h7, ?_, hackf, ?_, ?_, h4⟩
  · rw [h1]
    exact memcpy_buffer_whole _ _ _ hlen
  · simp [established_simptcp_socket_state_recv_wait, h3]
  · show simptcp_get_flags (make_pdu cfg _ [] cfg.ACK).1.out_buffer = _
    rw [make_pdu_flags]
    exact u8_of_lt _ hack8
  · intro h
    show simptcp_get_ack_num (data_taken cfg sock buf len).out_buffer = _
    rw [hackf, hn]
    exact u16_of_lt _ (by omega)
  · rw [h5]
    exact hstate

/-- Instance of C13: the example client takes a data PDU with sequence number
1 that carries "hello". -/
theorem established_process_pdu_takes_data_witness :
    (example_client.socket_state = simptcp_socket_state.established ∧
      0 < example_cfg.ACK ∧ example_cfg.ACK < 256 ∧ 0 < example_cfg.FIN ∧
      SIMPTCP_GHEADER_SIZE ≤ 21 ∧ simptcp_get_flags (example_data 1 1) = 0 ∧
      simptcp_get_seq_num (example_data 1 1) = example_client.next_ack_num) ∧
    ∃ s d, established_simptcp_socket_state_process_simptcp_pdu example_cfg example_client
        (example_data 1 1) 21 true = (s, [d]) ∧
      s.next_ack_num = 2 ∧ (simptcp_extract_data s.in_buffer).2 = example_hello ∧
      simptcp_get_flags d.buf = 2 ∧ simptcp_get_ack_num d.buf = 2 := by
  refine ⟨⟨by decide, by decide, by decide, by decide, by decide, by decide, by decide⟩, ?_⟩
  obtain ⟨s, d, h1, _, h2, h3, _, _, _, _, _, h4, _, h5, _⟩ :=
    established_process_pdu_takes_data example_cfg example_client (example_data 1 1) 21
      (by decide) (by decide) (by decide) (by decide) (by decide) (by decide) (by decide)
  refine ⟨s, d, h1, h3, ?_, h4, ?_⟩
  · rw [h2]
    decide
  · rw [h5 (by decide), h3]
    decide

theorem ack_built_header (cfg : Config) (sock : simptcp_socket) (hack8 : cfg.ACK < 256) :
    simptcp_get_flags (ack_built cfg sock).out_buffer = cfg.ACK ∧
      simptcp_get_seq_num (ack_built cfg sock).out_buffer = u16 sock.next_seq_num ∧
      simptcp_get_ack_num (ack_built cfg sock).out_buffer = u16 sock.next_ack_num := by
  refine ⟨?_, make_pdu_seq cfg sock [] cfg.ACK, make_pdu_ack cfg sock [] cfg.ACK⟩
  show simptcp_get_flags (make_pdu cfg sock [] cfg.ACK).1.out_buffer = _
  rw [make_pdu_flags]
  exact u8_of_lt _ hack8

theorem data_taken_header (cfg : Config) (sock : simptcp_socket) (buf : simptcp_buffer)
    (len : Nat) (hack8 : cfg.ACK < 256) :
    simptcp_get_flags (data_taken cfg sock buf len).out_buffer = cfg.ACK ∧
      simptcp_get_seq_num (data_taken cfg sock buf len).out_buffer = u16 sock.next_seq_num ∧
      simptcp_get_ack_num (data_taken cfg sock buf len).out_buffer =
        u16 (u32 (sock.next_ack_num + 1)) := by
  refine ⟨?_, ?_, ?_⟩
  · show simptcp_get_flags (make_pdu cfg _ [] cfg.ACK).1.out_buffer = _
    rw [make_pdu_flags]
    exact u8_of_lt _ hack8
  · show simptcp_get_seq_num (make_pdu cfg _ [] cfg.ACK).1.out_buffer = _
    rw [make_pdu_seq]
  · show simptcp_get_ack_num (make_pdu cfg _ [] cfg.ACK).1.out_buffer = _
    rw [make_pdu_ack]

/-- C14: for a socket in ESTABLISHED and a PDU `buf` without any flag: when its
sequence number is `next_ack_num`, taking it twice in a row adds one to
`next_ack_num` the first time and nothing the second time, leaves after the
second time the in buffer and the flag of `recv` as they are after the first,
keeps the state ESTABLISHED and sends each time exactly one ACK, both with the
same acknowledgment number; when its sequence number is not `next_ack_num`, the
handler changes neither `next_ack_num` nor the in buffer nor the flag of `recv`
nor the state and sends exactly one ACK whose acknowledgment number is
`next_ack_num` (as a 16-bit field). -/
theorem established_process_pdu_duplicate (cfg : Config) (sock : simptcp_socket)
    (buf : simptcp_buffer) (len : Nat)
    (hstate : sock.socket_state = simptcp_socket_state.established)
    (hack : 0 < cfg.ACK) (hack8 : cfg.ACK < 256) (hfin : 0 < cfg.FIN)
    (hf : simptcp_get_flags buf = 0) :
    (simptcp_get_seq_num buf = sock.next_ack_num →
      ∃ s1 d1 s2 d2,
        established_simptcp_socket_state_process_simptcp_pdu cfg sock buf len true =
          (s1, [d1]) ∧
        established_simptcp_socket_state_process_simptcp_pdu cfg s1 buf len true =
          (s2, [d2]) ∧
        s1.next_ack_num = sock.next_ack_num + 1 ∧ s2.next_ack_num = s1.next_ack_num ∧
        s2.in_buffer = s1.in_buffer ∧ s2.socket_state_sender = s1.socket_state_sender ∧
        s1.socket_state = simptcp_socket_state.established ∧
        s2.socket_state = simptcp_socket_state.established ∧
        simptcp_get_flags d1.buf = cfg.ACK ∧ simptcp_get_flags d2.buf = cfg.ACK ∧
        simptcp_get_ack_num d1.buf = simptcp_get_ack_num d2.buf ∧
        simptcp_get_ack_num d1.buf = u16 (sock.next_ack_num + 1)) ∧
    (simptcp_get_seq_num buf ≠ sock.next_ack_num →
      ∃ s d,
        established_simptcp_socket_state_process_simptcp_pdu cfg sock buf len true =
          (s, [d]) ∧
        s.next_ack_num = sock.next_ack_num ∧ s.in_buffer = sock.in_buffer ∧
        s.socket_state_sender = sock.socket_state_sender ∧
        s.socket_state = sock.socket_state ∧
        d.buf = s.out_buffer ∧ simptcp_get_flags d.buf = cfg.ACK ∧
        simptcp_get_ack_num d.buf = u16 sock.next_ack_num) := by
  refine ⟨?_, ?_⟩
  · intro hs
    obtain ⟨h1, h2, h3, h4, h5, _, h7⟩ := data_taken_fields cfg sock buf len
    obtain ⟨g1, _, g3⟩ := data_taken_header cfg sock buf len hack8
    have hn : (data_taken cfg sock buf len).next_ack_num = sock.next_ack_num + 1 := by
      rw [h2]
      exact u32_succ_of_u16 _ _ hs
    have hs2 : simptcp_get_seq_num buf ≠ (data_taken cfg sock buf len).next_ack_num := by
      rw [hn, hs]
      omega
    obtain ⟨f1, _, f3, f4, _, f6, _⟩ := ack_built_frame cfg (data_taken cfg sock buf len)
    obtain ⟨k1, _, k3⟩ := ack_built_header cfg (data_taken cfg sock buf len) hack8
    refine ⟨_, _, _, _, established_process_data_eq cfg sock buf len hack hfin hf hs,
      established_process_data_dup_eq cfg (data_taken cfg sock buf len) buf len hack hfin hf hs2,
      hn, f1, f3, f4, ?_, ?_, g1, k1, ?_, ?_⟩
    · rw [h5]
      exact hstate
    · rw [f6, h5]
      exact hstate
    · show simptcp_get_ack_num (data_taken cfg sock buf len).out_buffer =
        simptcp_get_ack_num (ack_built cfg (data_taken cfg sock buf len)).out_buffer
      rw [g3, k3, h2]
    · show simptcp_get_ack_num (data_taken cfg sock buf len).out_buffer = _
      rw [g3, u32_succ_of_u16 _ _ hs]
  · intro hs
    obtain ⟨f1, _, f3, f4, _, f6, _⟩ := ack_built_frame cfg sock
    obtain ⟨k1, _, k3⟩ := ack_built_header cfg sock hack8
    exact ⟨_, _, established_process_data_dup_eq cfg sock buf len hack hfin hf hs, f1, f3, f4,
      f6, rfl, k1, k3⟩

/-- Instance of C14: the example client takes twice the data PDU with sequence
number 1, and once a data PDU with sequence number 7. -/
theorem established_process_pdu_duplicate_witness :
    (example_client.socket_state = simptcp_socket_state.established ∧
      0 < example_cfg.ACK ∧ example_cfg.ACK < 256 ∧ 0 < example_cfg.FIN ∧
      simptcp_get_flags (example_data 1 1) = 0 ∧ simptcp_get_flags (example_data 7 1) = 0) ∧
    (∃ s1 d1 s2 d2,
      established_simptcp_socket_state_process_simptcp_pdu example_cfg example_client
        (example_data 1 1) 21 true = (s1, [d1]) ∧
      established_simptcp_socket_state_process_simptcp_pdu example_cfg s1
        (example_data 1 1) 21 true = (s2, [d2]) ∧
      s1.next_ack_num = 2 ∧ s2.next_ack_num = 2 ∧ s2.in_buffer = s1.in_buffer ∧
      simptcp_get_ack_num d1.buf = 2 ∧ simptcp_get_ack_num d2.buf = 2) ∧
    (∃ s d,
      established_simptcp_socket_state_process_simptcp_pdu example_cfg example_client
        (example_data 7 1) 21 true = (s, [d]) ∧
      s.next_ack_num = 1 ∧ s.in_buffer = example_client.in_buffer ∧
      simptcp_get_ack_num d.buf = 1) := by
  refine ⟨⟨by decide, by decide, by decide, by decide, by decide, by decide⟩, ?_, ?_⟩
  · obtain ⟨s1, d1, s2, d2, h1, h2, h3, h4, h5, _, _, _, _, _, h6, h7⟩ :=
      (established_process_pdu_duplicate example_cfg example_client (example_data 1 1) 21
        (by decide) (by decide) (by decide) (by decide) (by decide)).1 (by decide)
    have e : simptcp_get_ack_num d1.buf = 2 := by
      rw [h7]
      decide
    have e3 : s1.next_ack_num = 2 := by
      rw [h3]
      decide
    exact ⟨s1, d1, s2, d2, h1, h2, e3, by rw [h4, e3], h5, e, by rw [← h6, e]⟩
  · obtain ⟨s, d, h1, h2, h3, _, _, _, _, h4⟩ :=
      (established_process_pdu_duplicate example_cfg example_client (example_data 7 1) 21
        (by decide) (by decide) (by decide) (by decide) (by decide)).2 (by decide)
    exact ⟨s, d, h1, by rw [h2]; decide, h3, by rw [h4]; decide⟩

theorem make_pdu_head_len (cfg : Config) (s : simptcp_socket) (msg : List Nat) (f : Nat) :
    simptcp_get_head_len (make_pdu cfg s msg f).1.out_buffer = SIMPTCP_GHEADER_SIZE := by
  simp [make_pdu, simptcp_get_head_len, simptcp_add_checksum, simptcp_set_win_size,
    simptcp_set_total_len, simptcp_set_flags, simptcp_set_head_len, u8, SIMPTCP_GHEADER_SIZE]

/-- The payload that `simptcp_extract_data` finds in a buffer into which a whole
PDU built by `make_pdu` has been copied is the message of that PDU. -/
theorem extract_data_of_copy (cfg : Config) (s : simptcp_socket) (msg : List Nat) (f : Nat)
    (dst : simptcp_buffer) (hlen : SIMPTCP_GHEADER_SIZE + msg.length < 65536) :
    simptcp_extract_data
      (memcpy_buffer dst (make_pdu cfg s msg f).1.out_buffer (SIMPTCP_GHEADER_SIZE + msg.length)) =
      ((msg.length : Int), msg) := by
  have h1 := make_pdu_total_len cfg s msg f
  have h2 := make_pdu_head_len cfg s msg f
  have h3 := make_pdu_data cfg s msg f
  rw [u16_of_lt _ hlen] at h1
  rw [memcpy_buffer_whole _ _ _ (Nat.le_add_right _ _)]
  unfold simptcp_extract_data
  simp only [simptcp_get_total_len, simptcp_get_head_len] at h1 h2 ⊢
  rw [h1, h2, h3]
  simp

/-- C15: two sockets `A` and `B` in ESTABLISHED with `A.next_seq_num =
B.next_ack_num` below 65535 and a message that fits the buffer.  The data PDU
that the `send` of `A` sends is taken by the handler of `B` as in order: the in
buffer of `B` holds the PDU with its message, `next_ack_num` of `B` is one more
and `B` sends one ACK; the handler of `A` on that ACK clears the flag on which
the `send` of `A` waits; afterwards `A.next_seq_num = B.next_ack_num` holds
again, both one more than before. -/
theorem data_exchange_keeps_in_step (cfg : Config) (A B : simptcp_socket) (msg : List Nat)
    (t0 : timeval)
    (hA : A.socket_state = simptcp_socket_state.established)
    (hB : B.socket_state = simptcp_socket_state.established)
    (hstep : A.next_seq_num = B.next_ack_num) (hlt : A.next_seq_num < 65535)
    (hfit : SIMPTCP_GHEADER_SIZE + msg.length ≤ cfg.SIMPTCP_SOCKET_MAX_BUFFER_SIZE)
    (hlen : SIMPTCP_GHEADER_SIZE + msg.length < 65536)
    (hack : 0 < cfg.ACK) (hack8 : cfg.ACK < 256) (hfin : 0 < cfg.FIN)
    (hne : cfg.FIN ≠ cfg.ACK) :
    ∃ A1 d B1 a A2,
      established_simptcp_socket_state_send_start cfg A msg true t0 = (A1, [d]) ∧
      established_simptcp_socket_state_process_simptcp_pdu cfg B d.buf d.len.toNat true =
        (B1, [a]) ∧
      established_simptcp_socket_state_process_simptcp_pdu cfg A1 a.buf a.len.toNat true =
        (A2, []) ∧
      B1.in_buffer = memcpy_buffer B.in_buffer d.buf (SIMPTCP_GHEADER_SIZE + msg.length) ∧
      simptcp_extract_data B1.in_buffer = ((msg.length : Int), msg) ∧
      simptcp_get_flags a.buf = cfg.ACK ∧
      established_simptcp_socket_state_send_wait A1 = decide (A1.simptcp_send_count < 5) ∧
      A2.socket_state_receiver = -1 ∧
      established_simptcp_socket_state_send_wait A2 = false ∧
      A2.next_seq_num = A.next_seq_num + 1 ∧ B1.next_ack_num = B.next_ack_num + 1 ∧
      A2.next_seq_num = B1.next_ack_num ∧
      A2.socket_state = simptcp_socket_state.established ∧
      B1.socket_state = simptcp_socket_state.established := by
  have hu : u16 (SIMPTCP_GHEADER_SIZE + msg.length) = SIMPTCP_GHEADER_SIZE + msg.length :=
    u16_of_lt _ hlen
  have hsend := established_send_start_eq cfg A msg t0
  rw [hu] at hsend
  -- the data PDU
  have hdf : simptcp_get_flags (make_pdu cfg A msg 0).1.out_buffer = 0 := by
    rw [make_pdu_flags]
    rfl
  have hds : simptcp_get_seq_num (make_pdu cfg A msg 0).1.out_buffer = B.next_ack_num := by
    rw [make_pdu_seq, u16_of_lt _ (by omega), hstep]
  have hB1 := established_process_data_eq cfg B (make_pdu cfg A msg 0).1.out_buffer
    (SIMPTCP_GHEADER_SIZE + msg.length) hack hfin hdf hds
  obtain ⟨b1, b2, _, _, b5, _, _⟩ := data_taken_fields cfg B
    (make_pdu cfg A msg 0).1.out_buffer (SIMPTCP_GHEADER_SIZE + msg.length)
  obtain ⟨g1, _, g3⟩ := data_taken_header cfg B (make_pdu cfg A msg 0).1.out_buffer
    (SIMPTCP_GHEADER_SIZE + msg.length) hack8
  have h5 : simptcp_extract_data (data_taken cfg B (make_pdu cfg A msg 0).1.out_buffer
      (SIMPTCP_GHEADER_SIZE + msg.length)).in_buffer = ((msg.length : Int), msg) := by
    rw [b1]
    exact extract_data_of_copy cfg A msg 0 B.in_buffer hlen
  have hbn : u32 (B.next_ack_num + 1) = B.next_ack_num + 1 := Nat.mod_eq_of_lt (by omega)
  have han : u32 (A.next_seq_num + 1) = A.next_seq_num + 1 := Nat.mod_eq_of_lt (by omega)
  set D := (make_pdu cfg A msg 0).1.out_buffer with hD
  set B1 := data_taken cfg B D (SIMPTCP_GHEADER_SIZE + msg.length) with hB1def
  -- the ACK
  have hA2 := established_process_ack_eq cfg (sending cfg A msg t0) B1.out_buffer
    (out_datagram B1).len.toNat true hack hne g1
  have hcond : simptcp_get_ack_num B1.out_buffer = (sending cfg A msg t0).next_seq_num := by
    show _ = u32 (A.next_seq_num + 1)
    rw [g3, hbn, han, u16_of_lt _ (by omega), hstep]
  rw [if_pos hcond] at hA2
  have h2 : established_simptcp_socket_state_process_simptcp_pdu cfg B D
      (Int.toNat ((SIMPTCP_GHEADER_SIZE + msg.length : Nat) : Int)) true =
      (B1, [out_datagram B1]) := by
    rw [Int.toNat_ofNat]
    exact hB1
  have h7 : established_simptcp_socket_state_send_wait (sending cfg A msg t0) =
      decide ((sending cfg A msg t0).simptcp_send_count < 5) := by
    simp [established_simptcp_socket_state_send_wait, sending, start_timer]
  have h9 : established_simptcp_socket_state_send_wait
      { sending cfg A msg t0 with socket_state_receiver := -1 } = false := by
    simp [established_simptcp_socket_state_send_wait]
  have h11 : B1.next_ack_num = B.next_ack_num + 1 := by
    rw [b2, hbn]
  have h12 : u32 (A.next_seq_num + 1) = B1.next_ack_num := by
    rw [b2, hbn, han, hstep]
  have h13 : (sending cfg A msg t0).socket_state = simptcp_socket_state.established := by
    simp [sending, start_timer, make_pdu, hA]
  have h14 : B1.socket_state = simptcp_socket_state.established := by
    rw [b5]
    exact hB
  exact ⟨sending cfg A msg t0, _, B1, out_datagram B1,
    { sending cfg A msg t0 with socket_state_receiver := -1 },
    hsend, h2, hA2, b1, h5, g1, h7, rfl, h9, han, h11, h12, h13, h14⟩

/-- Instance of C15: the example client sends "hello" to the child of the
example server. -/
theorem data_exchange_keeps_in_step_witness :
    (example_client.socket_state = simptcp_socket_state.established ∧
      example_child.socket_state = simptcp_socket_state.established ∧
      example_client.next_seq_num = example_child.next_ack_num ∧
      example_client.next_seq_num < 65535 ∧
      SIMPTCP_GHEADER_SIZE + example_hello.length ≤ example_cfg.SIMPTCP_SOCKET_MAX_BUFFER_SIZE ∧
      SIMPTCP_GHEADER_SIZE + example_hello.length < 65536 ∧
      0 < example_cfg.ACK ∧ example_cfg.ACK < 256 ∧ 0 < example_cfg.FIN ∧
      example_cfg.FIN ≠ example_cfg.ACK) ∧
    ∃ A1 d B1 a A2,
      established_simptcp_socket_state_send_start example_cfg example_client example_hello true
        example_now = (A1, [d]) ∧
      established_simptcp_socket_state_process_simptcp_pdu example_cfg example_child d.buf
        d.len.toNat true = (B1, [a]) ∧
      established_simptcp_socket_state_process_simptcp_pdu example_cfg A1 a.buf a.len.toNat
        true = (A2, []) ∧
      simptcp_extract_data B1.in_buffer = (5, example_hello) ∧
      established_simptcp_socket_state_send_wait A2 = false ∧
      A2.next_seq_num = 2 ∧ B1.next_ack_num = 2 := by
  refine ⟨⟨by decide, by decide, by decide, by decide, by decide, by decide, by decide,
    by decide, by decide, by decide⟩, ?_⟩
  obtain ⟨A1, d, B1, a, A2, h1, h2, h3, _, h5, _, _, _, h9, h10, h11, _⟩ :=
    data_exchange_keeps_in_step example_cfg example_client example_child example_hello
      example_now (by decide) (by decide) (by decide) (by decide) (by decide) (by decide)
      (by decide) (by decide) (by decide) (by decide)
  exact ⟨A1, d, B1, a, A2, h1, h2, h3, h5, h9, by rw [h10]; decide, by rw [h11]; decide⟩

/-! ## State ESTABLISHED: recv -/

/-- C16, the behaviour of the code at the failing input: the in buffer of the
example client holds a data PDU with the 5 bytes of "hello" and the caller of
`recv` gives a buffer of 2 bytes.  The size `n` is not handed to
`simptcp_extract_data`: `established_simptcp_socket_state_recv` returns 5 and
writes the 5 bytes, as it does with a buffer of 5 bytes. -/
theorem established_recv_exceeds_buffer_size :
    example_received.socket_state = simptcp_socket_state.established ∧
    (established_simptcp_socket_state_recv_finish example_received 2).1 = 5 ∧
    (established_simptcp_socket_state_recv_finish example_received 2).2 = example_hello ∧
    ¬ ((established_simptcp_socket_state_recv_finish example_received 2).1 ≤ ((2 : Nat) : Int)) ∧
    ¬ ((established_simptcp_socket_state_recv_finish example_received 2).2.length ≤ 2) ∧
    established_simptcp_socket_state_recv_finish example_received 2 =
      established_simptcp_socket_state_recv_finish example_received 5 := by
  decide

/-- The function `established_simptcp_socket_state_recv` sets the flag on which it
waits when it starts: it always enters its wait loop. -/
theorem established_recv_start_waits (sock : simptcp_socket) :
    established_simptcp_socket_state_recv_wait
      (established_simptcp_socket_state_recv_start sock) = true := by
  simp [established_simptcp_socket_state_recv_wait, established_simptcp_socket_state_recv_start]

/-- C17, the behaviour of the code at the failing input: the handler has put a
data PDU with "hello" in the in buffer of the example client and has cleared
the flag of `recv`; `established_simptcp_socket_state_recv` is called
afterwards, sets the flag again and waits: the condition of its wait loop is
true, and the loop ends only when the handler takes another data PDU in
order, which overwrites the in buffer. -/
theorem established_recv_waits_although_buffered :
    example_received.socket_state = simptcp_socket_state.established ∧
    simptcp_extract_data example_received.in_buffer = (5, example_hello) ∧
    example_received.socket_state_sender = -1 ∧
    established_simptcp_socket_state_recv_wait example_received = false ∧
    established_simptcp_socket_state_recv_wait
      (established_simptcp_socket_state_recv_start example_received) = true ∧
    (established_simptcp_socket_state_recv_start example_received).in_buffer =
      example_received.in_buffer := by
  decide

/-! ## Arrival of a FIN -/

theorem fin_taken_fields (cfg : Config) (sock : simptcp_socket) :
    (fin_taken cfg sock).next_ack_num = u32 (sock.next_ack_num + 1) ∧
      (fin_taken cfg sock).next_seq_num = sock.next_seq_num ∧
      (fin_taken cfg sock).socket_state = sock.socket_state ∧
      (fin_taken cfg sock).remote_udp = sock.remote_udp := by
  simp [fin_taken, make_pdu]

theorem fin_taken_header (cfg : Config) (sock : simptcp_socket) (hack8 : cfg.ACK < 256) :
    simptcp_get_flags (fin_taken cfg sock).out_buffer = cfg.ACK ∧
      simptcp_get_seq_num (fin_taken cfg sock).out_buffer = u16 sock.next_seq_num ∧
      simptcp_get_ack_num (fin_taken cfg sock).out_buffer = u16 (u32 (sock.next_ack_num + 1)) := by
  refine ⟨?_, ?_, ?_⟩
  · show simptcp_get_flags (make_pdu cfg _ [] cfg.ACK).1.out_buffer = _
    rw [make_pdu_flags]
    exact u8_of_lt _ hack8
  · show simptcp_get_seq_num (make_pdu cfg _ [] cfg.ACK).1.out_buffer = _
    rw [make_pdu_seq]
  · show simptcp_get_ack_num (make_pdu cfg _ [] cfg.ACK).1.out_buffer = _
    rw [make_pdu_ack]

/-- A FIN with another sequence number leaves the state and `next_ack_num` of a
socket in ESTABLISHED as they are, whether the ACK leaves or not. -/
theorem established_process_fin_dup_frame (cfg : Config) (sock : simptcp_socket)
    (buf : simptcp_buffer) (len : Nat) (sendOk : Bool) (hfin : 0 < cfg.FIN)
    (hne : cfg.FIN ≠ cfg.ACK)
    (hf : simptcp_get_flags buf = cfg.FIN) (hs : simptcp_get_seq_num buf ≠ sock.next_ack_num) :
    (established_simptcp_socket_state_process_simptcp_pdu cfg sock buf len sendOk).1 =
      ack_built cfg sock := by
  have h2 : ¬ (cfg.FIN = 0) := by omega
  simp only [established_simptcp_socket_state_process_simptcp_pdu, hf, hne, h2, hs, if_true,
    if_false]
  rfl

/-- The result of a FIN with the expected sequence number in FINWAIT2, up to the
call of `sleep`. -/
theorem finwait2_process_fin_eq (cfg : Config) (sock : simptcp_socket) (buf : simptcp_buffer)
    (hf : simptcp_get_flags buf = cfg.FIN) (hs : simptcp_get_seq_num buf = sock.next_ack_num) :
    finwait2_simptcp_socket_state_process_simptcp_pdu_start cfg sock buf true =
      (true, { fin_taken cfg sock with socket_state := simptcp_socket_state.timewait },
        [out_datagram (fin_taken cfg sock)]) := by
  simp only [finwait2_simptcp_socket_state_process_simptcp_pdu_start, hf, hs, if_true,
    sendto_out]
  simp [fin_taken, out_datagram, make_pdu]

/-- C18: for a PDU whose flags are exactly FIN.  In ESTABLISHED, when its
sequence number is `next_ack_num`, the handler adds one to `next_ack_num`, sends
exactly one ACK whose acknowledgment number is the new `next_ack_num` (as a
16-bit field: equal outright unless the old value was 65535) and puts the
socket in CLOSEWAIT; in FINWAIT2 it does the same and puts the socket in
TIMEWAIT, then, after its sleep, in CLOSED.  In both states a FIN with another
sequence number leaves the state and `next_ack_num` as they are. -/
theorem process_pdu_takes_fin (cfg : Config) (sock : simptcp_socket) (buf : simptcp_buffer)
    (len : Nat) (hack8 : cfg.ACK < 256) (hfin : 0 < cfg.FIN) (hne : cfg.FIN ≠ cfg.ACK)
    (hf : simptcp_get_flags buf = cfg.FIN) :
    (sock.socket_state = simptcp_socket_state.established →
      (simptcp_get_seq_num buf = sock.next_ack_num →
        ∃ s d, established_simptcp_socket_state_process_simptcp_pdu cfg sock buf len true =
            (s, [d]) ∧
          s.next_ack_num = sock.next_ack_num + 1 ∧
          d.buf = s.out_buffer ∧ d.len = s.out_len ∧ d.dest = sock.remote_udp ∧
          simptcp_get_flags d.buf = cfg.ACK ∧
          simptcp_get_ack_num d.buf = u16 s.next_ack_num ∧
          (sock.next_ack_num ≠ 65535 → simptcp_get_ack_num d.buf = s.next_ack_num) ∧
          s.socket_state = simptcp_socket_state.closewait) ∧
      (simptcp_get_seq_num buf ≠ sock.next_ack_num → ∀ sendOk,
        (established_simptcp_socket_state_process_simptcp_pdu cfg sock buf len
          sendOk).1.socket_state = simptcp_socket_state.established ∧
        (established_simptcp_socket_state_process_simptcp_pdu cfg sock buf len
          sendOk).1.next_ack_num = sock.next_ack_num)) ∧
    (sock.socket_state = simptcp_socket_state.finwait2 →
      (simptcp_get_seq_num buf = sock.next_ack_num →
        ∃ s1 s d,
          finwait2_simptcp_socket_state_process_simptcp_pdu_start cfg sock buf true =
            (true, s1, [d]) ∧
          finwait2_simptcp_socket_state_process_simptcp_pdu cfg sock buf true = (s, [d]) ∧
          s1.socket_state = simptcp_socket_state.timewait ∧
          s = finwait2_simptcp_socket_state_process_simptcp_pdu_finish s1 ∧
          s.socket_state = simptcp_socket_state.closed ∧
          s.next_ack_num = sock.next_ack_num + 1 ∧
          d.buf = s.out_buffer ∧ d.len = s.out_len ∧ d.dest = sock.remote_udp ∧
          simptcp_get_flags d.buf = cfg.ACK ∧
          simptcp_get_ack_num d.buf = u16 s.next_ack_num ∧
          (sock.next_ack_num ≠ 65535 → simptcp_get_ack_num d.buf = s.next_ack_num)) ∧
      (simptcp_get_seq_num buf ≠ sock.next_ack_num → ∀ sendOk,
        finwait2_simptcp_socket_state_process_simptcp_pdu cfg sock buf sendOk = (sock, []))) := by
  obtain ⟨f1, _, f3, f4⟩ := fin_taken_fields cfg sock
  obtain ⟨g1, _, g3⟩ := fin_taken_header cfg sock hack8
  refine ⟨fun hstate => ⟨?_, ?_⟩, fun hstate => ⟨?_, ?_⟩⟩
  · intro hs
    have hn : u32 (sock.next_ack_num + 1) = sock.next_ack_num + 1 := u32_succ_of_u16 _ _ hs
    have hlt : sock.next_ack_num < 65536 := by
      rw [← hs]
      exact u16_lt _
    refine ⟨{ fin_taken cfg sock with socket_state := simptcp_socket_state.closewait },
      out_datagram (fin_taken cfg sock),
      established_process_fin_eq cfg sock buf len hfin hne hf hs, ?_, rfl, rfl, f4, g1, ?_, ?_,
      rfl⟩
    · show (fin_taken cfg sock).next_ack_num = _
      rw [f1, hn]
    · show simptcp_get_ack_num (fin_taken cfg sock).out_buffer = u16 (fin_taken cfg sock).next_ack_num
      rw [g3, f1]
    · intro h
      show simptcp_get_ack_num (fin_taken cfg sock).out_buffer = (fin_taken cfg sock).next_ack_num
      rw [g3, f1, hn]
      exact u16_of_lt _ (by omega)
  · intro hs sendOk
    rw [established_process_fin_dup_frame cfg sock buf len sendOk hfin hne hf hs]
    obtain ⟨k1, _, _, _, _, k6, _⟩ := ack_built_frame cfg sock
    exact ⟨by rw [k6]; exact hstate, k1⟩
  · intro hs
    have hn : u32 (sock.next_ack_num + 1) = sock.next_ack_num + 1 := u32_succ_of_u16 _ _ hs
    have hlt : sock.next_ack_num < 65536 := by
      rw [← hs]
      exact u16_lt _
    have hstart := finwait2_process_fin_eq cfg sock buf hf hs
    refine ⟨{ fin_taken cfg sock with socket_state := simptcp_socket_state.timewait },
      { fin_taken cfg sock with socket_state := simptcp_socket_state.closed },
      out_datagram (fin_taken cfg sock), hstart, ?_, rfl, rfl, rfl, ?_, rfl, rfl, f4, g1, ?_, ?_⟩
    · unfold finwait2_simptcp_socket_state_process_simptcp_pdu
      rw [hstart]
      rfl
    · show (fin_taken cfg sock).next_ack_num = _
      rw [f1, hn]
    · show simptcp_get_ack_num (fin_taken cfg sock).out_buffer = u16 (fin_taken cfg sock).next_ack_num
      rw [g3, f1]
    · intro h
      show simptcp_get_ack_num (fin_taken cfg sock).out_buffer = (fin_taken cfg sock).next_ack_num
      rw [g3, f1, hn]
      exact u16_of_lt _ (by omega)
  · intro hs sendOk
    simp [finwait2_simptcp_socket_state_process_simptcp_pdu,
      finwait2_simptcp_socket_state_process_simptcp_pdu_start, hf, hs]

/-- Instance of C18: the example client in ESTABLISHED and in FINWAIT2 takes a
FIN with sequence number 1, or a FIN with sequence number 9. -/
theorem process_pdu_takes_fin_witness :
    (example_cfg.ACK < 256 ∧ 0 < example_cfg.FIN ∧ example_cfg.FIN ≠ example_cfg.ACK ∧
      simptcp_get_flags (example_pdu 4 1 2) = example_cfg.FIN ∧
      example_client.socket_state = simptcp_socket_state.established ∧
      example_finwait2.socket_state = simptcp_socket_state.finwait2 ∧
      simptcp_get_seq_num (example_pdu 4 1 2) = example_client.next_ack_num) ∧
    (∃ s d, established_simptcp_socket_state_process_simptcp_pdu example_cfg example_client
        (example_pdu 4 1 2) 16 true = (s, [d]) ∧
      s.socket_state = simptcp_socket_state.closewait ∧ simptcp_get_flags d.buf = 2) ∧
    (∃ s d, finwait2_simptcp_socket_state_process_simptcp_pdu example_cfg example_finwait2
        (example_pdu 4 1 2) true = (s, [d]) ∧
      s.socket_state = simptcp_socket_state.closed ∧ simptcp_get_flags d.buf = 2) ∧
    finwait2_simptcp_socket_state_process_simptcp_pdu example_cfg example_finwait2
        (example_pdu 4 9 2) true = (example_finwait2, []) := by
  refine ⟨⟨by decide, by decide, by decide, by decide, by decide, by decide, by decide⟩,
    ?_, ?_, ?_⟩
  · obtain ⟨s, d, h1, _, _, _, _, h2, _, _, h3⟩ :=
      ((process_pdu_takes_fin example_cfg example_client (example_pdu 4 1 2) 16 (by decide)
        (by decide) (by decide) (by decide)).1 (by decide)).1 (by decide)
    exact ⟨s, d, h1, h3, h2⟩
  · obtain ⟨s1, s, d, _, h1, _, _, h2, _, _, _, _, h3, _⟩ :=
      ((process_pdu_takes_fin example_cfg example_finwait2 (example_pdu 4 1 2) 16 (by decide)
        (by decide) (by decide) (by decide)).2 (by decide)).1 (by decide)
    exact ⟨s, d, h1, h2, h3⟩
  · exact ((process_pdu_takes_fin example_cfg example_finwait2 (example_pdu 4 9 2) 16
      (by decide) (by decide) (by decide) (by decide)).2 (by decide)).2 (by decide) true

/-! ## Shutdown -/

/-- The socket and the datagram that `closewait_simptcp_socket_state_shutdown`
leaves at its wait loop. -/
theorem closewait_shutdown_start_eq (cfg : Config) (sock : simptcp_socket) (t0 : timeval) :
    closewait_simptcp_socket_state_shutdown_start cfg sock true t0 =
      (lastack_waiting cfg sock t0, [out_datagram (lastack_waiting cfg sock t0)]) := by
  simp only [closewait_simptcp_socket_state_shutdown_start, sendto_out, if_true]
  simp [lastack_waiting, out_datagram, start_timer, make_pdu]

/-- The socket and the datagram that `established_simptcp_socket_state_shutdown`
leaves at the wait loop of a client. -/
theorem established_shutdown_start_eq (cfg : Config) (sock : simptcp_socket) (t0 : timeval)
    (hclient : sock.socket_type = simptcp_socket_type.client)
    (hbuf : SIMPTCP_GHEADER_SIZE ≤ cfg.SIMPTCP_SOCKET_MAX_BUFFER_SIZE) :
    established_simptcp_socket_state_shutdown_start cfg sock true t0 =
      (shutdown_point.wait_closed, finwait1_waiting cfg sock t0,
        [out_datagram (finwait1_waiting cfg sock t0)]) := by
  have hok := make_pdu_empty_ok cfg sock cfg.FIN hbuf
  simp only [established_simptcp_socket_state_shutdown_start, hclient, hok, sendto_out]
  simp [finwait1_waiting, out_datagram, start_timer, make_pdu]

theorem lastack_waiting_fields (cfg : Config) (sock : simptcp_socket) (t0 : timeval) :
    (lastack_waiting cfg sock t0).next_seq_num = u32 (sock.next_seq_num + 1) ∧
      (lastack_waiting cfg sock t0).next_ack_num = sock.next_ack_num ∧
      (lastack_waiting cfg sock t0).socket_state = simptcp_socket_state.lastack ∧
      (lastack_waiting cfg sock t0).remote_udp = sock.remote_udp ∧
      (lastack_waiting cfg sock t0).timeout =
        { tv_sec := t0.tv_sec + 1, tv_usec := t0.tv_usec } ∧
      (lastack_waiting cfg sock t0).out_buffer =
        (make_pdu cfg { sock with socket_state := simptcp_socket_state.lastack } []
          cfg.FIN).1.out_buffer := by
  simp [lastack_waiting, start_timer, make_pdu]

theorem finwait1_waiting_fields (cfg : Config) (sock : simptcp_socket) (t0 : timeval) :
    (finwait1_waiting cfg sock t0).next_seq_num = u32 (sock.next_seq_num + 1) ∧
      (finwait1_waiting cfg sock t0).next_ack_num = sock.next_ack_num ∧
      (finwait1_waiting cfg sock t0).socket_state = simptcp_socket_state.finwait1 ∧
      (finwait1_waiting cfg sock t0).remote_udp = sock.remote_udp ∧
      (finwait1_waiting cfg sock t0).timeout =
        { tv_sec := t0.tv_sec + 1, tv_usec := t0.tv_usec } ∧
      (finwait1_waiting cfg sock t0).out_buffer = (make_pdu cfg sock [] cfg.FIN).1.out_buffer := by
  simp [finwait1_waiting, start_timer, make_pdu]

theorem active_of_timeout (s : simptcp_socket) (t0 : timeval) (hclock : 0 ≤ t0.tv_sec)
    (h : s.timeout = { tv_sec := t0.tv_sec + 1, tv_usec := t0.tv_usec }) :
    has_active_timer s = true := by
  simp [has_active_timer, h]
  left
  omega

/-- C20: for a socket in CLOSEWAIT, when the FIN is sent without error,
`closewait_simptcp_socket_state_shutdown` reaches its wait loop with exactly one
datagram sent, whose flags are FIN, whose sequence number is the `next_seq_num`
of before the call and whose acknowledgment number is `next_ack_num` (as 16-bit
fields: equal outright for numbers below 65536); `next_seq_num` is one more (in
`unsigned int`), the timer runs with the clock plus 1000 ms as deadline, the
socket is in LASTACK and `next_ack_num` is as before. -/
theorem closewait_shutdown_reaches_wait (cfg : Config) (sock : simptcp_socket) (t0 : timeval)
    (hstate : sock.socket_state = simptcp_socket_state.closewait)
    (hfin8 : cfg.FIN < 256) (hclock : 0 ≤ t0.tv_sec) :
    ∃ s d, closewait_simptcp_socket_state_shutdown_start cfg sock true t0 = (s, [d]) ∧
      d.buf = s.out_buffer ∧ d.len = s.out_len ∧ d.dest = sock.remote_udp ∧
      simptcp_get_flags d.buf = cfg.FIN ∧
      simptcp_get_seq_num d.buf = u16 sock.next_seq_num ∧
      (sock.next_seq_num < 65536 → simptcp_get_seq_num d.buf = sock.next_seq_num) ∧
      simptcp_get_ack_num d.buf = u16 sock.next_ack_num ∧
      (sock.next_ack_num < 65536 → simptcp_get_ack_num d.buf = sock.next_ack_num) ∧
      s.next_seq_num = u32 (sock.next_seq_num + 1) ∧
      (sock.next_seq_num + 1 < 4294967296 → s.next_seq_num = sock.next_seq_num + 1) ∧
      has_active_timer s = true ∧
      s.timeout = { tv_sec := t0.tv_sec + 1, tv_usec := t0.tv_usec } ∧
      (s.timeout.tv_sec * 1000 * 1000 + s.timeout.tv_usec) =
        (t0.tv_sec * 1000 * 1000 + t0.tv_usec) + 1000 * 1000 ∧
      s.socket_state = simptcp_socket_state.lastack ∧
      s.next_ack_num = sock.next_ack_num := by
  obtain ⟨f1, f2, f3, f4, f5, f6⟩ := lastack_waiting_fields cfg sock t0
  have g1 : simptcp_get_flags (lastack_waiting cfg sock t0).out_buffer = cfg.FIN := by
    rw [f6, make_pdu_flags]
    exact u8_of_lt _ hfin8
  have g2 : simptcp_get_seq_num (lastack_waiting cfg sock t0).out_buffer =
      u16 sock.next_seq_num := by
    rw [f6, make_pdu_seq]
  have g3 : simptcp_get_ack_num (lastack_waiting cfg sock t0).out_buffer =
      u16 sock.next_ack_num := by
    rw [f6, make_pdu_ack]
  have g4 : sock.next_seq_num < 65536 →
      simptcp_get_seq_num (lastack_waiting cfg sock t0).out_buffer = sock.next_seq_num :=
    fun h => by rw [g2]; exact u16_of_lt _ h
  have g5 : sock.next_ack_num < 65536 →
      simptcp_get_ack_num (lastack_waiting cfg sock t0).out_buffer = sock.next_ack_num :=
    fun h => by rw [g3]; exact u16_of_lt _ h
  have g6 : sock.next_seq_num + 1 < 4294967296 →
      (lastack_waiting cfg sock t0).next_seq_num = sock.next_seq_num + 1 :=
    fun h => by rw [f1]; exact Nat.mod_eq_of_lt h
  have g7 : ((lastack_waiting cfg sock t0).timeout.tv_sec * 1000 * 1000 +
      (lastack_waiting cfg sock t0).timeout.tv_usec) =
      (t0.tv_sec * 1000 * 1000 + t0.tv_usec) + 1000 * 1000 := by
    rw [f5]
    exact timeval_ms t0
  exact ⟨lastack_waiting cfg sock t0, out_datagram (lastack_waiting cfg sock t0),
    closewait_shutdown_start_eq cfg sock t0, rfl, rfl, f4, g1, g2, g4, g3, g5, f1, g6,
    active_of_timeout _ t0 hclock f5, f5, g7, f3, f2⟩

/-- Instance of C20: `shutdown` on the example client in CLOSEWAIT. -/
theorem closewait_shutdown_reaches_wait_witness :
    (example_closewait.socket_state = simptcp_socket_state.closewait ∧
      example_cfg.FIN < 256 ∧ 0 ≤ example_now.tv_sec) ∧
    ∃ s d, closewait_simptcp_socket_state_shutdown_start example_cfg example_closewait true
        example_now = (s, [d]) ∧
      simptcp_get_flags d.buf = 4 ∧ simptcp_get_seq_num d.buf = 1 ∧
      simptcp_get_ack_num d.buf = 1 ∧ s.next_seq_num = 2 ∧
      s.socket_state = simptcp_socket_state.lastack := by
  refine ⟨⟨by decide, by decide, by decide⟩, ?_⟩
  obtain ⟨s, d, h1, _, _, _, h2, _, h3, _, h4, _, h5, _, _, _, h6, _⟩ :=
    closewait_shutdown_reaches_wait example_cfg example_closewait example_now (by decide)
      (by decide) (by decide)
  exact ⟨s, d, h1, h2, h3 (by decide), h4 (by decide), h5 (by decide), h6⟩

/-- C21: for a PDU whose flags are exactly ACK.  When its acknowledgment number
is `next_seq_num`, the handler of FINWAIT1 stops the timer and puts the socket
in FINWAIT2, the handler of LASTACK stops the timer and puts the socket in
CLOSED, and both leave every other field, `next_seq_num` and `next_ack_num`
among them, as it is; when its acknowledgment number differs, both handlers
leave the socket as it is. -/
theorem finwait1_lastack_process_ack (cfg : Config) (sock : simptcp_socket)
    (buf : simptcp_buffer) (hf : simptcp_get_flags buf = cfg.ACK) :
    (sock.socket_state = simptcp_socket_state.finwait1 →
      (simptcp_get_ack_num buf = sock.next_seq_num →
        finwait1_simptcp_socket_state_process_simptcp_pdu cfg sock buf =
          { sock with socket_state := simptcp_socket_state.finwait2,
                      timeout := { tv_sec := 0, tv_usec := 0 } } ∧
        (finwait1_simptcp_socket_state_process_simptcp_pdu cfg sock buf).socket_state =
          simptcp_socket_state.finwait2 ∧
        has_active_timer (finwait1_simptcp_socket_state_process_simptcp_pdu cfg sock buf) =
          false ∧
        (finwait1_simptcp_socket_state_process_simptcp_pdu cfg sock buf).next_seq_num =
          sock.next_seq_num ∧
        (finwait1_simptcp_socket_state_process_simptcp_pdu cfg sock buf).next_ack_num =
          sock.next_ack_num) ∧
      (simptcp_get_ack_num buf ≠ sock.next_seq_num →
        finwait1_simptcp_socket_state_process_simptcp_pdu cfg sock buf = sock)) ∧
    (sock.socket_state = simptcp_socket_state.lastack →
      (simptcp_get_ack_num buf = sock.next_seq_num →
        lastack_simptcp_socket_state_process_simptcp_pdu cfg sock buf =
          { sock with socket_state := simptcp_socket_state.closed,
                      timeout := { tv_sec := 0, tv_usec := 0 } } ∧
        (lastack_simptcp_socket_state_process_simptcp_pdu cfg sock buf).socket_state =
          simptcp_socket_state.closed ∧
        has_active_timer (lastack_simptcp_socket_state_process_simptcp_pdu cfg sock buf) =
          false ∧
        (lastack_simptcp_socket_state_process_simptcp_pdu cfg sock buf).next_seq_num =
          sock.next_seq_num ∧
        (lastack_simptcp_socket_state_process_simptcp_pdu cfg sock buf).next_ack_num =
          sock.next_ack_num) ∧
      (simptcp_get_ack_num buf ≠ sock.next_seq_num →
        lastack_simptcp_socket_state_process_simptcp_pdu cfg sock buf = sock)) := by
  refine ⟨fun _ => ⟨fun ha => ?_, fun ha => ?_⟩, fun _ => ⟨fun ha => ?_, fun ha => ?_⟩⟩
  · simp [finwait1_simptcp_socket_state_process_simptcp_pdu, hf, ha, stop_timer,
      has_active_timer]
  · simp [finwait1_simptcp_socket_state_process_simptcp_pdu, hf, ha]
  · simp [lastack_simptcp_socket_state_process_simptcp_pdu, hf, ha, stop_timer,
      has_active_timer]
  · simp [lastack_simptcp_socket_state_process_simptcp_pdu, hf, ha]

/-- Instance of C21: the example client in FINWAIT1 and in LASTACK (`next_seq_num`
2) takes an ACK with acknowledgment number 2, or 9. -/
theorem finwait1_lastack_process_ack_witness :
    (simptcp_get_flags (example_pdu 2 1 2) = example_cfg.ACK ∧
      simptcp_get_flags (example_pdu 2 1 9) = example_cfg.ACK ∧
      example_finwait1.socket_state = simptcp_socket_state.finwait1 ∧
      example_lastack.socket_state = simptcp_socket_state.lastack ∧
      simptcp_get_ack_num (example_pdu 2 1 2) = example_finwait1.next_seq_num ∧
      simptcp_get_ack_num (example_pdu 2 1 2) = example_lastack.next_seq_num) ∧
    (finwait1_simptcp_socket_state_process_simptcp_pdu example_cfg example_finwait1
      (example_pdu 2 1 2)).socket_state = simptcp_socket_state.finwait2 ∧
    (lastack_simptcp_socket_state_process_simptcp_pdu example_cfg example_lastack
      (example_pdu 2 1 2)).socket_state = simptcp_socket_state.closed ∧
    finwait1_simptcp_socket_state_process_simptcp_pdu example_cfg example_finwait1
      (example_pdu 2 1 9) = example_finwait1 ∧
    lastack_simptcp_socket_state_process_simptcp_pdu example_cfg example_lastack
      (example_pdu 2 1 9) = example_lastack :=
  ⟨⟨by decide, by decide, by decide, by decide, by decide, by decide⟩,
    (((finwait1_lastack_process_ack example_cfg example_finwait1 (example_pdu 2 1 2)
      (by decide)).1 (by decide)).1 (by decide)).2.1,
    (((finwait1_lastack_process_ack example_cfg example_lastack (example_pdu 2 1 2)
      (by decide)).2 (by decide)).1 (by decide)).2.1,
    ((finwait1_lastack_process_ack example_cfg example_finwait1 (example_pdu 2 1 9)
      (by decide)).1 (by decide)).2 (by decide),
    ((finwait1_lastack_process_ack example_cfg example_lastack (example_pdu 2 1 9)
      (by decide)).2 (by decide)).2 (by decide)⟩

/-! ## Timeouts -/

/-- The four handlers of a timeout that have a body do the same: with a
successful transmission they send the out buffer again, add one to the count
and start the timer again, whatever the count. -/
theorem handle_timeout_eq (sock : simptcp_socket) (t0 : timeval)
    (hstate : sock.socket_state = simptcp_socket_state.synsent ∨
      sock.socket_state = simptcp_socket_state.established ∨
      sock.socket_state = simptcp_socket_state.finwait1 ∨
      sock.socket_state = simptcp_socket_state.lastack) :
    handle_timeout sock true t0 =
      ({ sock with
          simptcp_send_count := u64 (sock.simptcp_send_count + 1)
          timeout := { tv_sec := t0.tv_sec + 1, tv_usec := t0.tv_usec } },
        [out_datagram sock]) := by
  rcases hstate with h | h | h | h <;>
    simp [handle_timeout, h, synsent_simptcp_socket_state_handle_timeout,
      established_simptcp_socket_state_handle_timeout,
      finwait1_simptcp_socket_state_handle_timeout,
      lastack_simptcp_socket_state_handle_timeout, stop_timer, start_timer, sendto_out,
      out_datagram]

/-- C23: for a socket in SYNSENT, ESTABLISHED, FINWAIT1 or LASTACK whose count
`simptcp_send_count` (the count that the blocked call compares with the limit)
is below 5, the handler of the timeout sends exactly the out buffer, which it
leaves as it is with `out_len`, adds one to the count, starts the timer again
with the clock plus 1000 ms as deadline and leaves the state, `next_seq_num`
and `next_ack_num` as they are. -/
theorem handle_timeout_retransmits (sock : simptcp_socket) (t0 : timeval)
    (hstate : sock.socket_state = simptcp_socket_state.synsent ∨
      sock.socket_state = simptcp_socket_state.established ∨
      sock.socket_state = simptcp_socket_state.finwait1 ∨
      sock.socket_state = simptcp_socket_state.lastack)
    (hcount : sock.simptcp_send_count < 5) (hclock : 0 ≤ t0.tv_sec) :
    ∃ s d, handle_timeout sock true t0 = (s, [d]) ∧
      d.buf = sock.out_buffer ∧ d.len = sock.out_len ∧ d.dest = sock.remote_udp ∧
      s.out_buffer = sock.out_buffer ∧ s.out_len = sock.out_len ∧
      s.simptcp_send_count = sock.simptcp_send_count + 1 ∧
      (sock.simptcp_send_count = 0 → s.simptcp_send_count = 1) ∧
      has_active_timer s = true ∧
      s.timeout = { tv_sec := t0.tv_sec + 1, tv_usec := t0.tv_usec } ∧
      (s.timeout.tv_sec * 1000 * 1000 + s.timeout.tv_usec) =
        (t0.tv_sec * 1000 * 1000 + t0.tv_usec) + 1000 * 1000 ∧
      s.socket_state = sock.socket_state ∧ s.next_seq_num = sock.next_seq_num ∧
      s.next_ack_num = sock.next_ack_num := by
  have hc : u64 (sock.simptcp_send_count + 1) = sock.simptcp_send_count + 1 :=
    Nat.mod_eq_of_lt (by omega)
  refine ⟨_, _, handle_timeout_eq sock t0 hstate, rfl, rfl, rfl, rfl, rfl, hc, ?_, ?_, rfl,
    timeval_ms t0, rfl, rfl, rfl⟩
  · intro h0
    show u64 (sock.simptcp_send_count + 1) = 1
    rw [h0]
    rfl
  · exact active_of_timeout _ t0 hclock rfl

/-- Instance of C23: the first timeout of the example socket in SYNSENT. -/
theorem handle_timeout_retransmits_witness :
    (example_synsent.socket_state = simptcp_socket_state.synsent ∧
      example_synsent.simptcp_send_count < 5 ∧ 0 ≤ example_now.tv_sec) ∧
    ∃ s d, handle_timeout example_synsent true example_now = (s, [d]) ∧
      d.buf = example_synsent.out_buffer ∧ s.simptcp_send_count = 1 ∧
      s.socket_state = simptcp_socket_state.synsent := by
  refine ⟨⟨by decide, by decide, by decide⟩, ?_⟩
  obtain ⟨s, d, h1, h2, _, _, _, _, _, h3, _, _, _, h4, _⟩ :=
    handle_timeout_retransmits example_synsent example_now (Or.inl (by decide)) (by decide)
      (by decide)
  exact ⟨s, d, h1, h2, h3 (by decide), by rw [h4]; decide⟩

/-- C24, a counterexample: the count of the example socket in SYNSENT is 5; the
handler of the timeout sends the SYN once more, brings the count to 6 and
leaves the socket in SYNSENT. -/
theorem handle_timeout_at_limit_retransmits :
    example_synsent_limit.socket_state = simptcp_socket_state.synsent ∧
    example_synsent_limit.simptcp_send_count = 5 ∧
    (handle_timeout example_synsent_limit true example_now).2 =
      [out_datagram example_synsent_limit] ∧
    (handle_timeout example_synsent_limit true example_now).1.socket_state =
      simptcp_socket_state.synsent ∧
    (handle_timeout example_synsent_limit true example_now).1.socket_state ≠
      simptcp_socket_state.closed ∧
    (handle_timeout example_synsent_limit true example_now).1.simptcp_send_count = 6 := by
  decide

/-- C24 as amended: for a socket in SYNSENT, ESTABLISHED, FINWAIT1 or LASTACK
whose count has reached the limit 5, the handler of the timeout does not test
the count: it sends the out buffer once more, adds one to the count (in
`unsigned long`), starts the timer again and leaves the state as it is.  The
limit is enforced by the blocked call: the wait loops of `connect`, `send` and
the two `shutdown` end as soon as the count is at least 5, and the end of the
call then stops the timer and puts the socket in CLOSED. -/
theorem handle_timeout_ignores_limit (sock : simptcp_socket) (t0 : timeval)
    (hstate : sock.socket_state = simptcp_socket_state.synsent ∨
      sock.socket_state = simptcp_socket_state.established ∨
      sock.socket_state = simptcp_socket_state.finwait1 ∨
      sock.socket_state = simptcp_socket_state.lastack)
    (hcount : 5 ≤ sock.simptcp_send_count) :
    (∃ s d, handle_timeout sock true t0 = (s, [d]) ∧
      d.buf = sock.out_buffer ∧ d.len = sock.out_len ∧ d.dest = sock.remote_udp ∧
      s.simptcp_send_count = u64 (sock.simptcp_send_count + 1) ∧
      s.timeout = { tv_sec := t0.tv_sec + 1, tv_usec := t0.tv_usec } ∧
      s.socket_state = sock.socket_state) ∧
    closed_simptcp_socket_state_active_open_wait sock = false ∧
    established_simptcp_socket_state_send_wait sock = false ∧
    established_simptcp_socket_state_shutdown_wait sock = false ∧
    closewait_simptcp_socket_state_shutdown_wait sock = false ∧
    (closed_simptcp_socket_state_active_open_finish sock).2.socket_state =
      simptcp_socket_state.closed ∧
    has_active_timer (closed_simptcp_socket_state_active_open_finish sock).2 = false ∧
    (∀ n, (established_simptcp_socket_state_send_finish sock n).2.socket_state =
      simptcp_socket_state.closed ∧
      has_active_timer (established_simptcp_socket_state_send_finish sock n).2 = false) ∧
    (established_simptcp_socket_state_shutdown_finish sock).2.socket_state =
      simptcp_socket_state.closed ∧
    has_active_timer (established_simptcp_socket_state_shutdown_finish sock).2 = false ∧
    (closewait_simptcp_socket_state_shutdown_finish sock).2.socket_state =
      simptcp_socket_state.closed ∧
    has_active_timer (closewait_simptcp_socket_state_shutdown_finish sock).2 = false := by
  have hn : ¬ (sock.simptcp_send_count < 5) := by omega
  refine ⟨⟨_, _, handle_timeout_eq sock t0 hstate, rfl, rfl, rfl, rfl, rfl, rfl⟩, ?_, ?_, ?_,
    ?_, ?_, ?_, ?_, ?_, ?_, ?_, ?_⟩
  · simp [closed_simptcp_socket_state_active_open_wait, hn]
  · simp [established_simptcp_socket_state_send_wait, hn]
  · simp [established_simptcp_socket_state_shutdown_wait, hn]
  · simp [closewait_simptcp_socket_state_shutdown_wait, hn]
  · simp [closed_simptcp_socket_state_active_open_finish, stop_timer, hcount]
  · simp [closed_simptcp_socket_state_active_open_finish, stop_timer, hcount, has_active_timer]
  · intro n
    simp [established_simptcp_socket_state_send_finish, stop_timer, hcount, has_active_timer]
  · simp [established_simptcp_socket_state_shutdown_finish, stop_timer, hcount]
  · simp [established_simptcp_socket_state_shutdown_finish, stop_timer, hcount,
      has_active_timer]
  · simp [closewait_simptcp_socket_state_shutdown_finish, stop_timer, hcount]
  · simp [closewait_simptcp_socket_state_shutdown_finish, stop_timer, hcount, has_active_timer]

/-- Instance of C24 as amended: the example socket in SYNSENT with the count at
5. -/
theorem handle_timeout_ignores_limit_witness :
    (example_synsent_limit.socket_state = simptcp_socket_state.synsent ∧
      5 ≤ example_synsent_limit.simptcp_send_count) ∧
    (∃ s d, handle_timeout example_synsent_limit true example_now = (s, [d]) ∧
      d.buf = example_synsent_limit.out_buffer ∧
      s.socket_state = example_synsent_limit.socket_state) ∧
    closed_simptcp_socket_state_active_open_wait example_synsent_limit = false ∧
    (closed_simptcp_socket_state_active_open_finish example_synsent_limit).2.socket_state =
      simptcp_socket_state.closed := by
  have h := handle_timeout_ignores_limit example_synsent_limit example_now
    (Or.inl (by decide)) (by decide)
  obtain ⟨⟨s, d, h1, h2, _, _, _, _, h3⟩, h4, _, _, _, h5, _⟩ := h
  exact ⟨⟨by decide, by decide⟩, ⟨s, d, h1, h2, h3⟩, h4, h5⟩

/-! ## The end of the blocked calls -/

/-- C25: for `connect` (active open in CLOSED), `send` (in ESTABLISHED) and
`shutdown` (of a client in ESTABLISHED, and in CLOSEWAIT), from the end of the
wait loop: the call returns -1 if and only if `simptcp_send_count` is at least
5 at that point, and then the socket is in CLOSED with its timer stopped;
otherwise the call returns 0. -/
theorem blocked_call_fails_iff_limit (sock : simptcp_socket) (n : Nat) :
    (((closed_simptcp_socket_state_active_open_finish sock).1 = -1 ↔
        5 ≤ sock.simptcp_send_count) ∧
      ((established_simptcp_socket_state_send_finish sock n).1 = -1 ↔
        5 ≤ sock.simptcp_send_count) ∧
      ((established_simptcp_socket_state_shutdown_finish sock).1 = -1 ↔
        5 ≤ sock.simptcp_send_count) ∧
      ((closewait_simptcp_socket_state_shutdown_finish sock).1 = -1 ↔
        5 ≤ sock.simptcp_send_count)) ∧
    (5 ≤ sock.simptcp_send_count →
      (closed_simptcp_socket_state_active_open_finish sock).2.socket_state =
        simptcp_socket_state.closed ∧
      has_active_timer (closed_simptcp_socket_state_active_open_finish sock).2 = false ∧
      (established_simptcp_socket_state_send_finish sock n).2.socket_state =
        simptcp_socket_state.closed ∧
      has_active_timer (established_simptcp_socket_state_send_finish sock n).2 = false ∧
      (established_simptcp_socket_state_shutdown_finish sock).2.socket_state =
        simptcp_socket_state.closed ∧
      has_active_timer (established_simptcp_socket_state_shutdown_finish sock).2 = false ∧
      (closewait_simptcp_socket_state_shutdown_finish sock).2.socket_state =
        simptcp_socket_state.closed ∧
      has_active_timer (closewait_simptcp_socket_state_shutdown_finish sock).2 = false) ∧
    (sock.simptcp_send_count < 5 →
      (closed_simptcp_socket_state_active_open_finish sock).1 = 0 ∧
      (established_simptcp_socket_state_send_finish sock n).1 = 0 ∧
      (established_simptcp_socket_state_shutdown_finish sock).1 = 0 ∧
      (closewait_simptcp_socket_state_shutdown_finish sock).1 = 0) := by
  refine ⟨⟨?_, ?_, ?_, ?_⟩, ?_, ?_⟩
  · by_cases h : 5 ≤ sock.simptcp_send_count <;>
      simp [closed_simptcp_socket_state_active_open_finish, stop_timer, h]
  · by_cases h : 5 ≤ sock.simptcp_send_count <;>
      simp [established_simptcp_socket_state_send_finish, stop_timer, h]
  · by_cases h : 5 ≤ sock.simptcp_send_count <;>
      simp [established_simptcp_socket_state_shutdown_finish, stop_timer, h]
  · by_cases h : 5 ≤ sock.simptcp_send_count <;>
      simp [closewait_simptcp_socket_state_shutdown_finish, stop_timer, h]
  · intro h
    simp [closed_simptcp_socket_state_active_open_finish,
      established_simptcp_socket_state_send_finish,
      established_simptcp_socket_state_shutdown_finish,
      closewait_simptcp_socket_state_shutdown_finish, stop_timer, h, has_active_timer]
  · intro h
    have hn : ¬ (5 ≤ sock.simptcp_send_count) := by omega
    simp [closed_simptcp_socket_state_active_open_finish,
      established_simptcp_socket_state_send_finish,
      established_simptcp_socket_state_shutdown_finish,
      closewait_simptcp_socket_state_shutdown_finish, stop_timer, hn]

/-- Instance of C25: the end of `connect` on the example socket in SYNSENT with
the count at 5, and on the example socket in SYNSENT with the count at 0. -/
theorem blocked_call_fails_iff_limit_witness :
    (5 ≤ example_synsent_limit.simptcp_send_count ∧ example_synsent.simptcp_send_count < 5) ∧
    (closed_simptcp_socket_state_active_open_finish example_synsent_limit).1 = -1 ∧
    (closed_simptcp_socket_state_active_open_finish example_synsent_limit).2.socket_state =
      simptcp_socket_state.closed ∧
    (closed_simptcp_socket_state_active_open_finish example_synsent).1 = 0 :=
  ⟨⟨by decide, by decide⟩,
    (blocked_call_fails_iff_limit example_synsent_limit 0).1.1.2 (by decide),
    ((blocked_call_fails_iff_limit example_synsent_limit 0).2.1 (by decide)).1,
    ((blocked_call_fails_iff_limit example_synsent 0).2.2 (by decide)).1⟩

/-- C26, a failing input: the `connect` of the example socket fails at the limit
(the count is 5, the call returns -1 and leaves the socket in CLOSED with the
count still 5).  A new `connect` on that socket sends its SYN once and reaches
its wait loop in SYNSENT with the count 5, not 0: the condition of the loop is
false at once and the call returns -1 although the new SYN has not been sent
again. -/
theorem closed_active_open_keeps_exhausted_count :
    example_synsent_limit.simptcp_send_count = 5 ∧
    closed_simptcp_socket_state_active_open_finish example_synsent_limit =
      (-1, example_failed_connect) ∧
    example_failed_connect.socket_state = simptcp_socket_state.closed ∧
    example_failed_connect.simptcp_send_count = 5 ∧
    (closed_simptcp_socket_state_active_open_start example_cfg example_failed_connect
      example_addr true example_now).1 = none ∧
    (closed_simptcp_socket_state_active_open_start example_cfg example_failed_connect
      example_addr true example_now).2.2.length = 1 ∧
    example_second_connect.socket_state = simptcp_socket_state.synsent ∧
    example_second_connect.simptcp_send_count = 5 ∧
    example_second_connect.simptcp_send_count ≠ 0 ∧
    closed_simptcp_socket_state_active_open_wait example_second_connect = false ∧
    (closed_simptcp_socket_state_active_open_finish example_second_connect).1 = -1 := by
  decide

/-! ## Application events without effect -/

/-- C27: for every state and every application event other than (CLOSED, active
open), (CLOSED, passive open), (LISTEN, accept), (ESTABLISHED, send),
(ESTABLISHED, recv), (ESTABLISHED, shutdown) and (CLOSEWAIT, shutdown), the
handler returns a result and leaves the socket as it is, field by field, in
particular its state. -/
theorem return_only_handler_leaves_socket (st : simptcp_socket_state) (e : api_event)
    (sock : simptcp_socket) (h : (st, e) ∉ handlers_with_body) :
    ∃ rc, return_only_handler st e sock = some (rc, sock) ∧
      (∀ r, return_only_handler st e sock = some r →
        r.2 = sock ∧ r.2.socket_state = sock.socket_state) := by
  cases st <;> cases e <;>
    first
    | exact absurd (by decide) h
    | exact ⟨_, rfl, fun r hr => by
        simp only [return_only_handler, return_only, Option.map_some', Option.some.injEq] at hr
        subst hr
        exact ⟨rfl, rfl⟩⟩

/-- Instance of C27: `close` in ESTABLISHED on the example client. -/
theorem return_only_handler_leaves_socket_witness :
    (simptcp_socket_state.established, api_event.close) ∉ handlers_with_body ∧
    ∃ rc, return_only_handler simptcp_socket_state.established api_event.close example_client =
      some (rc, example_client) :=
  ⟨by decide,
    (return_only_handler_leaves_socket simptcp_socket_state.established api_event.close
      example_client (by decide)).imp fun _ h => h.1⟩

/-- C28, the behaviour of the code at the failing input: `shutdown` in CLOSED,
`send` in LISTEN, `accept` in SYNSENT and `close` in ESTABLISHED return 0, not
-1, and leave the socket as it is, while `close` in CLOSED, passive open in
LISTEN, active open in SYNSENT and active open in ESTABLISHED return -1.  The
handlers without transition that return 0 are eighteen: `shutdown` in CLOSED,
`send`, `recv`, `close` and `shutdown` in LISTEN, `accept`, `recv`, `close` and
`shutdown` in SYNSENT, the seven of SYNRCVD, `accept` and `close` in
ESTABLISHED. -/
theorem return_only_handler_returns_zero :
    return_only simptcp_socket_state.closed api_event.shutdown = some 0 ∧
    return_only simptcp_socket_state.listen api_event.send = some 0 ∧
    return_only simptcp_socket_state.synsent api_event.accept = some 0 ∧
    return_only simptcp_socket_state.established api_event.close = some 0 ∧
    (return_only_handler simptcp_socket_state.closed api_event.shutdown example_sock).map
      Prod.fst = some 0 ∧
    (return_only_handler simptcp_socket_state.closed api_event.shutdown example_sock).map
      Prod.fst ≠ some (-1) ∧
    return_only_handler simptcp_socket_state.closed api_event.shutdown example_sock =
      some (0, example_sock) ∧
    return_only_handler simptcp_socket_state.listen api_event.send example_listener =
      some (0, example_listener) ∧
    return_only_handler simptcp_socket_state.synsent api_event.accept example_synsent =
      some (0, example_synsent) ∧
    return_only_handler simptcp_socket_state.established api_event.close example_client =
      some (0, example_client) ∧
    return_only simptcp_socket_state.closed api_event.close = some (-1) ∧
    return_only simptcp_socket_state.listen api_event.passive_open = some (-1) ∧
    return_only simptcp_socket_state.synsent api_event.active_open = some (-1) ∧
    return_only simptcp_socket_state.established api_event.active_open = some (-1) ∧
    (∀ p ∈ [(simptcp_socket_state.closed, api_event.shutdown),
        (simptcp_socket_state.listen, api_event.send),
        (simptcp_socket_state.listen, api_event.recv),
        (simptcp_socket_state.listen, api_event.close),
        (simptcp_socket_state.listen, api_event.shutdown),
        (simptcp_socket_state.synsent, api_event.accept),
        (simptcp_socket_state.synsent, api_event.recv),
        (simptcp_socket_state.synsent, api_event.close),
        (simptcp_socket_state.synsent, api_event.shutdown),
        (simptcp_socket_state.synrcvd, api_event.active_open),
        (simptcp_socket_state.synrcvd, api_event.passive_open),
        (simptcp_socket_state.synrcvd, api_event.accept),
        (simptcp_socket_state.synrcvd, api_event.send),
        (simptcp_socket_state.synrcvd, api_event.recv),
        (simptcp_socket_state.synrcvd, api_event.close),
        (simptcp_socket_state.synrcvd, api_event.shutdown),
        (simptcp_socket_state.established, api_event.accept),
        (simptcp_socket_state.established, api_event.close)],
      return_only p.1 p.2 = some 0) := by
  decide

/-! ## The children of a listener -/

/-- C29, a counterexample: the example listener of slot 0 has the local port
15000; the child that it spawns on a SYN, in slot 2, has the local port 15002,
so the two local addresses differ. -/
theorem spawned_child_has_its_own_port :
    (slot example_queued 0).map (fun l => l.socket_state) = some simptcp_socket_state.listen ∧
    (slot example_queued 0).map (fun l => l.local_simptcp) =
      some { sin_family := AF_INET, sin_port := 15000, sin_addr := INADDR_ANY } ∧
    (slot example_queued 2).map (fun c => c.socket_type) =
      some simptcp_socket_type.nonlistening_server ∧
    (slot example_queued 2).map (fun c => c.local_simptcp) =
      some { sin_family := AF_INET, sin_port := 15002, sin_addr := INADDR_ANY } ∧
    (slot example_queued 2).map (fun c => c.local_simptcp) ≠
      (slot example_queued 0).map (fun l => l.local_simptcp) := by
  decide

/-- C29 as amended: the child that a listener spawns on an incoming SYN, in the
lowest free slot `fd`, has the local address that `create_simptcp_socket` gives
to the slot `fd`: family `AF_INET`, address `INADDR_ANY` and port `15000 + fd`
(as a 16-bit field); nothing of it is copied from the listener.  For a listener
that has itself the local address of its slot `lfd`, the child has the family
and the address of the listener and, as long as the ports fit 16 bits, another
port. -/
theorem spawned_child_local_address (cfg : Config) (e : simptcp_entity_t) (lfd : Nat)
    (sock : simptcp_socket) (q : List (Option Nat)) (buf : simptcp_buffer)
    (raw : simptcp_socket) (sendOk : Bool) (fd : Nat)
    (hlen : e.simptcp_socket_descriptors.length = cfg.MAX_OPEN_SOCK)
    (hl : slot e lfd = some sock) (hstate : sock.socket_state = simptcp_socket_state.listen)
    (hq : sock.new_conn_req = some q) (hq0 : q ≠ [])
    (hflags : simptcp_get_flags buf = cfg.SYN)
    (hseq : simptcp_get_seq_num buf = sock.next_ack_num)
    (hfd : fd < cfg.MAX_OPEN_SOCK) (hfree : slot e fd = none)
    (hlow : ∀ j, j < fd → slot e j ≠ none) :
    ∃ e1 child,
      listen_simptcp_socket_state_process_simptcp_pdu cfg e lfd buf raw true sendOk =
        some (e1, []) ∧
      slot e1 fd = some child ∧
      child.local_simptcp =
        { sin_family := AF_INET, sin_port := htons (15000 + fd), sin_addr := INADDR_ANY } ∧
      child.local_simptcp = (init_simptcp_socket cfg raw (15000 + fd)).local_simptcp ∧
      (sock.local_simptcp =
          { sin_family := AF_INET, sin_port := htons (15000 + lfd), sin_addr := INADDR_ANY } →
        15000 + cfg.MAX_OPEN_SOCK ≤ 65536 →
        child.local_simptcp.sin_family = sock.local_simptcp.sin_family ∧
        child.local_simptcp.sin_addr = sock.local_simptcp.sin_addr ∧
        child.local_simptcp.sin_port ≠ sock.local_simptcp.sin_port) := by
  have hne : lfd ≠ fd := by
    intro h
    rw [h, hfree] at hl
    exact absurd hl (by simp)
  have hlfd : lfd < e.simptcp_socket_descriptors.length :=
    lt_length_of_slot e lfd (by rw [hl]; simp)
  refine ⟨_, spawned_child cfg raw fd sock buf,
    listen_process_syn_eq cfg e lfd sock q buf raw sendOk fd hlen hl hq hq0 hflags hseq hfd
      hfree hlow, ?_, rfl, rfl, ?_⟩
  · rw [slot_set_slot_ne _ _ _ _ hne.symm]
    exact slot_set_slot_same _ _ _ (by rw [length_created]; omega)
  · intro hloc hports
    rw [hloc]
    refine ⟨rfl, rfl, ?_⟩
    show htons (15000 + fd) ≠ htons (15000 + lfd)
    unfold htons
    rw [u16_of_lt _ (by omega), u16_of_lt _ (by omega)]
    omega

/-- Instance of C29 as amended: the child of the example listener, in slot
2. -/
theorem spawned_child_local_address_witness :
    (example_server.simptcp_socket_descriptors.length = example_cfg.MAX_OPEN_SOCK ∧
      slot example_server 0 = some example_listener ∧
      example_listener.socket_state = simptcp_socket_state.listen ∧
      simptcp_get_flags (example_pdu 1 0 0) = example_cfg.SYN ∧
      simptcp_get_seq_num (example_pdu 1 0 0) = example_listener.next_ack_num) ∧
    ∃ e1 child,
      listen_simptcp_socket_state_process_simptcp_pdu example_cfg example_server 0
        (example_pdu 1 0 0) example_raw true true = some (e1, []) ∧
      slot e1 2 = some child ∧
      child.local_simptcp = { sin_family := 2, sin_port := 15002, sin_addr := 0 } ∧
      child.local_simptcp.sin_port ≠ example_listener.local_simptcp.sin_port := by
  refine ⟨⟨rfl, rfl, rfl, by decide, by decide⟩, ?_⟩
  obtain ⟨e1, child, h1, h2, h3, _, h5⟩ :=
    spawned_child_local_address example_cfg example_server 0 example_listener [some 3]
      (example_pdu 1 0 0) example_raw true 2 rfl rfl rfl rfl (by simp) (by decide) (by decide)
      (by decide) (by decide) (by decide)
  exact ⟨e1, child, h1, h2, h3, (h5 (by decide) (by decide)).2.2⟩

/-- C30, a failing input: the example listener is put in LISTEN by a passive open
with the backlog 1.  It takes two SYN one after the other, with no `accept` in
between: each spawns a child (slots 2 and 3), and the number of pending
requests of the listener is 2, above the backlog; the queue holds the second
child only. -/
theorem listen_pending_exceeds_backlog :
    closed_simptcp_socket_state_passive_open example_sock 1 [some 3] =
      (0, example_listener) ∧
    example_listener.socket_state = simptcp_socket_state.listen ∧
    example_listener.max_conn_req_backlog = 1 ∧
    slot example_server 0 = some example_listener ∧
    (listen_simptcp_socket_state_process_simptcp_pdu example_cfg example_server 0
      (example_pdu 1 0 0) example_raw true true).map Prod.fst = some example_queued ∧
    (listen_simptcp_socket_state_process_simptcp_pdu example_cfg example_queued 0
      (example_pdu 1 0 0) example_raw true true).map Prod.fst = some example_two_requests ∧
    (slot example_queued 0).map (fun l => l.pending_conn_req) = some 1 ∧
    (slot example_two_requests 0).map (fun l => l.pending_conn_req) = some 2 ∧
    (slot example_two_requests 0).map (fun l => l.max_conn_req_backlog) = some 1 ∧
    (slot example_two_requests 0).map (fun l => l.socket_state) =
      some simptcp_socket_state.listen ∧
    (slot example_two_requests 0).map (fun l => l.new_conn_req) = some (some [some 3]) ∧
    (slot example_two_requests 2).map (fun c => c.socket_type) =
      some simptcp_socket_type.nonlistening_server ∧
    (slot example_two_requests 3).map (fun c => c.socket_type) =
      some simptcp_socket_type.nonlistening_server := by
  decide

/-! ## Scenario S6 -/

/-- C22: scenario S6 as a chain of the handlers, with no loss.  A client `A` and
an accepted server `B`, both in ESTABLISHED and in step (`A.next_seq_num =
B.next_ack_num` and `B.next_seq_num = A.next_ack_num`, all below 65535): the
`shutdown` of `A` sends the FIN `f1` and leaves `A` in FINWAIT1; `B` takes `f1`,
goes to CLOSEWAIT and sends the ACK `a1`; `A` takes `a1` and goes to FINWAIT2;
the `shutdown` of `B` sends the FIN `f2` and leaves `B` in LASTACK; `A` takes
`f2`, sends the ACK `a2` and ends in CLOSED; `B` takes `a2` and ends in CLOSED.
At the end the timers are stopped and the two sockets are in step again, each
number one more than before. -/
theorem scenario_S6_close (cfg : Config) (A B : simptcp_socket) (t0 t1 : timeval)
    (hA : A.socket_state = simptcp_socket_state.established)
    (hAc : A.socket_type = simptcp_socket_type.client)
    (hB : B.socket_state = simptcp_socket_state.established)
    (hBs : B.socket_type = simptcp_socket_type.nonlistening_server)
    (hstep1 : A.next_seq_num = B.next_ack_num) (hstep2 : B.next_seq_num = A.next_ack_num)
    (hlt1 : A.next_seq_num < 65535) (hlt2 : A.next_ack_num < 65535)
    (hbuf : SIMPTCP_GHEADER_SIZE ≤ cfg.SIMPTCP_SOCKET_MAX_BUFFER_SIZE)
    (hack8 : cfg.ACK < 256) (hfin : 0 < cfg.FIN) (hfin8 : cfg.FIN < 256)
    (hne : cfg.FIN ≠ cfg.ACK) :
    ∃ A1 f1 B1 a1 A2 B2 f2 A3 a2 B3,
      established_simptcp_socket_state_shutdown_start cfg A true t0 =
        (shutdown_point.wait_closed, A1, [f1]) ∧
      simptcp_get_flags f1.buf = cfg.FIN ∧
      A1.socket_state = simptcp_socket_state.finwait1 ∧
      established_simptcp_socket_state_process_simptcp_pdu cfg B f1.buf f1.len.toNat true =
        (B1, [a1]) ∧
      simptcp_get_flags a1.buf = cfg.ACK ∧
      B1.socket_state = simptcp_socket_state.closewait ∧
      finwait1_simptcp_socket_state_process_simptcp_pdu cfg A1 a1.buf = A2 ∧
      A2.socket_state = simptcp_socket_state.finwait2 ∧
      closewait_simptcp_socket_state_shutdown_start cfg B1 true t1 = (B2, [f2]) ∧
      simptcp_get_flags f2.buf = cfg.FIN ∧
      B2.socket_state = simptcp_socket_state.lastack ∧
      finwait2_simptcp_socket_state_process_simptcp_pdu cfg A2 f2.buf true = (A3, [a2]) ∧
      simptcp_get_flags a2.buf = cfg.ACK ∧
      A3.socket_state = simptcp_socket_state.closed ∧
      lastack_simptcp_socket_state_process_simptcp_pdu cfg B2 a2.buf = B3 ∧
      B3.socket_state = simptcp_socket_state.closed ∧
      has_active_timer A3 = false ∧ has_active_timer B3 = false ∧
      established_simptcp_socket_state_shutdown_wait A3 = false ∧
      closewait_simptcp_socket_state_shutdown_wait B3 = false ∧
      A3.next_seq_num = A.next_seq_num + 1 ∧ A3.next_ack_num = A.next_ack_num + 1 ∧
      B3.next_seq_num = B.next_seq_num + 1 ∧ B3.next_ack_num = B.next_ack_num + 1 ∧
      A3.next_seq_num = B3.next_ack_num ∧ B3.next_seq_num = A3.next_ack_num := by
  have uA : u32 (A.next_seq_num + 1) = A.next_seq_num + 1 := Nat.mod_eq_of_lt (by omega)
  have uA2 : u32 (A.next_ack_num + 1) = A.next_ack_num + 1 := Nat.mod_eq_of_lt (by omega)
  have uB : u32 (B.next_ack_num + 1) = B.next_ack_num + 1 := Nat.mod_eq_of_lt (by omega)
  have uB2 : u32 (B.next_seq_num + 1) = B.next_seq_num + 1 := Nat.mod_eq_of_lt (by omega)
  -- the shutdown of A
  have h1 := established_shutdown_start_eq cfg A t0 hAc hbuf
  obtain ⟨a_seq, a_ack, a_st, _, _, a_out⟩ := finwait1_waiting_fields cfg A t0
  have f1_flags : simptcp_get_flags (finwait1_waiting cfg A t0).out_buffer = cfg.FIN := by
    rw [a_out, make_pdu_flags]
    exact u8_of_lt _ hfin8
  have f1_seq : simptcp_get_seq_num (finwait1_waiting cfg A t0).out_buffer =
      B.next_ack_num := by
    rw [a_out, make_pdu_seq, u16_of_lt _ (by omega), hstep1]
  set A1 := finwait1_waiting cfg A t0 with hA1
  -- B takes the FIN
  have h2 := established_process_fin_eq cfg B A1.out_buffer (out_datagram A1).len.toNat hfin hne
    f1_flags f1_seq
  obtain ⟨b_ack, b_seq, _, _⟩ := fin_taken_fields cfg B
  obtain ⟨a1_flags, _, a1_ack⟩ := fin_taken_header cfg B hack8
  have a1_cond : simptcp_get_ack_num (fin_taken cfg B).out_buffer = A1.next_seq_num := by
    rw [a1_ack, a_seq, uA, uB, u16_of_lt _ (by omega), hstep1]
  -- A takes the ACK
  have h3 : finwait1_simptcp_socket_state_process_simptcp_pdu cfg A1
      (fin_taken cfg B).out_buffer =
      stop_timer { A1 with socket_state := simptcp_socket_state.finwait2 } := by
    simp only [finwait1_simptcp_socket_state_process_simptcp_pdu, a1_flags, a1_cond, if_true]
  set B1 : simptcp_socket :=
    { fin_taken cfg B with socket_state := simptcp_socket_state.closewait } with hB1
  set A2 : simptcp_socket :=
    stop_timer { A1 with socket_state := simptcp_socket_state.finwait2 } with hA2
  have a2_seq : A2.next_seq_num = A.next_seq_num + 1 := by
    show A1.next_seq_num = _
    rw [a_seq, uA]
  have a2_ack : A2.next_ack_num = A.next_ack_num := a_ack
  -- the shutdown of B
  have h4 := closewait_shutdown_start_eq cfg B1 t1
  obtain ⟨l_seq, l_ack, l_st, _, _, l_out⟩ := lastack_waiting_fields cfg B1 t1
  have b1_seq : B1.next_seq_num = B.next_seq_num := b_seq
  have b1_ack : B1.next_ack_num = B.next_ack_num + 1 := by
    show (fin_taken cfg B).next_ack_num = _
    rw [b_ack, uB]
  have f2_flags : simptcp_get_flags (lastack_waiting cfg B1 t1).out_buffer = cfg.FIN := by
    rw [l_out, make_pdu_flags]
    exact u8_of_lt _ hfin8
  have f2_seq : simptcp_get_seq_num (lastack_waiting cfg B1 t1).out_buffer =
      A2.next_ack_num := by
    rw [l_out, make_pdu_seq, a2_ack]
    show u16 B1.next_seq_num = _
    rw [b1_seq, u16_of_lt _ (by omega), hstep2]
  set B2 := lastack_waiting cfg B1 t1 with hB2
  -- A takes the FIN
  have h5 := finwait2_process_fin_eq cfg A2 B2.out_buffer f2_flags f2_seq
  have h5a : finwait2_simptcp_socket_state_process_simptcp_pdu cfg A2 B2.out_buffer true =
      ({ fin_taken cfg A2 with socket_state := simptcp_socket_state.closed },
        [out_datagram (fin_taken cfg A2)]) := by
    simp only [finwait2_simptcp_socket_state_process_simptcp_pdu, h5,
      finwait2_simptcp_socket_state_process_simptcp_pdu_finish, if_true]
  obtain ⟨c_ack, c_seq, _, _⟩ := fin_taken_fields cfg A2
  obtain ⟨a2_flags, a2_sq, _⟩ := fin_taken_header cfg A2 hack8
  have b2_seq : B2.next_seq_num = B.next_seq_num + 1 := by
    rw [l_seq, b1_seq, uB2]
  have b2_ack : B2.next_ack_num = B.next_ack_num + 1 := by
    rw [l_ack, b1_ack]
  have a2_cond : simptcp_get_ack_num (fin_taken cfg A2).out_buffer = B2.next_seq_num := by
    rw [(fin_taken_header cfg A2 hack8).2.2, a2_ack, uA2, b2_seq, u16_of_lt _ (by omega),
      hstep2]
  -- B takes the ACK
  have h6 : lastack_simptcp_socket_state_process_simptcp_pdu cfg B2
      (fin_taken cfg A2).out_buffer =
      { stop_timer B2 with socket_state := simptcp_socket_state.closed } := by
    simp only [lastack_simptcp_socket_state_process_simptcp_pdu, a2_flags, a2_cond, if_true]
  have t_A : has_active_timer
      { fin_taken cfg A2 with socket_state := simptcp_socket_state.closed } = false := by
    simp [has_active_timer, fin_taken, make_pdu, hA2, stop_timer]
  have t_B : has_active_timer
      { stop_timer B2 with socket_state := simptcp_socket_state.closed } = false := by
    simp [has_active_timer, stop_timer]
  have w_A : established_simptcp_socket_state_shutdown_wait
      { fin_taken cfg A2 with socket_state := simptcp_socket_state.closed } = false := by
    simp [established_simptcp_socket_state_shutdown_wait]
  have w_B : closewait_simptcp_socket_state_shutdown_wait
      { stop_timer B2 with socket_state := simptcp_socket_state.closed } = false := by
    simp [closewait_simptcp_socket_state_shutdown_wait]
  have n1 : (fin_taken cfg A2).next_seq_num = A.next_seq_num + 1 := by
    rw [c_seq, a2_seq]
  have n2 : (fin_taken cfg A2).next_ack_num = A.next_ack_num + 1 := by
    rw [c_ack, a2_ack, uA2]
  have n3 : (stop_timer B2).next_seq_num = B.next_seq_num + 1 := b2_seq
  have n4 : (stop_timer B2).next_ack_num = B.next_ack_num + 1 := b2_ack
  exact ⟨A1, out_datagram A1, B1, out_datagram (fin_taken cfg B), A2, B2, out_datagram B2,
    { fin_taken cfg A2 with socket_state := simptcp_socket_state.closed },
    out_datagram (fin_taken cfg A2),
    { stop_timer B2 with socket_state := simptcp_socket_state.closed },
    h1, f1_flags, a_st, h2, a1_flags, rfl, h3, rfl, h4, f2_flags, l_st, h5a, a2_flags, rfl, h6,
    rfl, t_A, t_B, w_A, w_B, n1, n2, n3, n4, by rw [n1, n4, hstep1], by rw [n3, n2, hstep2]⟩

/-- Instance of C22: the example client closes its connection with the child of
the example server. -/
theorem scenario_S6_close_witness :
    (example_client.socket_state = simptcp_socket_state.established ∧
      example_client.socket_type = simptcp_socket_type.client ∧
      example_child.socket_state = simptcp_socket_state.established ∧
      example_child.socket_type = simptcp_socket_type.nonlistening_server ∧
      example_client.next_seq_num = example_child.next_ack_num ∧
      example_child.next_seq_num = example_client.next_ack_num ∧
      example_client.next_seq_num < 65535 ∧ example_client.next_ack_num < 65535 ∧
      SIMPTCP_GHEADER_SIZE ≤ example_cfg.SIMPTCP_SOCKET_MAX_BUFFER_SIZE ∧
      example_cfg.ACK < 256 ∧ 0 < example_cfg.FIN ∧ example_cfg.FIN < 256 ∧
      example_cfg.FIN ≠ example_cfg.ACK) ∧
    ∃ A1 f1 B1 a1 A2 B2 f2 A3 a2 B3,
      established_simptcp_socket_state_shutdown_start example_cfg example_client true
        example_now = (shutdown_point.wait_closed, A1, [f1]) ∧
      established_simptcp_socket_state_process_simptcp_pdu example_cfg example_child f1.buf
        f1.len.toNat true = (B1, [a1]) ∧
      finwait1_simptcp_socket_state_process_simptcp_pdu example_cfg A1 a1.buf = A2 ∧
      closewait_simptcp_socket_state_shutdown_start example_cfg B1 true example_now =
        (B2, [f2]) ∧
      finwait2_simptcp_socket_state_process_simptcp_pdu example_cfg A2 f2.buf true =
        (A3, [a2]) ∧
      lastack_simptcp_socket_state_process_simptcp_pdu example_cfg B2 a2.buf = B3 ∧
      A3.socket_state = simptcp_socket_state.closed ∧
      B3.socket_state = simptcp_socket_state.closed ∧
      A3.next_seq_num = 2 ∧ B3.next_seq_num = 2 := by
  refine ⟨⟨by decide, by decide, by decide, by decide, by decide, by decide, by decide,
    by decide, by decide, by decide, by decide, by decide, by decide⟩, ?_⟩
  obtain ⟨A1, f1, B1, a1, A2, B2, f2, A3, a2, B3, h1, _, _, h2, _, _, h3, _, h4, _, _, h5, _,
      h6, h7, h8, _, _, _, _, h9, _, h10, _⟩ :=
    scenario_S6_close example_cfg example_client example_child example_now example_now
      (by decide) (by decide) (by decide) (by decide) (by decide) (by decide) (by decide)
      (by decide) (by decide) (by decide) (by decide) (by decide) (by decide)
  exact ⟨A1, f1, B1, a1, A2, B2, f2, A3, a2, B3, h1, h2, h3, h4, h5, h7, h6, h8,
    by rw [h9]; decide, by rw [h10]; decide⟩

/-! ## The timer -/

/-- C31, a failing input: the timer is started for 500 ms at the clock value
100 s 900000 µs; `start_timer` leaves the deadline 100 s 1400000 µs, the
microseconds not carried into the seconds.  At the clock value 101 s 100000 µs,
200 ms after the start and 300 ms before the deadline, `is_timeout` is true. -/
theorem is_timeout_before_deadline :
    0 ≤ example_late.tv_usec ∧ example_late.tv_usec < 1000000 ∧
    (start_timer example_sock 500 example_late).timeout =
      { tv_sec := 100, tv_usec := 1400000 } ∧
    ((101 : Int) * 1000000 + 100000) - (example_late.tv_sec * 1000000 + example_late.tv_usec) =
      200 * 1000 ∧
    ((101 : Int) * 1000000 + 100000) <
      (example_late.tv_sec * 1000000 + example_late.tv_usec) + 500 * 1000 ∧
    is_timeout (start_timer example_sock 500 example_late)
      { tv_sec := 101, tv_usec := 100000 } = true := by
  decide

/-! ## The PDU that `make_pdu` builds -/

/-- C32: for a flag byte and a message of `n` bytes that fits the buffer of the
socket (whose size fits the 16-bit length field), `make_pdu` returns 0 and the
fields of the out buffer read back as the inputs: the source port is the local
port and the destination port the remote port of the socket, the sequence and
acknowledgment numbers are `next_seq_num` and `next_ack_num` modulo 2^16, the
header length is the fixed size of the header, the flags are the given ones,
the total length is the size of the header plus `n` and equals `out_len`, the
advertised window is 0 and the payload is the message. -/
theorem make_pdu_round_trip (cfg : Config) (s : simptcp_socket) (msg : List Nat) (f : Nat)
    (hfit : SIMPTCP_GHEADER_SIZE + msg.length ≤ cfg.SIMPTCP_SOCKET_MAX_BUFFER_SIZE)
    (hsize : cfg.SIMPTCP_SOCKET_MAX_BUFFER_SIZE < 65536) (hf : f < 256) :
    (make_pdu cfg s msg f).2 = 0 ∧
    simptcp_get_sport (make_pdu cfg s msg f).1.out_buffer = ntohs s.local_simptcp.sin_port ∧
    (s.local_simptcp.sin_port < 65536 →
      simptcp_get_sport (make_pdu cfg s msg f).1.out_buffer = s.local_simptcp.sin_port) ∧
    simptcp_get_dport (make_pdu cfg s msg f).1.out_buffer = ntohs s.remote_simptcp.sin_port ∧
    (s.remote_simptcp.sin_port < 65536 →
      simptcp_get_dport (make_pdu cfg s msg f).1.out_buffer = s.remote_simptcp.sin_port) ∧
    simptcp_get_seq_num (make_pdu cfg s msg f).1.out_buffer = s.next_seq_num % 2 ^ 16 ∧
    simptcp_get_ack_num (make_pdu cfg s msg f).1.out_buffer = s.next_ack_num % 2 ^ 16 ∧
    simptcp_get_head_len (make_pdu cfg s msg f).1.out_buffer = SIMPTCP_GHEADER_SIZE ∧
    simptcp_get_flags (make_pdu cfg s msg f).1.out_buffer = f ∧
    simptcp_get_total_len (make_pdu cfg s msg f).1.out_buffer =
      SIMPTCP_GHEADER_SIZE + msg.length ∧
    (make_pdu cfg s msg f).1.out_len =
      ((simptcp_get_total_len (make_pdu cfg s msg f).1.out_buffer : Nat) : Int) ∧
    simptcp_get_win_size (make_pdu cfg s msg f).1.out_buffer = 0 ∧
    (make_pdu cfg s msg f).1.out_buffer.data.take msg.length = msg ∧
    simptcp_extract_data (make_pdu cfg s msg f).1.out_buffer = ((msg.length : Int), msg) := by
  have hlen : SIMPTCP_GHEADER_SIZE + msg.length < 65536 := by omega
  have htot := make_pdu_total_len cfg s msg f
  rw [u16_of_lt _ hlen] at htot
  have hhead := make_pdu_head_len cfg s msg f
  have hdata : (make_pdu cfg s msg f).1.out_buffer.data.take msg.length = msg := by
    rw [make_pdu_data]
    simp
  have hsport : simptcp_get_sport (make_pdu cfg s msg f).1.out_buffer =
      ntohs s.local_simptcp.sin_port := by
    simp [make_pdu, simptcp_get_sport, simptcp_add_checksum, simptcp_set_win_size,
      simptcp_set_total_len, simptcp_set_flags, simptcp_set_head_len, simptcp_set_ack_num,
      simptcp_set_seq_num, simptcp_set_dport, simptcp_set_sport, ntohs, u16]
  have hdport : simptcp_get_dport (make_pdu cfg s msg f).1.out_buffer =
      ntohs s.remote_simptcp.sin_port := by
    simp [make_pdu, simptcp_get_dport, simptcp_add_checksum, simptcp_set_win_size,
      simptcp_set_total_len, simptcp_set_flags, simptcp_set_head_len, simptcp_set_ack_num,
      simptcp_set_seq_num, simptcp_set_dport, ntohs, u16]
  have hwin : simptcp_get_win_size (make_pdu cfg s msg f).1.out_buffer = 0 := by
    simp [make_pdu, simptcp_get_win_size, simptcp_add_checksum, simptcp_set_win_size, u16]
  refine ⟨make_pdu_ok cfg s msg f hfit, hsport, ?_, hdport, ?_, make_pdu_seq cfg s msg f,
    make_pdu_ack cfg s msg f, hhead, ?_, htot, ?_, hwin, hdata, ?_⟩
  · intro h
    rw [hsport]
    exact u16_of_lt _ h
  · intro h
    rw [hdport]
    exact u16_of_lt _ h
  · rw [make_pdu_flags]
    exact u8_of_lt _ hf
  · rw [htot, make_pdu_out_len]
  · unfold simptcp_extract_data
    rw [htot, hhead, Nat.add_sub_cancel_left, hdata]

/-- Instance of C32: the data PDU that the example client builds for
"hello". -/
theorem make_pdu_round_trip_witness :
    (SIMPTCP_GHEADER_SIZE + example_hello.length ≤ example_cfg.SIMPTCP_SOCKET_MAX_BUFFER_SIZE ∧
      example_cfg.SIMPTCP_SOCKET_MAX_BUFFER_SIZE < 65536) ∧
    (make_pdu example_cfg example_client example_hello 0).2 = 0 ∧
    simptcp_get_total_len (make_pdu example_cfg example_client example_hello 0).1.out_buffer =
      21 ∧
    simptcp_extract_data (make_pdu example_cfg example_client example_hello 0).1.out_buffer =
      (5, example_hello) :=
  have h := make_pdu_round_trip example_cfg example_client example_hello 0 (by decide)
    (by decide) (by decide)
  ⟨⟨by decide, by decide⟩, h.1, h.2.2.2.2.2.2.2.2.2.1, h.2.2.2.2.2.2.2.2.2.2.2.2.2⟩

/-! ## The numbers of the handshake -/

/-- C33, a failing input: the example listener takes a SYN with sequence number
0 and acknowledgment number 7 (its `next_ack_num` is 0, so the SYN is accepted
and a child is spawned in slot 2).  The child gets `next_ack_num` 8, the
acknowledgment number of the SYN plus one, and the SYN+ACK that `accept` sends
carries the acknowledgment number 8, not 1. -/
theorem listen_accept_acknowledges_ack_field :
    simptcp_get_flags (example_pdu 1 0 7) = example_cfg.SYN ∧
    simptcp_get_seq_num (example_pdu 1 0 7) = 0 ∧
    simptcp_get_ack_num (example_pdu 1 0 7) = 7 ∧
    listen_simptcp_socket_state_process_simptcp_pdu example_cfg example_server 0
      (example_pdu 1 0 7) example_raw true true = some (example_queued_seven, []) ∧
    (slot example_queued_seven 2).map (fun c => (c.socket_type, c.next_seq_num, c.next_ack_num)) =
      some (simptcp_socket_type.nonlistening_server, 0, 8) ∧
    (listen_simptcp_socket_state_accept_start example_cfg example_queued_seven 0 true
      example_now).map (fun r => r.2.2) = some example_syn_ack_seven ∧
    example_syn_ack_seven.map (fun d => (simptcp_get_flags d.buf, simptcp_get_seq_num d.buf,
      simptcp_get_ack_num d.buf)) = [(example_cfg.SYN + example_cfg.ACK, 0, 8)] ∧
    example_syn_ack_seven.map (fun d => simptcp_get_ack_num d.buf) ≠
      [simptcp_get_seq_num (example_pdu 1 0 7) + 1] := by
  decide

/-! ## State ESTABLISHED: the acknowledgment of the sender -/

/-- The function `make_pdu` writes the out buffer and `out_len` only. -/
theorem make_pdu_frame (cfg : Config) (s : simptcp_socket) (msg : List Nat) (f : Nat) :
    (make_pdu cfg s msg f).1 =
      { s with out_buffer := (make_pdu cfg s msg f).1.out_buffer
               out_len := (make_pdu cfg s msg f).1.out_len } := by
  simp [make_pdu]

/-- The handler of ESTABLISHED never writes `next_seq_num`, and a PDU whose
flags are not ACK leaves the flag on which `send` waits as it is. -/
theorem established_process_frame (cfg : Config) (sock : simptcp_socket) (buf : simptcp_buffer)
    (len : Nat) (sendOk : Bool) :
    (established_simptcp_socket_state_process_simptcp_pdu cfg sock buf len sendOk).1.next_seq_num =
      sock.next_seq_num ∧
    (simptcp_get_flags buf ≠ cfg.ACK →
      (established_simptcp_socket_state_process_simptcp_pdu cfg sock buf len
        sendOk).1.socket_state_receiver = sock.socket_state_receiver) := by
  have h1 : ∀ (s : simptcp_socket) (f : Nat),
      (make_pdu cfg s [] f).1.next_seq_num = s.next_seq_num := fun s f => by
    rw [make_pdu_frame]
  have h2 : ∀ (s : simptcp_socket) (f : Nat),
      (make_pdu cfg s [] f).1.socket_state_receiver = s.socket_state_receiver := fun s f => by
    rw [make_pdu_frame]
  refine ⟨?_, ?_⟩
  · unfold established_simptcp_socket_state_process_simptcp_pdu
    simp only [apply_ite Prod.fst, apply_ite simptcp_socket.next_seq_num, h1, ite_self]
  · intro hA
    unfold established_simptcp_socket_state_process_simptcp_pdu
    simp only [hA, if_false, apply_ite Prod.fst, apply_ite simptcp_socket.socket_state_receiver,
      h2, ite_self]

/-- C34: for a socket in ESTABLISHED whose `send` waits for an ACK (the flag
`socket_state_receiver` is 2) and every incoming PDU, the handler clears the
flag if and only if the flags of the PDU are exactly ACK and its acknowledgment
number is `next_seq_num`; otherwise the flag stays 2.  An ACK with another
acknowledgment number leaves the whole socket as it is and sends nothing, and
`next_seq_num` is never changed. -/
theorem established_process_pdu_clears_waiting_flag (cfg : Config) (sock : simptcp_socket)
    (buf : simptcp_buffer) (len : Nat) (sendOk : Bool)
    (hstate : sock.socket_state = simptcp_socket_state.established)
    (hwait : sock.socket_state_receiver = 2)
    (hack : 0 < cfg.ACK) (hne : cfg.FIN ≠ cfg.ACK) :
    ((established_simptcp_socket_state_process_simptcp_pdu cfg sock buf len
        sendOk).1.socket_state_receiver = -1 ↔
      (simptcp_get_flags buf = cfg.ACK ∧ simptcp_get_ack_num buf = sock.next_seq_num)) ∧
    (¬ (simptcp_get_flags buf = cfg.ACK ∧ simptcp_get_ack_num buf = sock.next_seq_num) →
      (established_simptcp_socket_state_process_simptcp_pdu cfg sock buf len
        sendOk).1.socket_state_receiver = 2) ∧
    (simptcp_get_flags buf = cfg.ACK → simptcp_get_ack_num buf ≠ sock.next_seq_num →
      established_simptcp_socket_state_process_simptcp_pdu cfg sock buf len sendOk =
        (sock, [])) ∧
    (established_simptcp_socket_state_process_simptcp_pdu cfg sock buf len sendOk).1.next_seq_num =
      sock.next_seq_num := by
  have hframe := established_process_frame cfg sock buf len sendOk
  have hother : ¬ (simptcp_get_flags buf = cfg.ACK ∧
      simptcp_get_ack_num buf = sock.next_seq_num) →
      (established_simptcp_socket_state_process_simptcp_pdu cfg sock buf len
        sendOk).1.socket_state_receiver = 2 := by
    intro hn
    by_cases hA : simptcp_get_flags buf = cfg.ACK
    · have ha : ¬ (simptcp_get_ack_num buf = sock.next_seq_num) := fun h => hn ⟨hA, h⟩
      rw [established_process_ack_eq cfg sock buf len sendOk hack hne hA, if_neg ha]
      exact hwait
    · rw [hframe.2 hA]
      exact hwait
  refine ⟨⟨?_, ?_⟩, hother, ?_, hframe.1⟩
  · intro h
    by_contra hn
    rw [hother hn] at h
    exact absurd h (by decide)
  · rintro ⟨hA, ha⟩
    rw [established_process_ack_eq cfg sock buf len sendOk hack hne hA, if_pos ha]
  · intro hA ha
    rw [established_process_ack_eq cfg sock buf len sendOk hack hne hA, if_neg ha]

/-- Instance of C34: the example client waiting for the ACK of "hello" takes
the ACK with acknowledgment number 2, and the one with acknowledgment number
9. -/
theorem established_process_pdu_clears_waiting_flag_witness :
    (example_sending.socket_state = simptcp_socket_state.established ∧
      example_sending.socket_state_receiver = 2 ∧ 0 < example_cfg.ACK ∧
      example_cfg.FIN ≠ example_cfg.ACK ∧
      simptcp_get_flags (example_pdu 2 1 2) = example_cfg.ACK ∧
      simptcp_get_ack_num (example_pdu 2 1 2) = example_sending.next_seq_num ∧
      simptcp_get_flags (example_pdu 2 1 9) = example_cfg.ACK ∧
      simptcp_get_ack_num (example_pdu 2 1 9) ≠ example_sending.next_seq_num) ∧
    (established_simptcp_socket_state_process_simptcp_pdu example_cfg example_sending
      (example_pdu 2 1 2) 16 true).1.socket_state_receiver = -1 ∧
    established_simptcp_socket_state_process_simptcp_pdu example_cfg example_sending
      (example_pdu 2 1 9) 16 true = (example_sending, []) :=
  ⟨⟨by decide, by decide, by decide, by decide, by decide, by decide, by decide, by decide⟩,
    (established_process_pdu_clears_waiting_flag example_cfg example_sending (example_pdu 2 1 2)
      16 true (by decide) (by decide) (by decide) (by decide)).1.2 ⟨by decide, by decide⟩,
    (established_process_pdu_clears_waiting_flag example_cfg example_sending (example_pdu 2 1 9)
      16 true (by decide) (by decide) (by decide) (by decide)).2.2.1 (by decide) (by decide)⟩

/-! ## The comparison of the sequence numbers -/

/-- C35, a failing input: a socket in ESTABLISHED whose `next_ack_num` is 65535
takes the data PDU with sequence number 65535 in order, and its `next_ack_num`
becomes 65536.  The next data PDU of a peer in step carries the sequence number
0 (65536 modulo 2^16, as `make_pdu` writes it); the handler compares 0 with
65536 and treats the PDU as out of order: `next_ack_num` stays 65536 and the in
buffer keeps the PDU taken before. -/
theorem established_process_pdu_rejects_wrapped_seq :
    example_wrapping.socket_state = simptcp_socket_state.established ∧
    example_wrapping.next_ack_num = 65535 ∧
    simptcp_get_seq_num (example_data 65535 1) = example_wrapping.next_ack_num ∧
    example_wrapped.next_ack_num = 65536 ∧
    example_wrapped.socket_state = simptcp_socket_state.established ∧
    simptcp_get_seq_num
      (make_pdu example_cfg { example_client with next_seq_num := 65536 } example_hello
        0).1.out_buffer = 0 ∧
    simptcp_get_flags (example_data 0 1) = 0 ∧
    simptcp_get_seq_num (example_data 0 1) = example_wrapped.next_ack_num % 2 ^ 16 ∧
    (established_simptcp_socket_state_process_simptcp_pdu example_cfg example_wrapped
      (example_data 0 1) 21 true).1.next_ack_num = 65536 ∧
    (established_simptcp_socket_state_process_simptcp_pdu example_cfg example_wrapped
      (example_data 0 1) 21 true).1.in_buffer = example_wrapped.in_buffer ∧
    simptcp_get_seq_num (established_simptcp_socket_state_process_simptcp_pdu example_cfg
      example_wrapped (example_data 0 1) 21 true).1.in_buffer = 65535 := by
  decide

/-! ## The type of a socket in ESTABLISHED -/

/-- C36, a failing input: the socket that `create_simptcp_socket` leaves in slot 0
calls `connect` and waits in SYNSENT, with the type of a listening server; the
peer answers with a PDU whose flags are ACK and whose acknowledgment number is
1.  The handler of SYNSENT puts the socket in ESTABLISHED and leaves its type:
the socket is in ESTABLISHED as a listening server. -/
theorem synsent_process_pdu_establishes_listening_server :
    slot (create_simptcp_socket example_cfg
      { simptcp_socket_descriptors := [none, none, none, none], open_simptcp_sockets := 0 }
      example_raw true).2 0 = some example_sock ∧
    closed_simptcp_socket_state_active_open_start example_cfg example_sock example_addr true
      example_now = (none, example_synsent, [out_datagram example_synsent]) ∧
    example_synsent.socket_state = simptcp_socket_state.synsent ∧
    example_synsent.socket_type = simptcp_socket_type.listening_server ∧
    simptcp_get_flags (example_pdu 2 0 1) = example_cfg.ACK ∧
    simptcp_get_ack_num (example_pdu 2 0 1) = example_synsent.next_seq_num ∧
    (synsent_simptcp_socket_state_process_simptcp_pdu example_cfg example_synsent
      (example_pdu 2 0 1) true).1.socket_state = simptcp_socket_state.established ∧
    (synsent_simptcp_socket_state_process_simptcp_pdu example_cfg example_synsent
      (example_pdu 2 0 1) true).1.socket_type = simptcp_socket_type.listening_server := by
  decide

/-! ## The statistics counters -/

/-- C37, the behaviour of the code at the failing input: the example socket
waits in SYNSENT, its timer expires once (the counter `simptcp_send_count` is
1) and the SYN+ACK of the server arrives; at the end of `connect` the counter
is 0, smaller than before. -/
theorem closed_active_open_resets_send_count :
    (handle_timeout example_synsent true example_now).1.simptcp_send_count = 1 ∧
    example_connected_late.socket_state = simptcp_socket_state.established ∧
    example_connected_late.simptcp_send_count = 1 ∧
    closed_simptcp_socket_state_active_open_wait example_connected_late = false ∧
    (closed_simptcp_socket_state_active_open_finish example_connected_late).1 = 0 ∧
    (closed_simptcp_socket_state_active_open_finish example_connected_late).2.simptcp_send_count =
      0 ∧
    (closed_simptcp_socket_state_active_open_finish example_connected_late).2.simptcp_send_count <
      example_connected_late.simptcp_send_count := by
  decide

/-! ## The accept queue -/

/-- C38, a failing input: a listener with the backlog 2 and an empty queue takes
two SYN, with no `accept` in between.  Each spawns a child (slots 2 and 3) and
the number of pending requests is 2, but the queue holds one child only: the
second SYN has put its child in `new_conn_req[0]`, over the first one.  A whole
`accept` takes the child of slot 3 and leaves one pending request and an empty
queue; the next `accept` passes its first wait loop, finds `new_conn_req[0]`
null and returns -1: the child of slot 2 is never returned. -/
theorem listen_queue_loses_first_child :
    example_listener_two.socket_state = simptcp_socket_state.listen ∧
    example_listener_two.max_conn_req_backlog = 2 ∧
    example_listener_two.new_conn_req = some [none, none] ∧
    (slot example_two_syn 2).map (fun c => c.socket_type) =
      some simptcp_socket_type.nonlistening_server ∧
    (slot example_two_syn 3).map (fun c => c.socket_type) =
      some simptcp_socket_type.nonlistening_server ∧
    (slot example_two_syn 0).map (fun l => l.pending_conn_req) = some 2 ∧
    (slot example_two_syn 0).map (fun l => l.new_conn_req) = some (some [some 3, none]) ∧
    (slot example_two_syn 0).map (fun l => l.new_conn_req.map queue_children) =
      some (some 1) ∧
    (slot example_accepted_one 3).map (fun c => c.socket_state) =
      some simptcp_socket_state.established ∧
    (slot example_accepted_one 0).map (fun l => l.pending_conn_req) = some 1 ∧
    (slot example_accepted_one 0).map (fun l => l.new_conn_req.map queue_children) =
      some (some 0) ∧
    (slot example_accepted_one 0).map listen_simptcp_socket_state_accept_wait_request =
      some false ∧
    (listen_simptcp_socket_state_accept_start example_cfg example_accepted_one 0 true
      example_now).map (fun r => (r.1, r.2.2)) = some (some (-1), []) ∧
    (slot example_accepted_one 2).map (fun c => c.socket_state) =
      some simptcp_socket_state.closed := by
  decide

/-! ## The out buffer of a sender that waits -/

/-- C39, a failing input: the example client has sent "hello" and waits for its
ACK, the data PDU in its out buffer (21 bytes, flags 0).  A data PDU of the peer
arrives in order: the handler builds its ACK in the out buffer, over the data
PDU (16 bytes, flags ACK), and the `send` still waits.  The handler of the
timeout then sends that ACK again, not the data PDU.  A FIN of the peer
overwrites the out buffer in the same way. -/
theorem established_process_pdu_overwrites_out_buffer :
    example_sending.socket_state = simptcp_socket_state.established ∧
    established_simptcp_socket_state_send_wait example_sending = true ∧
    simptcp_get_flags example_sending.out_buffer = 0 ∧
    example_sending.out_len = 21 ∧
    datagram_payload (out_datagram example_sending) = example_hello ∧
    simptcp_get_flags (example_data 1 1) = 0 ∧
    simptcp_get_seq_num (example_data 1 1) = example_sending.next_ack_num ∧
    example_sending_interrupted.socket_state = simptcp_socket_state.established ∧
    established_simptcp_socket_state_send_wait example_sending_interrupted = true ∧
    example_sending_interrupted.out_buffer ≠ example_sending.out_buffer ∧
    example_sending_interrupted.out_len = 16 ∧
    simptcp_get_flags example_sending_interrupted.out_buffer = example_cfg.ACK ∧
    (handle_timeout example_sending_interrupted true example_now).2 =
      [out_datagram example_sending_interrupted] ∧
    (handle_timeout example_sending_interrupted true example_now).2 ≠
      [out_datagram example_sending] ∧
    (handle_timeout example_sending_interrupted true example_now).2.map
      (fun d => (simptcp_get_flags d.buf, d.len)) = [(example_cfg.ACK, 16)] ∧
    simptcp_get_flags (example_pdu 4 1 1) = example_cfg.FIN ∧
    (established_simptcp_socket_state_process_simptcp_pdu example_cfg example_sending
      (example_pdu 4 1 1) 16 true).1.out_buffer ≠ example_sending.out_buffer ∧
    (established_simptcp_socket_state_process_simptcp_pdu example_cfg example_sending
      (example_pdu 4 1 1) 16 true).1.out_len = 16 := by
  decide

/-! ## State ESTABLISHED: a message larger than the buffer -/

/-- C40, a failing input: the example client, whose buffer has 32 bytes, sends a
message of 17 bytes.  `make_pdu` returns -1, yet
`established_simptcp_socket_state_send` sends the PDU of 33 bytes, adds one to
`next_seq_num`, leaves the PDU in the out buffer with `out_len` 33 and waits
for the ACK; when the ACK arrives it returns 0. -/
theorem established_send_sends_oversized_message :
    example_client.socket_state = simptcp_socket_state.established ∧
    example_long.length = 17 ∧
    example_cfg.SIMPTCP_SOCKET_MAX_BUFFER_SIZE < SIMPTCP_GHEADER_SIZE + example_long.length ∧
    (make_pdu example_cfg example_client example_long 0).2 = -1 ∧
    (established_simptcp_socket_state_send_start example_cfg example_client example_long true
      example_now).2.map (fun d => (d.len, datagram_payload d)) = [(33, example_long)] ∧
    (established_simptcp_socket_state_send_start example_cfg example_client example_long true
      example_now).1.next_seq_num = example_client.next_seq_num + 1 ∧
    (established_simptcp_socket_state_send_start example_cfg example_client example_long true
      example_now).1.out_buffer ≠ example_client.out_buffer ∧
    example_client.out_len = 16 ∧
    (established_simptcp_socket_state_send_start example_cfg example_client example_long true
      example_now).1.out_len = 33 ∧
    established_simptcp_socket_state_send_wait
      (established_simptcp_socket_state_send_start example_cfg example_client example_long true
        example_now).1 = true ∧
    (established_simptcp_socket_state_send_finish
      (established_simptcp_socket_state_process_simptcp_pdu example_cfg
        (established_simptcp_socket_state_send_start example_cfg example_client example_long
          true example_now).1 (example_pdu 2 1 2) 16 true).1 example_long.length).1 = 0 := by
  decide

end SimpTCP
